import Mathlib

/-! Medhira audio pipeline: a shallow embedding.

Embedding of `backend/services/openaiService.js`, of the handlers of
`backend/controllers/audioController.js` and
`backend/controllers/consultationController.js`, of the legacy handler of
`backend/routes/audio.js`, of `backend/middleware/auth.js`, of the login handler of
`backend/server.js`, and of the paths of the schema in `backend/models/Consultation.js`.

* JavaScript values are the JSON-shaped values the pipeline handles (`JsVal`).
* A JavaScript exception is the `error` side of `Except JsError _`; `try/catch`
  is a `match` on that result, `finally` is a function applied on every path.
* `async/await` is sequential composition; `console.log` output and the
  simulated delays of the mock functions carry no data and are left out.
* The external collaborators (speech-to-text call, completion call, `JSON.parse`,
  the document store, the file system) are fields of `Env` or explicit state
  in `World`.
-/

namespace Medhira

/-! ## JavaScript values -/

/-- JavaScript values that flow through the pipeline. A number is kept as the
decimal `mantissa * 10 ^ exp10` it was written as (rounding to a double is not
modelled); `date` is the result of `new Date()`. -/
inductive JsVal where
  | undefined
  | null
  | bool (b : Bool)
  | num (mantissa : Int) (exp10 : Int)
  | str (s : String)
  | date (t : Nat)
  | arr (items : List JsVal)
  | obj (fields : List (String × JsVal))
  deriving Inhabited

/-- A thrown JavaScript `Error`: its `message` and its `partialData` property
(`undefined` unless somebody sets it). -/
structure JsError where
  message : String
  partialData : JsVal := JsVal.undefined
  deriving Inhabited

/-- The expression `new Error(message)`. -/
def mkError (message : String) : JsError := { message := message }

/-- JavaScript `ToBoolean`. -/
def truthy : JsVal → Bool
  | .undefined => false
  | .null => false
  | .bool b => b
  | .num m _ => decide (m ≠ 0)
  | .str s => decide (s ≠ "")
  | .date _ => true
  | .arr _ => true
  | .obj _ => true

/-- JavaScript `typeof`. -/
def typeOf : JsVal → String
  | .undefined => "undefined"
  | .null => "object"
  | .bool _ => "boolean"
  | .num _ _ => "number"
  | .str _ => "string"
  | .date _ => "object"
  | .arr _ => "object"
  | .obj _ => "object"

/-- Text of a value inside a template literal; exact on strings, `undefined`, `null`,
booleans and integers (the schema types `status` as a string). -/
def jsToString : JsVal → String
  | .undefined => "undefined"
  | .null => "null"
  | .bool b => if b then "true" else "false"
  | .num m e => if e = 0 then toString m else toString m ++ "e" ++ toString e
  | .str s => s
  | .date t => toString t
  | .arr _ => "[object Array]"
  | .obj _ => "[object Object]"

/-- The comparison `v === ''`. -/
def isEmptyStr : JsVal → Bool
  | .str s => decide (s = "")
  | _ => false

/-- First binding of `key` in a property list, `undefined` when absent. -/
def lookupField (key : String) : List (String × JsVal) → JsVal
  | [] => .undefined
  | (k, v) :: rest => if k = key then v else lookupField key rest

/-- Whether `key` is bound in a property list. -/
def hasField (key : String) : List (String × JsVal) → Bool
  | [] => false
  | (k, _) :: rest => if k = key then true else hasField key rest

/-- Assignment `o[key] = v` on a property list: an existing property keeps its
position, a new one is appended. -/
def setField (key : String) (v : JsVal) : List (String × JsVal) → List (String × JsVal)
  | [] => [(key, v)]
  | (k, w) :: rest => if k = key then (k, v) :: rest else (k, w) :: setField key v rest

/-- The function `Object.assign(target, source)` on property lists, also the object
literal spread followed by further keys. -/
def assignFields (target source : List (String × JsVal)) : List (String × JsVal) :=
  source.foldl (fun acc kv => setField kv.1 kv.2 acc) target

/-- Decimal digits of an array index, most significant first. -/
def indexKey (n : Nat) : String := toString n

/-- Pairs `("0", x0), ("1", x1), ...` of an array's own index properties. -/
def indexEntries : Nat → List JsVal → List (String × JsVal)
  | _, [] => []
  | i, x :: xs => (indexKey i, x) :: indexEntries (i + 1) xs

/-- Own enumerable string-keyed properties of a value, as copied by `...v`
and by `Object.assign(_, v)`. -/
def ownEntries : JsVal → List (String × JsVal)
  | .obj fields => fields
  | .arr items => indexEntries 0 items
  | .str s => indexEntries 0 (s.data.map (fun c => JsVal.str (String.singleton c)))
  | _ => []

/-- Property read `v[key]` (also `v.key`). Reading a property of `undefined`
or `null` throws a `TypeError`; methods are not values of this model. -/
def getProp (v : JsVal) (key : String) : Except JsError JsVal :=
  match v with
  | .undefined => .error (mkError ("Cannot read properties of undefined (reading " ++ key ++ ")"))
  | .null => .error (mkError ("Cannot read properties of null (reading " ++ key ++ ")"))
  | .obj fields => .ok (lookupField key fields)
  | .arr items =>
      if key = "length" then .ok (.num items.length 0)
      else .ok (lookupField key (indexEntries 0 items))
  | .str s =>
      if key = "length" then .ok (.num s.length 0)
      else .ok (lookupField key (ownEntries (.str s)))
  | _ => .ok .undefined

/-! ## Text primitives of the platform -/

/-- White space and line terminators removed by `String.prototype.trim` and
matched by the regular-expression class `\s`. -/
def jsIsWhiteSpace (c : Char) : Bool :=
  let n := c.toNat
  n = 9 || n = 10 || n = 11 || n = 12 || n = 13 || n = 32 || n = 160 || n = 5760 ||
  (8192 ≤ n && n ≤ 8202) || n = 8232 || n = 8233 || n = 8239 || n = 8287 ||
  n = 12288 || n = 65279

/-- Characters of `s.trim()`. -/
def jsTrimChars (cs : List Char) : List Char :=
  ((cs.dropWhile jsIsWhiteSpace).reverse.dropWhile jsIsWhiteSpace).reverse

/-- The method call `s.trim()`. -/
def jsTrim (s : String) : String := String.mk (jsTrimChars s.data)

/-- The method call `v.trim()` on an arbitrary value: only strings have the method. -/
def callTrim (v : JsVal) : Except JsError String :=
  match v with
  | .str s => .ok (jsTrim s)
  | .undefined => .error (mkError "Cannot read properties of undefined (reading trim)")
  | .null => .error (mkError "Cannot read properties of null (reading trim)")
  | _ => .error (mkError "trim is not a function")

/-- Result `m[0]` of `text.match(/\{[\s\S]*\}/)`, `none` for a `null` match. The
pattern is greedy: the match starts at the first opening brace and ends at
the last closing brace after it. -/
def matchBraceSpanChars (cs : List Char) : Option (List Char) :=
  match cs.dropWhile (fun c => c ≠ '{') with
  | [] => none
  | rest =>
      match rest.reverse.dropWhile (fun c => c ≠ '}') with
      | [] => none
      | r => some r.reverse

/-- String form of `matchBraceSpanChars`. -/
def matchBraceSpan (text : String) : Option String :=
  (matchBraceSpanChars text.data).map String.mk

/-- Whether `pat` starts the character list. -/
def startsWithChars : List Char → List Char → Bool
  | [], _ => true
  | _ :: _, [] => false
  | p :: ps, c :: cs => if p = c then startsWithChars ps cs else false

/-- Splits a text at the first occurrence of a non-empty `pat`: the part before
it and the part after it. -/
def splitAtFirst (pat : List Char) : List Char → Option (List Char × List Char)
  | [] => none
  | c :: cs =>
      if startsWithChars pat (c :: cs) then some ([], (c :: cs).drop pat.length)
      else
        match splitAtFirst pat cs with
        | some (before, after) => some (c :: before, after)
        | none => none

/-- Expansion of the replacement text of `String.prototype.replace` for a string
pattern: `$$`, `$&`, the dollar-backtick and the dollar-quote forms are special,
everything else is literal. -/
def expandReplacement (matched before after : List Char) : List Char → List Char
  | [] => []
  | [c] => [c]
  | c :: d :: rest =>
      if c = '$' then
        if d = '$' then '$' :: expandReplacement matched before after rest
        else if d = '&' then matched ++ expandReplacement matched before after rest
        else if d = Char.ofNat 96 then before ++ expandReplacement matched before after rest
        else if d = Char.ofNat 39 then after ++ expandReplacement matched before after rest
        else c :: expandReplacement matched before after (d :: rest)
      else c :: expandReplacement matched before after (d :: rest)

/-- The method call `text.replace(pat, replacement)` with a string pattern: only the first
occurrence is replaced. -/
def jsReplace (text pat replacement : String) : String :=
  match splitAtFirst pat.data text.data with
  | none => text
  | some (before, after) =>
      String.mk (before ++ expandReplacement pat.data before after replacement.data ++ after)

/-! ## A reference `JSON.parse`

`JSON.parse` is a platform built-in. The service functions take it from `Env`;
the definitions below are the ECMA-404 grammar, used where a concrete run of
the code is evaluated. -/

/-- JSON insignificant white space. -/
def isJsonWs (c : Char) : Bool :=
  c = ' ' || c = Char.ofNat 9 || c = Char.ofNat 10 || c = Char.ofNat 13

/-- Drops leading JSON white space. -/
def skipWs : List Char → List Char
  | [] => []
  | c :: cs => if isJsonWs c then skipWs cs else c :: cs

/-- Value of a decimal digit. -/
def digitVal (c : Char) : Option Nat :=
  if 48 ≤ c.toNat ∧ c.toNat ≤ 57 then some (c.toNat - 48) else none

/-- Value of a hexadecimal digit. -/
def hexVal (c : Char) : Option Nat :=
  let n := c.toNat
  if 48 ≤ n ∧ n ≤ 57 then some (n - 48)
  else if 97 ≤ n ∧ n ≤ 102 then some (n - 87)
  else if 65 ≤ n ∧ n ≤ 70 then some (n - 55)
  else none

/-- Longest run of leading decimal digits and the remaining input. -/
def takeDigits : List Char → List Nat × List Char
  | [] => ([], [])
  | c :: cs =>
      match digitVal c with
      | some d => ((d :: (takeDigits cs).1), (takeDigits cs).2)
      | none => ([], c :: cs)

/-- Number denoted by a digit sequence. -/
def digitsValue (ds : List Nat) : Nat := ds.foldl (fun acc d => 10 * acc + d) 0

/-- Optional fraction part `.ddd` of a JSON number. -/
def parseFraction : List Char → Option (List Nat × List Char)
  | '.' :: cs =>
      match takeDigits cs with
      | ([], _) => none
      | (ds, rest) => some (ds, rest)
  | cs => some ([], cs)

/-- Digits of an exponent after its sign. -/
def parseExpDigits (negative : Bool) (cs : List Char) : Option (Int × List Char) :=
  match takeDigits cs with
  | ([], _) => none
  | (ds, rest) =>
      some ((if negative then - (digitsValue ds : Int) else (digitsValue ds : Int)), rest)

/-- Optional exponent part of a JSON number. -/
def parseExponent : List Char → Option (Int × List Char)
  | c :: cs =>
      if c = 'e' ∨ c = 'E' then
        match cs with
        | '+' :: r => parseExpDigits false r
        | '-' :: r => parseExpDigits true r
        | r => parseExpDigits false r
      else some (0, c :: cs)
  | [] => some (0, [])

/-- Unsigned part of a JSON number. -/
def parseUnsigned (negative : Bool) (cs : List Char) : Option (JsVal × List Char) :=
  match takeDigits cs with
  | ([], _) => none
  | (d :: ds, rest) =>
      if d = 0 ∧ ds ≠ [] then none
      else
        match parseFraction rest with
        | none => none
        | some (fs, rest1) =>
            match parseExponent rest1 with
            | none => none
            | some (e, rest2) =>
                let m : Int := digitsValue ((d :: ds) ++ fs)
                some (.num (if negative then - m else m) (e - fs.length), rest2)

/-- A JSON number. -/
def parseNumber : List Char → Option (JsVal × List Char)
  | '-' :: cs => parseUnsigned true cs
  | cs => parseUnsigned false cs

/-- Four hexadecimal digits of a `\u` escape. -/
def parseHex4 : List Char → Option (Nat × List Char)
  | a :: b :: c :: d :: rest =>
      match hexVal a, hexVal b, hexVal c, hexVal d with
      | some x, some y, some z, some w => some (((x * 16 + y) * 16 + z) * 16 + w, rest)
      | _, _, _, _ => none
  | _ => none

/-- Character of a `\u` escape whose code unit is `n`; a high surrogate followed
by an escaped low surrogate is one character, a lone surrogate is U+FFFD. -/
def unicodeEscape (n : Nat) (rest : List Char) : Char × List Char :=
  if 55296 ≤ n ∧ n < 56320 then
    match rest with
    | '\\' :: 'u' :: rest1 =>
        match parseHex4 rest1 with
        | some (m, rest2) =>
            if 56320 ≤ m ∧ m < 57344 then
              (Char.ofNat (65536 + (n - 55296) * 1024 + (m - 56320)), rest2)
            else (Char.ofNat 65533, rest)
        | none => (Char.ofNat 65533, rest)
    | _ => (Char.ofNat 65533, rest)
  else if 56320 ≤ n ∧ n < 57344 then (Char.ofNat 65533, rest)
  else (Char.ofNat n, rest)

/-- Single-character escapes of a JSON string. -/
def simpleEscape (c : Char) : Option Char :=
  if c = '"' then some '"'
  else if c = '\\' then some '\\'
  else if c = '/' then some '/'
  else if c = 'b' then some (Char.ofNat 8)
  else if c = 'f' then some (Char.ofNat 12)
  else if c = 'n' then some (Char.ofNat 10)
  else if c = 'r' then some (Char.ofNat 13)
  else if c = 't' then some (Char.ofNat 9)
  else none

/-- Body of a JSON string after its opening quote: the characters denoted
and the input after the closing quote. -/
def parseStringBody : Nat → List Char → Option (List Char × List Char)
  | 0, _ => none
  | _ + 1, [] => none
  | fuel + 1, c :: cs =>
      if c = '"' then some ([], cs)
      else if c = '\\' then
        match cs with
        | [] => none
        | e :: rest =>
            if e = 'u' then
              match parseHex4 rest with
              | none => none
              | some (n, rest1) =>
                  match parseStringBody fuel (unicodeEscape n rest1).2 with
                  | none => none
                  | some (s, r) => some ((unicodeEscape n rest1).1 :: s, r)
            else
              match simpleEscape e with
              | none => none
              | some x =>
                  match parseStringBody fuel rest with
                  | none => none
                  | some (s, r) => some (x :: s, r)
      else if c.toNat < 32 then none
      else
        match parseStringBody fuel cs with
        | none => none
        | some (s, r) => some (c :: s, r)

/-- A JSON string after its opening quote. -/
def parseString (cs : List Char) : Option (String × List Char) :=
  match parseStringBody (cs.length + 1) cs with
  | none => none
  | some (s, r) => some (String.mk s, r)

mutual
/-- A JSON value, with the input left after it. -/
def parseValue : Nat → List Char → Option (JsVal × List Char)
  | 0, _ => none
  | fuel + 1, cs =>
      match skipWs cs with
      | '{' :: rest =>
          match skipWs rest with
          | '}' :: rest1 => some (.obj [], rest1)
          | rest1 => parseMembers fuel rest1 []
      | '[' :: rest =>
          match skipWs rest with
          | ']' :: rest1 => some (.arr [], rest1)
          | rest1 => parseElements fuel rest1 []
      | '"' :: rest =>
          match parseString rest with
          | none => none
          | some (s, r) => some (.str s, r)
      | 't' :: 'r' :: 'u' :: 'e' :: rest => some (.bool true, rest)
      | 'f' :: 'a' :: 'l' :: 's' :: 'e' :: rest => some (.bool false, rest)
      | 'n' :: 'u' :: 'l' :: 'l' :: rest => some (.null, rest)
      | other => parseNumber other
/-- Elements of a non-empty JSON array up to its closing bracket. -/
def parseElements : Nat → List Char → List JsVal → Option (JsVal × List Char)
  | 0, _, _ => none
  | fuel + 1, cs, acc =>
      match parseValue fuel cs with
      | none => none
      | some (v, rest) =>
          match skipWs rest with
          | ',' :: rest1 => parseElements fuel rest1 (acc ++ [v])
          | ']' :: rest1 => some (.arr (acc ++ [v]), rest1)
          | _ => none
/-- Members of a non-empty JSON object up to its closing brace; a repeated key
keeps its first position and takes the last value. -/
def parseMembers : Nat → List Char → List (String × JsVal) → Option (JsVal × List Char)
  | 0, _, _ => none
  | fuel + 1, cs, acc =>
      match skipWs cs with
      | '"' :: rest =>
          match parseString rest with
          | none => none
          | some (k, rest1) =>
              match skipWs rest1 with
              | ':' :: rest2 =>
                  match parseValue fuel rest2 with
                  | none => none
                  | some (v, rest3) =>
                      match skipWs rest3 with
                      | ',' :: rest4 => parseMembers fuel rest4 (setField k v acc)
                      | '}' :: rest4 => some (.obj (setField k v acc), rest4)
                      | _ => none
              | _ => none
      | _ => none
end

/-- Reference `JSON.parse(text)`: one value surrounded by white space, anything else
is a `SyntaxError`. -/
def JSON_parse (text : String) : Except JsError JsVal :=
  match parseValue (2 * text.data.length + 2) text.data with
  | none => .error (mkError "Unexpected token in JSON")
  | some (v, rest) =>
      match skipWs rest with
      | [] => .ok v
      | _ => .error (mkError "Unexpected non-whitespace character after JSON")

/-! ## File system -/

/-- A file of the upload directory: its path, its size in bytes, and whether
removing it is refused by the operating system. -/
structure FileEntry where
  path : String
  size : Nat
  locked : Bool
  deriving Inhabited

/-- The files that exist. -/
abbrev FileSystem := List FileEntry

/-- The call `fs.existsSync(path)`. -/
def existsSync (files : FileSystem) (path : String) : Bool :=
  files.any (fun e => decide (e.path = path))

/-- The call `fs.statSync(path).size`; it throws when the file is missing. -/
def statSync (files : FileSystem) (path : String) : Except JsError Nat :=
  match files.find? (fun e => decide (e.path = path)) with
  | some e => .ok e.size
  | none => .error (mkError ("ENOENT: no such file or directory, stat " ++ path))

/-- The call `fs.unlinkSync(path)`; it throws when the file is missing or
cannot be removed, and then leaves the file system as it was. -/
def unlinkSync (files : FileSystem) (path : String) : Except JsError FileSystem :=
  match files.find? (fun e => decide (e.path = path)) with
  | none => .error (mkError ("ENOENT: no such file or directory, unlink " ++ path))
  | some e =>
      if e.locked then .error (mkError ("EPERM: operation not permitted, unlink " ++ path))
      else .ok (files.filter (fun f => decide (f.path ≠ path)))

/-! ## Environment -/

/-- What the process is started with and the behaviour of its collaborators.
`transcriptionsCreate path` is the outcome of
`openai.audio.transcriptions.create` on a stream of that file,
`completionsCreate prompt` the outcome of `openai.chat.completions.create`
with that user prompt (either the thrown error's message or the response),
`storeFailure n` the message with which the `n`-th `findByIdAndUpdate` call
is rejected (a lost connection, or a value the schema cannot cast),
`createFailure` the one with which `Consultation.create` is,
`queryFailure` the one with which a query (`findOne`, `findById`,
`findOneAndDelete`, `findByIdAndDelete`) is,
`validateUpdate update` the message with which the store library's update
validators (`runValidators: true`) reject an update against the schema. -/
structure Env where
  apiKey : Option String
  jsonParse : String → Except JsError JsVal
  transcriptionsCreate : String → Except String JsVal
  completionsCreate : String → Except String JsVal
  storeFailure : Nat → Option String
  createFailure : Option String
  queryFailure : Option String
  validateUpdate : List (String × JsVal) → Option String
  now : Nat

/-- The property `length` of a string: its number of UTF-16 code units, two for a
character outside the basic plane. -/
def utf16Length (s : String) : Nat :=
  s.data.foldl (fun n c => n + (if c.toNat < 65536 then 1 else 2)) 0

/-- Truth value of the constant `hasValidApiKey`: `OPENAI_API_KEY` is set,
starts with `sk-` and has a `length` above 20. -/
def hasValidApiKey (env : Env) : Bool :=
  match env.apiKey with
  | none => false
  | some key =>
      decide (key ≠ "") && startsWithChars "sk-".data key.data && decide (utf16Length key > 20)

/-- The OpenAI client object, as far as the service uses it. -/
structure OpenAIClient where
  transcriptionsCreate : String → Except String JsVal
  completionsCreate : String → Except String JsVal

/-- The constant `openai`: `hasValidApiKey ? new OpenAI(config.openai) : null`. -/
def openai (env : Env) : Option OpenAIClient :=
  if hasValidApiKey env then some ⟨env.transcriptionsCreate, env.completionsCreate⟩ else none

/-- The call `openai.audio.transcriptions.create(...)` on a stream of the file; on the
`null` client the property read throws a `TypeError`. -/
def openai.transcriptionsCreate (env : Env) (audioPath : String) : Except String JsVal :=
  match openai env with
  | none => .error "Cannot read properties of null (reading audio)"
  | some client => client.transcriptionsCreate audioPath

/-- The call `openai.chat.completions.create(...)` with the given user prompt; on the
`null` client the property read throws a `TypeError`. -/
def openai.completionsCreate (env : Env) (prompt : String) : Except String JsVal :=
  match openai env with
  | none => .error "Cannot read properties of null (reading chat)"
  | some client => client.completionsCreate prompt

/-! ## `services/openaiService.js` -/

/-- The constant `MEDICAL_SUMMARY_PROMPT`. -/
def MEDICAL_SUMMARY_PROMPT : String :=
  "\n" ++
  "You are a medical assistant analyzing a doctor-patient consultation transcript. Extract key medical information and structure it into a professional medical summary.\n" ++
  "\n" ++
  "TRANSCRIPT:\n" ++
  "\x7btranscript\x7d\n" ++
  "\n" ++
  "Please analyze this transcript and return a structured JSON object with the following fields:\n" ++
  "- patientName: Extract or infer patient's name if mentioned, otherwise use \"Patient\"\n" ++
  "- age: Extract patient's age if mentioned, otherwise use \"Not specified\"\n" ++
  "- gender: Extract patient's gender if mentioned, otherwise use \"Not specified\"\n" ++
  "- symptoms: Detailed description of patient's symptoms and chief complaint\n" ++
  "- history: Relevant medical history mentioned\n" ++
  "- examination: Physical examination findings mentioned\n" ++
  "- diagnosis: Doctor's diagnosis or assessment\n" ++
  "- prescription: Medications or treatments prescribed\n" ++
  "- followUp: Follow-up instructions or recommendations\n" ++
  "\n" ++
  "Return ONLY valid JSON, no additional text.\n"

/-- The constant `MOCK_TRANSCRIPT`. -/
def MOCK_TRANSCRIPT : String :=
  "DOCTOR: Good morning, how are you feeling today?\n" ++
  "PATIENT: Not too bad, doctor. Still having some headaches though.\n" ++
  "DOCTOR: On a scale of 1-10, how severe is the pain?\n" ++
  "PATIENT: About a 6 or 7. It's been persistent.\n" ++
  "DOCTOR: Any other symptoms? Nausea, vision changes?\n" ++
  "PATIENT: Some occasional dizziness, but no vision problems.\n" ++
  "DOCTOR: Let me check your blood pressure. 130/85, that's normal. Any family history of migraines?\n" ++
  "PATIENT: Yes, my mother used to get migraines.\n" ++
  "DOCTOR: Based on your symptoms and family history, this appears to be tension headaches. I recommend ibuprofen as needed and stress management techniques.\n" ++
  "PATIENT: Thank you, doctor.\n" ++
  "DOCTOR: Follow up in 2 weeks if the symptoms persist."

/-- The constant `MOCK_SUMMARY`. -/
def MOCK_SUMMARY : JsVal :=
  .obj [
    ("patientName", .str "John Smith"),
    ("age", .str "45"),
    ("gender", .str "Male"),
    ("symptoms", .str "Persistent headaches, pain level 6-7/10, occasional dizziness"),
    ("history", .str "Family history of migraines (mother)"),
    ("examination", .str "Blood pressure 130/85 - normal"),
    ("diagnosis", .str "Tension headaches"),
    ("prescription", .str "Ibuprofen as needed for pain relief"),
    ("followUp", .str "Return in 2 weeks if symptoms persist, practice stress management techniques")]

/-- The function `mockTranscribeAudio`. -/
def mockTranscribeAudio (_audioPath : String) : Except JsError JsVal :=
  .ok (.str MOCK_TRANSCRIPT)

/-- The function `mockGenerateMedicalSummary`. -/
def mockGenerateMedicalSummary (_transcript : JsVal) : Except JsError JsVal :=
  .ok MOCK_SUMMARY

/-- The `try` block of `transcribeAudio`. -/
def transcribeAudio.tryBlock (env : Env) (files : FileSystem) (audioPath : String) :
    Except JsError JsVal :=
  if !hasValidApiKey env then mockTranscribeAudio audioPath
  else if !existsSync files audioPath then
    .error (mkError ("Audio file not found: " ++ audioPath))
  else
    match openai.transcriptionsCreate env audioPath with
    | .error msg => .error (mkError msg)
    | .ok transcription => getProp transcription "text"

/-- The function `transcribeAudio`: any error of the `try` block is answered
with the mock transcript. -/
def transcribeAudio (env : Env) (files : FileSystem) (audioPath : String) :
    Except JsError JsVal :=
  match transcribeAudio.tryBlock env files audioPath with
  | .ok text => .ok text
  | .error _ => mockTranscribeAudio audioPath

/-- The expression `completion.choices[0].message.content`. -/
def completionContent (completion : JsVal) : Except JsError JsVal :=
  (getProp completion "choices").bind fun choices =>
  (getProp choices "0").bind fun choice =>
  (getProp choice "message").bind fun message =>
  getProp message "content"

/-- The expression `completion.choices[0].message.content.trim()`. -/
def completionText (completion : JsVal) : Except JsError String :=
  (completionContent completion).bind callTrim

/-- The inner `try/catch` of `generateMedicalSummary`: strict parse, else the
brace span of the text, else the mock summary. -/
def generateMedicalSummary.parseResponse (env : Env) (transcript : JsVal)
    (summaryText : String) : Except JsError JsVal :=
  match env.jsonParse summaryText with
  | .ok summaryData => .ok summaryData
  | .error _ =>
      match matchBraceSpan summaryText with
      | some jsonMatch =>
          match env.jsonParse jsonMatch with
          | .ok extractedJson => .ok extractedJson
          | .error _ => mockGenerateMedicalSummary transcript
      | none => mockGenerateMedicalSummary transcript

/-- The outer `try` block of `generateMedicalSummary`. A truthy value that is
not a string has no `trim` method, so the guard itself throws a `TypeError`. -/
def generateMedicalSummary.tryBlock (env : Env) (transcript : JsVal) : Except JsError JsVal :=
  if !truthy transcript then .error (mkError "Empty transcript provided")
  else
    match transcript with
    | .str text =>
        if (jsTrim text).length = 0 then .error (mkError "Empty transcript provided")
        else if !hasValidApiKey env then mockGenerateMedicalSummary transcript
        else
          match openai.completionsCreate env
              (jsReplace MEDICAL_SUMMARY_PROMPT "\x7btranscript\x7d" text) with
          | .error msg => .error (mkError msg)
          | .ok completion =>
              match completionText completion with
              | .error e => .error e
              | .ok summaryText => generateMedicalSummary.parseResponse env transcript summaryText
    | _ => .error (mkError "transcript.trim is not a function")

/-- The function `generateMedicalSummary`: any error of the outer `try` block is
answered with the mock summary. -/
def generateMedicalSummary (env : Env) (transcript : JsVal) : Except JsError JsVal :=
  match generateMedicalSummary.tryBlock env transcript with
  | .ok summary => .ok summary
  | .error _ => mockGenerateMedicalSummary transcript

/-- The object returned by `processMedicalAudio`; `error` is `none` where the
property is absent. -/
structure ProcessingResult where
  transcript : JsVal
  summary : JsVal
  success : Bool
  error : Option String

/-- The function `processMedicalAudio`. -/
def processMedicalAudio (env : Env) (files : FileSystem) (audioPath : String) :
    Except JsError ProcessingResult :=
  match transcribeAudio env files audioPath with
  | .error e =>
      .ok { success := false, error := some e.message, transcript := .null, summary := .null }
  | .ok transcript =>
      match generateMedicalSummary env transcript with
      | .error e =>
          .ok { success := false, error := some e.message, transcript := .null, summary := .null }
      | .ok summary =>
          .ok { transcript := transcript, summary := summary, success := true, error := none }

/-! ## Document store and process state -/

/-- A stored Consultation document: its `_id` and its fields. -/
structure Doc where
  id : Nat
  fields : List (String × JsVal)

/-- One call of `Consultation.findByIdAndUpdate(id, update)`: whether the call
was rejected (`threw`) or went through. -/
structure WriteEvent where
  id : Nat
  update : List (String × JsVal)
  threw : Bool

/-- The mutable state around the controller: the files, the stored documents,
the next fresh `_id`, and the chronological log of update calls. -/
structure World where
  files : FileSystem
  db : List Doc
  nextId : Nat
  writes : List WriteEvent

/-- The kinds of path the Consultation schema declares. -/
inductive SchemaType where
  | mixed
  | string (trim : Bool)
  | number
  | date
  deriving DecidableEq

/-- The paths of `consultationSchema` in `models/Consultation.js`, with the two paths of
`timestamps: true`. The schema is strict: no other key is stored. -/
def consultationPaths : List (String × SchemaType) :=
  [("user", .mixed), ("patientName", .string true), ("age", .string true),
   ("gender", .string true), ("symptoms", .string true), ("history", .string true),
   ("examination", .string true), ("diagnosis", .string true),
   ("prescription", .string true), ("followUp", .string true),
   ("audioFile", .string true), ("originalName", .string true), ("fileSize", .number),
   ("transcript", .string true), ("driveLink", .string true), ("fileId", .string true),
   ("fileName", .string true), ("status", .string false), ("error", .string true),
   ("processedAt", .date), ("createdAt", .date), ("updatedAt", .date)]

/-- The value a path stores when an update writes `v` to it: a string is trimmed on a
path declared with `trim`, a number or boolean becomes its text on a String path,
`null` is kept. `none` stands for a key that is not written: `undefined` is stripped
from an update, and a value the path cannot take makes the store reject the call, which
is a rejection in the sense of `Env.storeFailure`. -/
def castValue : SchemaType → JsVal → Option JsVal
  | .mixed, .undefined => none
  | .mixed, v => some v
  | .string trim, .str s => some (.str (if trim then jsTrim s else s))
  | .string _, .num m e => some (.str (jsToString (.num m e)))
  | .string _, .bool b => some (.str (jsToString (.bool b)))
  | .string _, .null => some .null
  | .string _, _ => none
  | .number, .num m e => some (.num m e)
  | .number, .null => some .null
  | .number, _ => none
  | .date, .date t => some (.date t)
  | .date, .null => some .null
  | .date, _ => none

/-- What the store writes for one declared path of an update object, if anything: a
key the object does not have reads as `undefined` and is not written. -/
def castEntry (update : List (String × JsVal)) (p : String × SchemaType) :
    Option (String × JsVal) :=
  (castValue p.2 (lookupField p.1 update)).map (fun v => (p.1, v))

/-- The update the store applies for an update object: for each declared path the object
has, the value cast to the path; keys the schema does not declare are dropped. -/
def schemaCast (update : List (String × JsVal)) : List (String × JsVal) :=
  consultationPaths.filterMap (castEntry update)

/-- The call `Consultation.findByIdAndUpdate(id, update)`: unless the store rejects the
call, the declared paths of `update` are set, cast, on the document with that id (no
document, no change). -/
def findByIdAndUpdate (env : Env) (id : Nat) (update : List (String × JsVal)) (w : World) :
    Except JsError Unit × World :=
  match env.storeFailure w.writes.length with
  | some msg =>
      (.error (mkError msg),
        { w with writes := w.writes ++ [{ id := id, update := update, threw := true }] })
  | none =>
      (.ok (),
        { w with
          db := w.db.map (fun d =>
            if d.id = id then { d with fields := assignFields d.fields (schemaCast update) }
            else d)
          writes := w.writes ++ [{ id := id, update := update, threw := false }] })

/-- Whether a value is `undefined` or `null`. -/
def isNullish : JsVal → Bool
  | .undefined => true
  | .null => true
  | _ => false

/-- The call `Consultation.create(fields)`: the id of the new document. The schema marks
`user` as required, so a document without owner is rejected; so is any call
the store rejects. -/
def Consultation.create (env : Env) (fields : List (String × JsVal)) (w : World) :
    Except JsError Nat × World :=
  match env.createFailure with
  | some msg => (.error (mkError msg), w)
  | none =>
      if isNullish (lookupField "user" fields) then
        (.error (mkError "Consultation validation failed: user: Path user is required."), w)
      else
        (.ok w.nextId,
          { w with db := w.db ++ [{ id := w.nextId, fields := fields }], nextId := w.nextId + 1 })

/-- A stored document as a value. -/
def Doc.toJs (d : Doc) : JsVal := .obj (("_id", .num d.id 0) :: d.fields)

/-- The stored document with the given id as a value, `null` when there is none. -/
def storedDocument (id : Nat) (w : World) : JsVal :=
  match w.db.find? (fun d => decide (d.id = id)) with
  | some d => d.toJs
  | none => .null

/-- The call `Consultation.findById(id)` on the id of a document: rejected when the store
rejects queries. -/
def Consultation.findById (env : Env) (id : Nat) (w : World) : Except JsError JsVal :=
  match env.queryFailure with
  | some msg => .error (mkError msg)
  | none => .ok (storedDocument id w)

/-- Fields of the stored document with the given id. -/
def docFields (id : Nat) (w : World) : Option (List (String × JsVal)) :=
  (w.db.find? (fun d => decide (d.id = id))).map (fun d => d.fields)

/-- Value of the `status` key of an update. -/
def statusOf (update : List (String × JsVal)) : JsVal := lookupField "status" update

/-- Status values of all update calls issued, in order. -/
def issuedStatuses (w : World) : List JsVal :=
  w.writes.map (fun e => statusOf e.update)

/-- Status values of the update calls that the store accepted, in order. -/
def appliedStatuses (w : World) : List JsVal :=
  (w.writes.filter (fun e => !e.threw)).map (fun e => statusOf e.update)

/-! ## `controllers/audioController.js` -/

/-- The array `requiredFields` of `processAudioBackground`. -/
def requiredFields : List String :=
  ["patientName", "age", "gender", "symptoms", "history", "examination", "diagnosis",
   "prescription", "followUp"]

/-- Body of the `requiredFields.forEach` callback. -/
def backfillField (updateData : List (String × JsVal)) (field : String) :
    List (String × JsVal) :=
  if !truthy (lookupField field updateData) || isEmptyStr (lookupField field updateData) then
    setField field (.str "Not specified") updateData
  else updateData

/-- The loop `requiredFields.forEach(...)`. -/
def backfill (updateData : List (String × JsVal)) : List (String × JsVal) :=
  requiredFields.foldl backfillField updateData

/-- The object `updateData` of `processAudioBackground` after the backfill. -/
def completedUpdate (env : Env) (transcript summary : JsVal) : List (String × JsVal) :=
  backfill (assignFields (ownEntries summary)
    [("transcript", transcript), ("status", .str "completed"),
     ("processedAt", .date env.now), ("processingCompletedAt", .date env.now)])

/-- Message of `new Error(processingResult.error || 'Audio processing failed')`. -/
def processingErrorMessage (r : ProcessingResult) : String :=
  match r.error with
  | some msg => if msg ≠ "" then msg else "Audio processing failed"
  | none => "Audio processing failed"

/-- The `try` block of `processAudioBackground`. -/
def processAudioBackground.tryBlock (env : Env) (consultationId : Nat) (audioPath : String)
    (w : World) : Except JsError Unit × World :=
  match findByIdAndUpdate env consultationId
      [("status", .str "transcribing"), ("processingStartedAt", .date env.now)] w with
  | (.error e, w1) => (.error e, w1)
  | (.ok _, w1) =>
      if !existsSync w1.files audioPath then
        (.error (mkError ("Audio file not found: " ++ audioPath)), w1)
      else
        match statSync w1.files audioPath with
        | .error e => (.error e, w1)
        | .ok size =>
            if size = 0 then (.error (mkError "Audio file is empty"), w1)
            else
              match processMedicalAudio env w1.files audioPath with
              | .error e => (.error e, w1)
              | .ok processingResult =>
                  if !processingResult.success then
                    (.error (mkError (processingErrorMessage processingResult)), w1)
                  else if !truthy processingResult.summary
                      || decide (typeOf processingResult.summary ≠ "object") then
                    (.error (mkError "Invalid summary data received from processing"), w1)
                  else
                    findByIdAndUpdate env consultationId
                      (completedUpdate env processingResult.transcript processingResult.summary)
                      w1

/-- The object `errorUpdate` of the `catch` block of `processAudioBackground`. -/
def failureUpdate (env : Env) (error : JsError) : List (String × JsVal) :=
  let errorUpdate : List (String × JsVal) :=
    [("status", .str "failed"), ("error", .str error.message),
     ("processingFailedAt", .date env.now)]
  if truthy error.partialData then assignFields errorUpdate (ownEntries error.partialData)
  else errorUpdate

/-- The `catch` block of `processAudioBackground`. -/
def processAudioBackground.catchBlock (env : Env) (consultationId : Nat) (error : JsError)
    (w : World) : Except JsError Unit × World :=
  findByIdAndUpdate env consultationId (failureUpdate env error) w

/-- The `finally` block of `processAudioBackground`: a failed removal is logged
and swallowed. -/
def processAudioBackground.finallyBlock (audioPath : String) (w : World) : World :=
  if existsSync w.files audioPath then
    match unlinkSync w.files audioPath with
    | .ok files => { w with files := files }
    | .error _ => w
  else w

/-- The `try` and `catch` blocks of `processAudioBackground` together. -/
def processAudioBackground.tryCatch (env : Env) (consultationId : Nat) (audioPath : String)
    (w : World) : Except JsError Unit × World :=
  match processAudioBackground.tryBlock env consultationId audioPath w with
  | (.ok _, w1) => (.ok (), w1)
  | (.error e, w1) => processAudioBackground.catchBlock env consultationId e w1

/-- The function `processAudioBackground`: the result (an error is a rejected promise)
and the state at exit. -/
def processAudioBackground (env : Env) (consultationId : Nat) (audioPath : String)
    (w : World) : Except JsError Unit × World :=
  ((processAudioBackground.tryCatch env consultationId audioPath w).1,
    processAudioBackground.finallyBlock audioPath
      (processAudioBackground.tryCatch env consultationId audioPath w).2)

/-- The uploaded file as the upload middleware hands it over (`req.file`). -/
structure UploadedFile where
  path : String
  filename : String
  originalname : String
  mimetype : String
  size : Nat

/-- The parts of an HTTP request the handlers read: `req.file`, `req.user`, the id in
`req.params` (`consultationId` on the audio routes, `id` on the consultation routes)
and `req.body`. `paramId` is the document id the route parameter casts to, `none` for
a parameter that is no object id. -/
structure Request where
  file : Option UploadedFile
  user : JsVal
  paramId : Option Nat := none
  body : List (String × JsVal) := []

/-- An HTTP response: status code and JSON body. -/
structure Response where
  status : Nat
  body : JsVal

/-- The object `updateData` of the final update of `processAudioStepByStep`. -/
def stepCompletedUpdate (env : Env) (summary : JsVal) : List (String × JsVal) :=
  assignFields (ownEntries summary) [("status", .str "completed"), ("processedAt", .date env.now)]

/-- The inner `try` block of `processAudioStepByStep`. -/
def processAudioStepByStep.steps (env : Env) (id : Nat) (file : UploadedFile) (w : World) :
    Except JsError Response × World :=
  match findByIdAndUpdate env id [("status", .str "transcribing")] w with
  | (.error e, w1) => (.error e, w1)
  | (.ok _, w1) =>
      match transcribeAudio env w1.files file.path with
      | .error e => (.error e, w1)
      | .ok transcript =>
          match findByIdAndUpdate env id
              [("status", .str "summarizing"), ("transcript", transcript)] w1 with
          | (.error e, w2) => (.error e, w2)
          | (.ok _, w2) =>
              match generateMedicalSummary env transcript with
              | .error e => (.error e, w2)
              | .ok summary =>
                  match findByIdAndUpdate env id (stepCompletedUpdate env summary) w2 with
                  | (.error e, w3) => (.error e, w3)
                  | (.ok _, w3) =>
                      match unlinkSync w3.files file.path with
                      | .error e => (.error e, w3)
                      | .ok files =>
                          match Consultation.findById env id { w3 with files := files } with
                          | .error e => (.error e, { w3 with files := files })
                          | .ok consultation =>
                              (.ok { status := 200, body := .obj [
                                  ("success", .bool true),
                                  ("consultationId", .num id 0),
                                  ("status", .str "completed"),
                                  ("consultation", consultation)] },
                                { w3 with files := files })

/-- The inner `catch (stepError)` block of `processAudioStepByStep`; it always ends by
throwing. -/
def processAudioStepByStep.stepCatch (env : Env) (id : Nat) (file : UploadedFile)
    (stepError : JsError) (w : World) : Except JsError Response × World :=
  match findByIdAndUpdate env id
      [("status", .str "failed"), ("error", .str stepError.message)] w with
  | (.error e, w1) => (.error e, w1)
  | (.ok _, w1) =>
      if existsSync w1.files file.path then
        match unlinkSync w1.files file.path with
        | .error e => (.error e, w1)
        | .ok files => (.error stepError, { w1 with files := files })
      else (.error stepError, w1)

/-- The outer `try` block of `processAudioStepByStep`. -/
def processAudioStepByStep.tryBlock (env : Env) (req : Request) (w : World) :
    Except JsError Response × World :=
  match req.file with
  | none =>
      (.ok { status := 400, body := .obj [
          ("success", .bool false), ("message", .str "Please upload an audio file")] }, w)
  | some file =>
      match getProp req.user "id" with
      | .error e => (.error e, w)
      | .ok userId =>
          match Consultation.create env
              [("user", userId), ("audioFile", .str file.filename),
               ("originalName", .str file.originalname), ("fileSize", .num file.size 0),
               ("mimeType", .str file.mimetype), ("status", .str "uploaded"),
               ("patientName", .str "Processing..."),
               ("diagnosis", .str "Pending transcription")] w with
          | (.error e, w1) => (.error e, w1)
          | (.ok id, w1) =>
              match processAudioStepByStep.steps env id file w1 with
              | (.ok response, w2) => (.ok response, w2)
              | (.error stepError, w2) =>
                  processAudioStepByStep.stepCatch env id file stepError w2

/-- The handler `processAudioStepByStep`: the response sent and the state at exit. -/
def processAudioStepByStep (env : Env) (req : Request) (w : World) : Response × World :=
  match processAudioStepByStep.tryBlock env req w with
  | (.ok response, w1) => (response, w1)
  | (.error error, w1) =>
      ({ status := 500, body := .obj [
          ("success", .bool false), ("message", .str error.message)] }, w1)

/-! ## Store queries and the request handlers -/

mutual
/-- Equality of two values as the store compares a stored field with a query
value: same kind and same content. -/
def jsEq : JsVal → JsVal → Bool
  | .undefined, .undefined => true
  | .null, .null => true
  | .bool a, .bool b => a == b
  | .num m e, .num m2 e2 => m == m2 && e == e2
  | .str a, .str b => a == b
  | .date a, .date b => a == b
  | .arr xs, .arr ys => jsEqList xs ys
  | .obj fs, .obj gs => jsEqFields fs gs
  | _, _ => false
/-- Elementwise `jsEq`. -/
def jsEqList : List JsVal → List JsVal → Bool
  | [], [] => true
  | x :: xs, y :: ys => jsEq x y && jsEqList xs ys
  | _, _ => false
/-- Fieldwise `jsEq`. -/
def jsEqFields : List (String × JsVal) → List (String × JsVal) → Bool
  | [], [] => true
  | (k, x) :: xs, (k2, y) :: ys => k == k2 && jsEq x y && jsEqFields xs ys
  | _, _ => false
end

/-- Whether a document matches the filter `{ _id: id, user: user }`. -/
def matchesOwner (id : Nat) (user : JsVal) (d : Doc) : Bool :=
  decide (d.id = id) && jsEq (lookupField "user" d.fields) user

/-- The error with which the store library rejects a query whose `_id` is no object id
(the message names the value, which this development does not carry). -/
def castError : JsError := mkError "Cast to ObjectId failed at path _id for model Consultation"

/-- The call `Consultation.findOne({ _id: id, user: user })`: rejected with a cast error for
an id that is no object id, rejected when the store rejects queries, otherwise the first
matching document. -/
def Consultation.findOne (env : Env) (id : Option Nat) (user : JsVal) (w : World) :
    Except JsError (Option Doc) :=
  match id with
  | none => .error castError
  | some n =>
      match env.queryFailure with
      | some msg => .error (mkError msg)
      | none => .ok (w.db.find? (matchesOwner n user))

/-- Removes the first document that satisfies `p`. -/
def removeFirst (p : Doc → Bool) : List Doc → List Doc
  | [] => []
  | d :: rest => if p d then rest else d :: removeFirst p rest

/-- The call `Consultation.findOneAndDelete({ _id: id, user: user })`: the removed document, if
any; rejected like `findOne`, and then nothing is removed. -/
def Consultation.findOneAndDelete (env : Env) (id : Option Nat) (user : JsVal) (w : World) :
    Except JsError (Option Doc) × World :=
  match id with
  | none => (.error castError, w)
  | some n =>
      match env.queryFailure with
      | some msg => (.error (mkError msg), w)
      | none =>
          (.ok (w.db.find? (matchesOwner n user)),
            { w with db := removeFirst (matchesOwner n user) w.db })

/-- The call `Consultation.findByIdAndDelete(id)`; rejected like `findOne`, and then nothing
is removed. -/
def Consultation.findByIdAndDelete (env : Env) (id : Option Nat) (w : World) :
    Except JsError Unit × World :=
  match id with
  | none => (.error castError, w)
  | some n =>
      match env.queryFailure with
      | some msg => (.error (mkError msg), w)
      | none => (.ok (), { w with db := removeFirst (fun d => decide (d.id = n)) w.db })

/-- The call `Consultation.findByIdAndUpdate(id, update, { new: true, runValidators: true })`: the update
validators run first; the result is the updated document, `null` when there
is none. -/
def findByIdAndUpdateValidated (env : Env) (id : Nat) (update : List (String × JsVal))
    (w : World) : Except JsError JsVal × World :=
  match env.validateUpdate update with
  | some msg => (.error (mkError msg), w)
  | none =>
      match findByIdAndUpdate env id update w with
      | (.error e, w1) => (.error e, w1)
      | (.ok _, w1) => (.ok (storedDocument id w1), w1)

/-- The response `res.status(404).json({ success: false, message: 'Consultation not found' })`. -/
def notFoundResponse : Response :=
  { status := 404, body := .obj [("success", .bool false),
      ("message", .str "Consultation not found")] }

/-- A `500` response with the given message. -/
def serverErrorResponse (message : String) : Response :=
  { status := 500, body := .obj [("success", .bool false), ("message", .str message)] }

/-- The expression `error.message || fallback`. -/
def messageOr (error : JsError) (fallback : String) : String :=
  if error.message ≠ "" then error.message else fallback

/-- The array `allowedMimeTypes` of `processAudio`. -/
def allowedMimeTypes : List String :=
  ["audio/mpeg", "audio/wav", "audio/mp4", "audio/m4a", "audio/webm", "audio/ogg"]

/-- What `processAudio` leaves behind: the response sent (an error when the handler is
rejected without sending one), the background job it started
(`processAudioBackground(consultation._id, req.file.path)`, not awaited), and the state. -/
structure UploadOutcome where
  response : Except JsError Response
  job : Option (Nat × String)
  world : World

/-- A `400` response with the given message. -/
def badRequestResponse (message : String) : Response :=
  { status := 400, body := .obj [("success", .bool false), ("message", .str message)] }

/-- The fields `processAudio` and `processAudioStepByStep` create the Consultation with. -/
def uploadedFields (userId : JsVal) (file : UploadedFile) : List (String × JsVal) :=
  [("user", userId), ("audioFile", .str file.filename),
   ("originalName", .str file.originalname), ("fileSize", .num file.size 0),
   ("mimeType", .str file.mimetype), ("status", .str "uploaded"),
   ("patientName", .str "Processing..."), ("diagnosis", .str "Pending transcription")]

/-- The `try` block of `processAudio`: the response with the job started, or the error
thrown. -/
def processAudio.tryBlock (env : Env) (req : Request) (w : World) :
    Except JsError (Response × Option (Nat × String)) × World :=
  match req.file with
  | none => (.ok (badRequestResponse "Please upload an audio file", none), w)
  | some file =>
      if !existsSync w.files file.path then
        (.ok (badRequestResponse "Audio file was not saved properly", none), w)
      else
        match statSync w.files file.path with
        | .error e => (.error e, w)
        | .ok size =>
            if size = 0 then
              match unlinkSync w.files file.path with
              | .error e => (.error e, w)
              | .ok files =>
                  (.ok (badRequestResponse "Audio file is empty", none),
                    { w with files := files })
            else if !decide (file.mimetype ∈ allowedMimeTypes) then
              match unlinkSync w.files file.path with
              | .error e => (.error e, w)
              | .ok files =>
                  (.ok (badRequestResponse
                      "Invalid file type. Please upload an audio file (MP3, WAV, M4A, etc.)",
                      none),
                    { w with files := files })
            else
              match getProp req.user "id" with
              | .error e => (.error e, w)
              | .ok userId =>
                  match Consultation.create env (uploadedFields userId file) w with
                  | (.error e, w1) => (.error e, w1)
                  | (.ok id, w1) =>
                      (.ok ({ status := 200, body := .obj [
                            ("success", .bool true),
                            ("consultationId", .num id 0),
                            ("message",
                              .str "Audio uploaded successfully. Processing started..."),
                            ("status", .str "uploaded")] },
                          some (id, file.path)),
                        w1)

/-- The `catch` block of `processAudio`: the file is removed if it still exists, then
the `500` response is sent. -/
def processAudio.catchBlock (req : Request) (error : JsError) (w : World) : UploadOutcome :=
  match req.file with
  | none =>
      { response := .ok (serverErrorResponse (messageOr error "Failed to process audio upload")),
        job := none, world := w }
  | some file =>
      if existsSync w.files file.path then
        match unlinkSync w.files file.path with
        | .error e => { response := .error e, job := none, world := w }
        | .ok files =>
            { response :=
                .ok (serverErrorResponse (messageOr error "Failed to process audio upload")),
              job := none, world := { w with files := files } }
      else
        { response :=
            .ok (serverErrorResponse (messageOr error "Failed to process audio upload")),
          job := none, world := w }

/-- The handler `processAudio`. -/
def processAudio (env : Env) (req : Request) (w : World) : UploadOutcome :=
  match processAudio.tryBlock env req w with
  | (.ok (response, job), w1) => { response := .ok response, job := job, world := w1 }
  | (.error error, w1) => processAudio.catchBlock req error w1

/-- The object `response` that `getProcessingStatus` builds for a found document. -/
def statusResponseBody (d : Doc) : List (String × JsVal) :=
  let response : List (String × JsVal) :=
    [("success", .bool true), ("status", lookupField "status" d.fields),
     ("consultationId", .num d.id 0), ("createdAt", lookupField "createdAt" d.fields),
     ("updatedAt", lookupField "updatedAt" d.fields)]
  if jsEq (lookupField "status" d.fields) (.str "completed") then
    setField "message" (.str "Processing completed successfully")
      (setField "consultation" d.toJs response)
  else if jsEq (lookupField "status" d.fields) (.str "failed") then
    let failed := setField "message" (.str "Processing failed")
      (setField "error" (lookupField "error" d.fields) response)
    if truthy (lookupField "transcript" d.fields) then
      setField "partialData" (.obj [("transcript", lookupField "transcript" d.fields)]) failed
    else failed
  else
    let active := setField "message"
      (.str ("Processing is " ++ jsToString (lookupField "status" d.fields))) response
    if truthy (lookupField "processingStartedAt" d.fields) then
      setField "processingStartedAt" (lookupField "processingStartedAt" d.fields) active
    else active

/-- The handler `getProcessingStatus`. -/
def getProcessingStatus (env : Env) (req : Request) (w : World) : Response × World :=
  match getProp req.user "id" with
  | .error e => (serverErrorResponse (messageOr e "Failed to get processing status"), w)
  | .ok userId =>
      match Consultation.findOne env req.paramId userId w with
      | .error e => (serverErrorResponse (messageOr e "Failed to get processing status"), w)
      | .ok none => (notFoundResponse, w)
      | .ok (some d) => ({ status := 200, body := .obj (statusResponseBody d) }, w)

/-- The handler `getConsultationDetails`. -/
def getConsultationDetails (env : Env) (req : Request) (w : World) : Response × World :=
  match getProp req.user "id" with
  | .error e => (serverErrorResponse (messageOr e "Failed to get consultation details"), w)
  | .ok userId =>
      match Consultation.findOne env req.paramId userId w with
      | .error e =>
          (serverErrorResponse (messageOr e "Failed to get consultation details"), w)
      | .ok none => (notFoundResponse, w)
      | .ok (some d) =>
          ({ status := 200, body := .obj [("success", .bool true), ("consultation", d.toJs)] },
            w)

/-- The handler `deleteConsultation` of `audioController.js`. -/
def audioController.deleteConsultation (env : Env) (req : Request) (w : World) :
    Response × World :=
  match getProp req.user "id" with
  | .error e => (serverErrorResponse (messageOr e "Failed to delete consultation"), w)
  | .ok userId =>
      match Consultation.findOneAndDelete env req.paramId userId w with
      | (.error e, w1) =>
          (serverErrorResponse (messageOr e "Failed to delete consultation"), w1)
      | (.ok none, _) => (notFoundResponse, w)
      | (.ok (some _), w1) =>
          ({ status := 200, body := .obj [("success", .bool true),
              ("message", .str "Consultation deleted successfully")] }, w1)

/-- The helper `normalizeUserId`: `user._id || user.id || user`. -/
def normalizeUserId (user : JsVal) : Except JsError JsVal :=
  match getProp user "_id" with
  | .error e => .error e
  | .ok a =>
      if truthy a then .ok a
      else
        match getProp user "id" with
        | .error e => .error e
        | .ok b => if truthy b then .ok b else .ok user

/-- The handler `getConsultation` of `consultationController.js`. -/
def getConsultation (env : Env) (req : Request) (w : World) : Response × World :=
  match normalizeUserId req.user with
  | .error _ => (serverErrorResponse "Server error fetching consultation", w)
  | .ok userId =>
      match Consultation.findOne env req.paramId userId w with
      | .error _ => (serverErrorResponse "Server error fetching consultation", w)
      | .ok none => (notFoundResponse, w)
      | .ok (some d) =>
          ({ status := 200, body := .obj [("success", .bool true), ("consultation", d.toJs)] },
            w)

/-- The handler `updateConsultation` of `consultationController.js`. -/
def updateConsultation (env : Env) (req : Request) (w : World) : Response × World :=
  match normalizeUserId req.user with
  | .error _ => (serverErrorResponse "Server error updating consultation", w)
  | .ok userId =>
      match Consultation.findOne env req.paramId userId w with
      | .error _ => (serverErrorResponse "Server error updating consultation", w)
      | .ok none => (notFoundResponse, w)
      | .ok (some d) =>
          match findByIdAndUpdateValidated env d.id req.body w with
          | (.error _, w1) => (serverErrorResponse "Server error updating consultation", w1)
          | (.ok consultation, w1) =>
              ({ status := 200, body := .obj [("success", .bool true),
                  ("message", .str "Consultation updated successfully"),
                  ("consultation", consultation)] }, w1)

/-- The handler `deleteConsultation` of `consultationController.js`. -/
def consultationController.deleteConsultation (env : Env) (req : Request) (w : World) :
    Response × World :=
  match normalizeUserId req.user with
  | .error _ => (serverErrorResponse "Server error deleting consultation", w)
  | .ok userId =>
      match Consultation.findOne env req.paramId userId w with
      | .error _ => (serverErrorResponse "Server error deleting consultation", w)
      | .ok none => (notFoundResponse, w)
      | .ok (some _) =>
          match Consultation.findByIdAndDelete env req.paramId w with
          | (.error _, w1) => (serverErrorResponse "Server error deleting consultation", w1)
          | (.ok _, w1) =>
              ({ status := 200, body := .obj [("success", .bool true),
                  ("message", .str "Consultation deleted successfully")] }, w1)

/-! ## Remaining handlers: legacy route, client, creation, authentication -/

/-- The fallback response of the legacy `POST /transcribe` handler. -/
def legacyFallbackResponse : Response :=
  { status := 200, body := .obj [("success", .bool true), ("text", .str MOCK_TRANSCRIPT),
      ("note", .str "Used fallback data due to error")] }

/-- The `catch (err)` block of the legacy `POST /transcribe` handler: the file is removed if it
still exists (this may throw again), then the mock transcript is sent. -/
def legacyTranscribe.catchBlock (file : UploadedFile) (w : World) :
    Except JsError Response × World :=
  if existsSync w.files file.path then
    match unlinkSync w.files file.path with
    | .error e => (.error e, w)
    | .ok files => (.ok legacyFallbackResponse, { w with files := files })
  else (.ok legacyFallbackResponse, w)

/-- The legacy `POST /transcribe` handler of `routes/audio.js`: the response sent, or the error
with which the handler is rejected without sending one. -/
def legacyTranscribe (env : Env) (req : Request) (w : World) :
    Except JsError Response × World :=
  match req.file with
  | none => (.ok (badRequestResponse "Please upload an audio file"), w)
  | some file =>
      match transcribeAudio env w.files file.path with
      | .error _ => legacyTranscribe.catchBlock file w
      | .ok transcript =>
          if existsSync w.files file.path then
            match unlinkSync w.files file.path with
            | .error _ => legacyTranscribe.catchBlock file w
            | .ok files =>
                (.ok { status := 200, body := .obj [("success", .bool true),
                    ("text", transcript)] }, { w with files := files })
          else
            (.ok { status := 200, body := .obj [("success", .bool true),
                ("text", transcript)] }, w)

/-- The object `consultationData` of `createConsultation`: `{ ...req.body, user: req.user.id }`. -/
def consultationData (body : List (String × JsVal)) (userId : JsVal) : List (String × JsVal) :=
  setField "user" userId body

/-- The handler `createConsultation` of `consultationController.js`. -/
def createConsultation (env : Env) (req : Request) (w : World) : Response × World :=
  match getProp req.user "id" with
  | .error _ => (serverErrorResponse "Server error saving consultation", w)
  | .ok userId =>
      match Consultation.create env (consultationData req.body userId) w with
      | (.error _, w1) => (serverErrorResponse "Server error saving consultation", w1)
      | (.ok id, w1) =>
          ({ status := 201, body := .obj [("success", .bool true),
              ("message", .str "Consultation saved successfully"),
              ("consultation", storedDocument id w1)] }, w1)

/-- The collaborators of authentication that are not part of the sources read here:
the token library (`jwt.verify`, `jwt.sign`) and the User model (`User.findById`,
`User.findOne({ email })` with the password selected, `user.comparePassword`). An error is
the thrown error's message. -/
structure AuthEnv where
  jwtVerify : String → Except String JsVal
  jwtSign : JsVal → Except String String
  findUserById : JsVal → Except String JsVal
  findUserByEmail : JsVal → Except String JsVal
  comparePassword : JsVal → JsVal → Except String Bool

/-- The element `text.split(' ')[1]`: the text between the first and the second
blank, `none` when there is no blank. -/
def splitSecond (cs : List Char) : Option (List Char) :=
  match cs.dropWhile (fun c => c ≠ ' ') with
  | [] => none
  | _ :: rest => some (rest.takeWhile (fun c => c ≠ ' '))

/-- The variable `token` of `protect` after its first `if`. -/
def bearerToken (authorization : Option String) : Option String :=
  match authorization with
  | none => none
  | some header =>
      if header ≠ "" ∧ startsWithChars "Bearer".data header.data = true then
        (splitSecond header.data).map String.mk
      else none

/-- The test `!token`. -/
def tokenMissing : Option String → Bool
  | none => true
  | some t => decide (t = "")

/-- The test `req.headers.authorization && req.headers.authorization.startsWith('Bearer mock-jwt-token')`. -/
def isMockHeader (authorization : Option String) : Bool :=
  match authorization with
  | none => false
  | some header =>
      decide (header ≠ "") && startsWithChars "Bearer mock-jwt-token".data header.data

/-- The mock user of `protect`. -/
def mockUser : JsVal :=
  .obj [("_id", .str "65a1b2c3d4e5f6a7b8c9d0e1"), ("id", .str "65a1b2c3d4e5f6a7b8c9d0e1"),
    ("username", .str "testuser"), ("email", .str "test@test.com")]

/-- How `protect` leaves a request: handed on with `req.user` set, through the mock
branch or through token verification, or answered. -/
inductive AuthOutcome where
  | mockNext (user : JsVal)
  | verifiedNext (user : JsVal)
  | respond (response : Response)

/-- A `401` response with the given message. -/
def unauthorizedResponse (message : String) : Response :=
  { status := 401, body := .obj [("success", .bool false), ("message", .str message)] }

/-- The middleware `protect` of `middleware/auth.js`. -/
def protect (auth : AuthEnv) (authorization : Option String) : AuthOutcome :=
  if tokenMissing (bearerToken authorization) then
    if isMockHeader authorization then .mockNext mockUser
    else .respond (unauthorizedResponse "Not authorized to access this route")
  else
    match bearerToken authorization with
    | none => .respond (unauthorizedResponse "Not authorized to access this route")
    | some token =>
        match auth.jwtVerify token with
        | .error _ => .respond (unauthorizedResponse "Not authorized to access this route")
        | .ok decoded =>
            match getProp decoded "id" with
            | .error _ =>
                .respond (unauthorizedResponse "Not authorized to access this route")
            | .ok id =>
                match auth.findUserById id with
                | .error _ =>
                    .respond (unauthorizedResponse "Not authorized to access this route")
                | .ok user =>
                    if !truthy user then .respond (unauthorizedResponse "User not found")
                    else .verifiedNext user

/-- The response of a successful login. -/
def loginSuccessResponse (token : String) (user : JsVal) : Response :=
  { status := 200, body := .obj [("success", .bool true), ("message", .str "Login successful"),
      ("token", .str token),
      ("user", .obj [("id", lookupField "_id" (ownEntries user)),
        ("username", lookupField "username" (ownEntries user)),
        ("email", lookupField "email" (ownEntries user)),
        ("role", lookupField "role" (ownEntries user))])] }

/-- The handler of `POST /api/auth/login` in `server.js`. -/
def login (auth : AuthEnv) (body : List (String × JsVal)) : Response :=
  if !truthy (lookupField "email" body) || !truthy (lookupField "password" body) then
    badRequestResponse "Email and password are required"
  else
    match auth.findUserByEmail (lookupField "email" body) with
    | .error _ => serverErrorResponse "Server error during login"
    | .ok user =>
        if !truthy user then unauthorizedResponse "Invalid credentials"
        else
          match auth.comparePassword user (lookupField "password" body) with
          | .error _ => serverErrorResponse "Server error during login"
          | .ok isPasswordValid =>
              if !isPasswordValid then unauthorizedResponse "Invalid credentials"
              else
                match getProp user "_id" with
                | .error _ => serverErrorResponse "Server error during login"
                | .ok userId =>
                    match auth.jwtSign userId with
                    | .error _ => serverErrorResponse "Server error during login"
                    | .ok token => loginSuccessResponse token user

/-! ## Auxiliary definitions for the statements -/

/-- The statements of the `try` block of `processAudioBackground` between its two
store writes: the transcript and summary handed to the final update, or the
error thrown before it. -/
def processAudioBackground.prepare (env : Env) (files : FileSystem) (audioPath : String) :
    Except JsError (JsVal × JsVal) :=
  if !existsSync files audioPath then .error (mkError ("Audio file not found: " ++ audioPath))
  else
    match statSync files audioPath with
    | .error e => .error e
    | .ok size =>
        if size = 0 then .error (mkError "Audio file is empty")
        else
          match processMedicalAudio env files audioPath with
          | .error e => .error e
          | .ok processingResult =>
              if !processingResult.success then
                .error (mkError (processingErrorMessage processingResult))
              else if !truthy processingResult.summary
                  || decide (typeOf processingResult.summary ≠ "object") then
                .error (mkError "Invalid summary data received from processing")
              else .ok (processingResult.transcript, processingResult.summary)

/-- Update calls issued by a run that started in `w` and ended in `w2`. -/
def newWrites (w w2 : World) : List WriteEvent := w2.writes.drop w.writes.length

/-- The object `errorUpdate` for an error that carries no `partialData`. -/
def failedUpdate (env : Env) (message : String) : List (String × JsVal) :=
  [("status", .str "failed"), ("error", .str message), ("processingFailedAt", .date env.now)]

/-- The object passed to the first update of `processAudioBackground`. -/
def transcribingUpdate (env : Env) : List (String × JsVal) :=
  [("status", .str "transcribing"), ("processingStartedAt", .date env.now)]

/-- The update calls one run of `processAudioBackground` issues, read off its
control flow: `n` is the number of update calls made before the run. -/
def runWrites (env : Env) (id : Nat) (audioPath : String) (files : FileSystem) (n : Nat) :
    List WriteEvent :=
  match env.storeFailure n with
  | some msg =>
      [{ id := id, update := transcribingUpdate env, threw := true },
       { id := id, update := failedUpdate env msg, threw := (env.storeFailure (n + 1)).isSome }]
  | none =>
      match processAudioBackground.prepare env files audioPath with
      | .error e =>
          [{ id := id, update := transcribingUpdate env, threw := false },
           { id := id, update := failedUpdate env e.message,
             threw := (env.storeFailure (n + 1)).isSome }]
      | .ok (transcript, summary) =>
          match env.storeFailure (n + 1) with
          | none =>
              [{ id := id, update := transcribingUpdate env, threw := false },
               { id := id, update := completedUpdate env transcript summary, threw := false }]
          | some msg =>
              [{ id := id, update := transcribingUpdate env, threw := false },
               { id := id, update := completedUpdate env transcript summary, threw := true },
               { id := id, update := failedUpdate env msg,
                 threw := (env.storeFailure (n + 2)).isSome }]

/-- Spec wording, "the first top-level `{...}` block": the characters after an
opening brace up to the closing brace that balances it, `depth` braces being
open. -/
def spec_balancedRest : Nat → List Char → Option (List Char)
  | _, [] => none
  | depth, c :: cs =>
      if c = '{' then (spec_balancedRest (depth + 1) cs).map (fun r => c :: r)
      else if c = '}' then
        if depth ≤ 1 then some [c] else (spec_balancedRest (depth - 1) cs).map (fun r => c :: r)
      else (spec_balancedRest depth cs).map (fun r => c :: r)

/-- Spec wording, "the first top-level `{...}` block" of a text. -/
def spec_firstTopLevelBlock (text : String) : Option String :=
  match text.data.dropWhile (fun c => c ≠ '{') with
  | [] => none
  | c :: rest => (spec_balancedRest 1 rest).map (fun r => String.mk (c :: r))

/-- A chat completion response whose first choice carries `content`. -/
def chatResponse (content : String) : JsVal :=
  .obj [("id", .str "chatcmpl-1"),
    ("choices", .arr [.obj [("index", .num 0 0),
      ("message", .obj [("role", .str "assistant"), ("content", .str content)])]])]

/-- The schema's `enum` validator of one field on a string value. -/
def enumCheck (field : String) (allowed : List String) (update : List (String × JsVal)) :
    Option String :=
  match lookupField field update with
  | .str s =>
      if s ∈ allowed then none
      else some ("Validation failed: " ++ field ++ ": " ++ s ++ " is not a valid enum value")
  | _ => none

/-- Reference update validation: the two `enum` constraints of the Consultation
schema, checked on string values. -/
def referenceValidateUpdate (update : List (String × JsVal)) : Option String :=
  match enumCheck "gender" ["Male", "Female", "Other"] update with
  | some msg => some msg
  | none =>
      enumCheck "status" ["uploaded", "transcribing", "summarizing", "completed", "failed"]
        update

/-- An environment with the reference `JSON.parse`, fixed provider outcomes and a
given store behaviour. -/
def sampleEnv (apiKey : Option String) (transcription completion : Except String JsVal)
    (storeFailure : Nat → Option String) : Env where
  apiKey := apiKey
  jsonParse := JSON_parse
  transcriptionsCreate := fun _ => transcription
  completionsCreate := fun _ => completion
  storeFailure := storeFailure
  createFailure := none
  queryFailure := none
  validateUpdate := referenceValidateUpdate
  now := 1700000000

/-- An environment in which `OPENAI_API_KEY` is not set. -/
def noKeyEnv : Env := sampleEnv none (.error "unused") (.error "unused") (fun _ => none)

/-- A well-formed API key. -/
def sampleKey : String := "sk-0123456789abcdefghij"

/-- A store that accepts every write. -/
def storeUp : Nat → Option String := fun _ => none

/-- A store that accepts the first write and rejects all later ones. -/
def storeDownAfterFirst : Nat → Option String :=
  fun n => if n = 0 then none else some "connection lost"

/-- A state with one uploaded audio file and its freshly created Consultation 7. -/
def sampleWorld (locked : Bool) : World where
  files := [{ path := "uploads/a.wav", size := 2048, locked := locked }]
  db := [{ id := 7, fields := [("user", .str "u1"), ("status", .str "uploaded"),
    ("patientName", .str "Processing..."), ("diagnosis", .str "Pending transcription")] }]
  nextId := 8
  writes := []

/-- An environment with a valid key whose provider rejects both calls. -/
def failingProviderEnv : Env :=
  sampleEnv (some sampleKey) (.error "503 Service Unavailable") (.error "429 Too Many Requests")
    (fun _ => none)

/-- An environment with a valid key whose completion response has an empty
`choices` array. -/
def noChoicesEnv : Env :=
  sampleEnv (some sampleKey) (.error "503 Service Unavailable")
    (.ok (.obj [("id", .str "chatcmpl-1"), ("choices", .arr [])])) (fun _ => none)

/-- A model response that wraps one JSON object in plain text. -/
def wrappedResponseText : String :=
  "Here is the summary: \x7b\"diagnosis\":\"Flu\"\x7d Hope this helps."

/-- An environment with a valid key whose model wraps the JSON object in text. -/
def wrappedResponseEnv : Env :=
  sampleEnv (some sampleKey) (.ok (.obj [("text", .str "PATIENT: I have a fever.")]))
    (.ok (chatResponse wrappedResponseText)) (fun _ => none)

/-- A model response with a JSON object followed by a later brace block. -/
def twoBlockResponseText : String :=
  "Result: \x7b\"diagnosis\":\"Flu\"\x7d and also \x7b\"age\":\"5\"\x7d"

/-- An environment with a valid key whose model answers with two brace blocks. -/
def twoBlockResponseEnv : Env :=
  sampleEnv (some sampleKey) (.ok (.obj [("text", .str "PATIENT: I have a fever.")]))
    (.ok (chatResponse twoBlockResponseText)) (fun _ => none)

/-- A valid key, a model that reports the patient's name only, and a store that
rejects every write after the first one. -/
def storeLostEnv : Env :=
  sampleEnv (some sampleKey) (.ok (.obj [("text", .str "PATIENT: I am Ann.")]))
    (.ok (chatResponse "\x7b\"patientName\":\"Ann\"\x7d")) storeDownAfterFirst

/-- A valid key and a model that reports a newborn's age as the number 0. -/
def ageZeroEnv : Env :=
  sampleEnv (some sampleKey) (.ok (.obj [("text", .str "PATIENT: My baby has a fever.")]))
    (.ok (chatResponse "\x7b\"patientName\":\"Baby Doe\",\"age\":0\x7d")) (fun _ => none)

/-- A valid key and a model that answers with a JSON array. -/
def arrayResponseEnv : Env :=
  sampleEnv (some sampleKey) (.ok (.obj [("text", .str "PATIENT: I have a fever.")]))
    (.ok (chatResponse "[\"Flu\"]")) (fun _ => none)

/-- A valid key and a model that answers with a JSON number. -/
def numberResponseEnv : Env :=
  sampleEnv (some sampleKey) (.ok (.obj [("text", .str "PATIENT: I have a fever.")]))
    (.ok (chatResponse "42")) (fun _ => none)

/-- A valid key and a model that reports the patient's name only. -/
def nameOnlyEnv : Env :=
  sampleEnv (some sampleKey) (.ok (.obj [("text", .str "PATIENT: I am Ann.")]))
    (.ok (chatResponse "\x7b\"patientName\":\"Ann\"\x7d")) (fun _ => none)

/-- An authenticated upload of the file of `sampleWorld`. -/
def sampleRequest : Request where
  file := some (UploadedFile.mk "uploads/a.wav" "a.wav" "visit.wav" "audio/wav" 2048)
  user := .obj [("id", .str "u1")]

/-- The run of `processAudioBackground` on a summary that gives the age as the number 0. -/
def ageZeroRun : Except JsError Unit × World :=
  processAudioBackground ageZeroEnv 7 "uploads/a.wav" (sampleWorld false)

/-- The run of `processAudioBackground` whose store connection is lost after the first
write. -/
def storeLostRun : Except JsError Unit × World :=
  processAudioBackground storeLostEnv 7 "uploads/a.wav" (sampleWorld false)

/-- Status values of the update calls a run issued. -/
def runIssued (w w2 : World) : List JsVal :=
  (newWrites w w2).map (fun e => statusOf e.update)

/-- Status values of the update calls of a run that the store accepted. -/
def runApplied (w w2 : World) : List JsVal :=
  ((newWrites w w2).filter (fun e => !e.threw)).map (fun e => statusOf e.update)

/-- The run of `processAudioBackground` on an upload that has vanished, with a store
that rejects every write after the first one. -/
def vanishedFileRun : Except JsError Unit × World :=
  processAudioBackground storeLostEnv 7 "uploads/missing.wav" (sampleWorld false)

/-- The run of `processAudioBackground` on a file whose removal the system refuses. -/
def lockedFileRun : Except JsError Unit × World :=
  processAudioBackground nameOnlyEnv 7 "uploads/a.wav" (sampleWorld true)

/-- The run of `processAudioBackground` on a model answer that is a JSON array. -/
def arrayRun : Except JsError Unit × World :=
  processAudioBackground arrayResponseEnv 7 "uploads/a.wav" (sampleWorld false)

/-- The run of `processAudioStepByStep` on a summary that carries the name only. -/
def nameOnlyStepRun : Response × World :=
  processAudioStepByStep nameOnlyEnv sampleRequest (sampleWorld false)

/-- The run of `processAudioBackground` on a summary that carries the name only. -/
def nameOnlyBackgroundRun : Except JsError Unit × World :=
  processAudioBackground nameOnlyEnv 7 "uploads/a.wav" (sampleWorld false)

/-- The control flow of `processMedicalAudio` over any two step functions: the `try`
block runs `transcribe`, then `summarize` on its result; the `catch` block answers
an error of either step with the failure object. -/
def processMedicalAudio.steps (transcribe : String → Except JsError JsVal)
    (summarize : JsVal → Except JsError JsVal) (audioPath : String) :
    Except JsError ProcessingResult :=
  match transcribe audioPath with
  | .error e =>
      .ok { success := false, error := some e.message, transcript := .null, summary := .null }
  | .ok transcript =>
      match summarize transcript with
      | .error e =>
          .ok { success := false, error := some e.message, transcript := .null, summary := .null }
      | .ok summary =>
          .ok { transcript := transcript, summary := summary, success := true, error := none }

/-- A valid key and a speech-to-text response whose `text` is the empty string. -/
def emptyTextEnv : Env :=
  sampleEnv (some sampleKey) (.ok (.obj [("text", .str "")])) (.error "unused") (fun _ => none)

/-- The run of `processAudioBackground` on a recording the provider transcribes to
the empty string. -/
def emptyTextRun : Except JsError Unit × World :=
  processAudioBackground emptyTextEnv 7 "uploads/a.wav" (sampleWorld false)

/-- The run of `processAudioBackground` on a model answer that is a JSON number. -/
def numberRun : Except JsError Unit × World :=
  processAudioBackground numberResponseEnv 7 "uploads/a.wav" (sampleWorld false)

/-- An environment whose store rejects `Consultation.create`. -/
def createDownEnv : Env :=
  { nameOnlyEnv with createFailure := some "store unavailable" }

/-- The body of the acknowledgement `processAudio` sends for a new Consultation. -/
def uploadAcknowledgement (id : Nat) : Response :=
  { status := 200, body := .obj [
      ("success", .bool true),
      ("consultationId", .num id 0),
      ("message", .str "Audio uploaded successfully. Processing started..."),
      ("status", .str "uploaded")] }

/-- The run of `processAudioStepByStep` whose store connection is lost after the first
update. -/
def storeLostStepRun : Response × World :=
  processAudioStepByStep storeLostEnv sampleRequest (sampleWorld false)

/-- A state holding one uploaded file of zero bytes and no Consultation. -/
def emptyUploadWorld : World where
  files := [{ path := "uploads/empty.wav", size := 0, locked := false }]
  db := []
  nextId := 1
  writes := []

/-- An authenticated upload of the empty file of `emptyUploadWorld`. -/
def emptyUploadRequest : Request where
  file := some (UploadedFile.mk "uploads/empty.wav" "empty.wav" "empty.wav" "audio/wav" 0)
  user := .obj [("id", .str "u1")]

/-- An authenticated upload of the file of `sampleWorld`, declared as plain text. -/
def textUploadRequest : Request where
  file := some (UploadedFile.mk "uploads/a.wav" "a.wav" "notes.txt" "text/plain" 2048)
  user := .obj [("id", .str "u1")]

/-- The run of `processAudioStepByStep` on the empty upload. -/
def emptyUploadStepRun : Response × World :=
  processAudioStepByStep nameOnlyEnv emptyUploadRequest emptyUploadWorld

/-- The run of `processAudio` on the empty upload. -/
def emptyUploadRun : UploadOutcome :=
  processAudio nameOnlyEnv emptyUploadRequest emptyUploadWorld

/-- The run of `processAudioStepByStep` on the plain-text upload. -/
def textUploadStepRun : Response × World :=
  processAudioStepByStep nameOnlyEnv textUploadRequest (sampleWorld false)

/-- The run of `processAudio` on the plain-text upload. -/
def textUploadRun : UploadOutcome :=
  processAudio nameOnlyEnv textUploadRequest (sampleWorld false)

/-- The run of `processAudioStepByStep` on a file whose removal the system refuses. -/
def lockedFileStepRun : Response × World :=
  processAudioStepByStep nameOnlyEnv sampleRequest (sampleWorld true)

/-- A user document as the store library hands it to `req.user`: `_id` is an object
identifier, `id` its hexadecimal text. -/
def storedUser : JsVal :=
  .obj [("_id", .obj [("$oid", .str "65a1b2c3d4e5f6a7b8c9d0e2")]),
    ("id", .str "65a1b2c3d4e5f6a7b8c9d0e2"), ("username", .str "ann"),
    ("email", .str "ann@example.org")]

/-- A state without files and without Consultations. -/
def emptyStore : World where
  files := []
  db := []
  nextId := 1
  writes := []

/-- A request of `storedUser` to save a consultation. -/
def storedUserCreateRequest : Request where
  file := none
  user := storedUser
  body := [("patientName", .str "Ann"), ("diagnosis", .str "Flu")]

/-- The run of `createConsultation` for `storedUser`. -/
def storedUserCreateRun : Response × World :=
  createConsultation nameOnlyEnv storedUserCreateRequest emptyStore

/-- A request of `storedUser` for the consultation with id 1. -/
def storedUserFetchRequest : Request where
  file := none
  user := storedUser
  paramId := some 1

/-- A request of the mock user of `protect` to save a consultation. -/
def mockUserCreateRequest : Request where
  file := none
  user := mockUser
  body := [("patientName", .str "Ann"), ("diagnosis", .str "Flu")]

/-- A request of the mock user of `protect` for the consultation with id 1. -/
def mockUserFetchRequest : Request where
  file := none
  user := mockUser
  paramId := some 1

/-- The documents a run added to the store: those of `w2` behind the ones of `w`. -/
def createdDocs (w w2 : World) : List Doc := w2.db.drop w.db.length

/-- A request of user `u1` to save a consultation, with a body that names no owner. -/
def plainCreateRequest : Request where
  file := none
  user := .obj [("id", .str "u1")]
  body := [("patientName", .str "Ann"), ("diagnosis", .str "Flu")]

/-- The request of `plainCreateRequest` with a body that names another user as owner. -/
def forgedCreateRequest : Request where
  file := none
  user := .obj [("id", .str "u1")]
  body := [("patientName", .str "Ann"), ("user", .str "u2"), ("diagnosis", .str "Flu")]

/-- The run of the legacy `POST /transcribe` handler on a file whose removal the system
refuses. -/
def lockedLegacyRun : Except JsError Response × World :=
  legacyTranscribe nameOnlyEnv sampleRequest (sampleWorld true)

/-- Collaborators of authentication that know one user, `ann@example.org` with password
`secret`, and accept the token `good-token` only. -/
def sampleAuth : AuthEnv where
  jwtVerify := fun token =>
    if token = "good-token" then .ok (.obj [("id", .str "65a1b2c3d4e5f6a7b8c9d0e2")])
    else .error "jwt malformed"
  jwtSign := fun _ => .ok "good-token"
  findUserById := fun id =>
    if jsEq id (.str "65a1b2c3d4e5f6a7b8c9d0e2") then .ok storedUser else .ok .null
  findUserByEmail := fun email =>
    if jsEq email (.str "ann@example.org") then .ok storedUser else .ok .null
  comparePassword := fun _ password => .ok (jsEq password (.str "secret"))

/-- A key of twelve characters: `sk-` and nine characters outside the basic plane. -/
def astralKey : String := "sk-😀😀😀😀😀😀😀😀😀"

/-- The run of `processAudioBackground` on an upload that has vanished, with a store that
accepts every write. -/
def vanishedHealthyRun : Except JsError Unit × World :=
  processAudioBackground nameOnlyEnv 7 "uploads/missing.wav" (sampleWorld false)

/-- A second user document, of the same shape as `storedUser`. -/
def otherUser : JsVal :=
  .obj [("_id", .obj [("$oid", .str "65a1b2c3d4e5f6a7b8c9d0e3")]),
    ("id", .str "65a1b2c3d4e5f6a7b8c9d0e3"), ("username", .str "bob"),
    ("email", .str "bob@example.org")]

/-- A state with two Consultations of `storedUser`, as the audio routes create them (the
owner is the text of the user id): 7 failed with a stored transcript, 9 completed. -/
def clinicWorld : World where
  files := []
  db := [
    { id := 7, fields := [("user", .str "65a1b2c3d4e5f6a7b8c9d0e2"),
        ("status", .str "failed"), ("error", .str "Audio file is empty"),
        ("transcript", .str "PATIENT: Hello."), ("createdAt", .date 1699990000),
        ("updatedAt", .date 1699990060)] },
    { id := 9, fields := [("user", .str "65a1b2c3d4e5f6a7b8c9d0e2"),
        ("status", .str "completed"), ("patientName", .str "Ann"),
        ("diagnosis", .str "Flu"), ("createdAt", .date 1699990100),
        ("updatedAt", .date 1699990160)] }]
  nextId := 10
  writes := []

/-- A request of `storedUser` for Consultation 7. -/
def clinicOwnerRequest : Request where
  file := none
  user := storedUser
  paramId := some 7

/-- A request of `otherUser` for Consultation 7 of `storedUser`. -/
def clinicStrangerRequest : Request where
  file := none
  user := otherUser
  paramId := some 7
  body := [("status", .str "completed"), ("diagnosis", .str "Overwritten")]

/-- An environment whose store rejects every query. -/
def queryDownEnv : Env :=
  { nameOnlyEnv with queryFailure := some "connection lost" }

/-- An authenticated upload of the file of `sampleWorld` by `storedUser`. -/
def storedUserUpload : Request where
  file := some (UploadedFile.mk "uploads/a.wav" "a.wav" "visit.wav" "audio/wav" 2048)
  user := storedUser

/-- The run of `processAudioStepByStep` on a recording the provider transcribes to the empty
string, with a file whose removal the system refuses. -/
def emptyTextLockedStepRun : Response × World :=
  processAudioStepByStep emptyTextEnv storedUserUpload (sampleWorld true)

/-- A request of `storedUser` for the status of Consultation 8. -/
def storedUserStatusRequest : Request where
  file := none
  user := storedUser
  paramId := some 8

/-- The run of `processAudioStepByStep` by `storedUser` on a model answer wrapped in text,
with a file whose removal the system refuses. -/
def wrappedLockedStepRun : Response × World :=
  processAudioStepByStep wrappedResponseEnv storedUserUpload (sampleWorld true)

/-- The answer of a handler whose lookup finds nothing: `404`, or the `500` of the handler when
the store rejects the query. -/
def emptyLookupResponse (env : Env) (fallback : String) : Response :=
  match env.queryFailure with
  | some msg => serverErrorResponse (messageOr (mkError msg) fallback)
  | none => notFoundResponse

/-- The answer of a consultation-route handler whose lookup finds nothing. -/
def emptyLookupFixedResponse (env : Env) (message : String) : Response :=
  match env.queryFailure with
  | some _ => serverErrorResponse message
  | none => notFoundResponse

/-! ## Basic facts -/

theorem openai_of_key (env : Env) (hkey : hasValidApiKey env = true) :
    openai env = some ⟨env.transcriptionsCreate, env.completionsCreate⟩ := by
  unfold openai
  rw [if_pos hkey]

theorem openai_transcriptionsCreate_of_key (env : Env) (hkey : hasValidApiKey env = true)
    (audioPath : String) :
    openai.transcriptionsCreate env audioPath = env.transcriptionsCreate audioPath := by
  unfold openai.transcriptionsCreate
  rw [openai_of_key env hkey]

theorem openai_completionsCreate_of_key (env : Env) (hkey : hasValidApiKey env = true)
    (prompt : String) :
    openai.completionsCreate env prompt = env.completionsCreate prompt := by
  unfold openai.completionsCreate
  rw [openai_of_key env hkey]

theorem generateMedicalSummary_ok (env : Env) (transcript : JsVal) :
    ∃ v, generateMedicalSummary env transcript = .ok v := by
  unfold generateMedicalSummary
  split
  · exact ⟨_, rfl⟩
  · exact ⟨_, rfl⟩

theorem transcribeAudio_ok (env : Env) (files : FileSystem) (audioPath : String) :
    ∃ v, transcribeAudio env files audioPath = .ok v := by
  unfold transcribeAudio
  split
  · exact ⟨_, rfl⟩
  · exact ⟨_, rfl⟩

theorem generateMedicalSummary_of_tryBlock_error (env : Env) (transcript : JsVal) (e : JsError)
    (h : generateMedicalSummary.tryBlock env transcript = .error e) :
    generateMedicalSummary env transcript = .ok MOCK_SUMMARY := by
  unfold generateMedicalSummary
  rw [h]
  rfl

theorem transcribeAudio_of_tryBlock_error (env : Env) (files : FileSystem) (audioPath : String)
    (e : JsError) (h : transcribeAudio.tryBlock env files audioPath = .error e) :
    transcribeAudio env files audioPath = .ok (.str MOCK_TRANSCRIPT) := by
  unfold transcribeAudio
  rw [h]
  rfl

theorem jsTrim_empty : jsTrim "" = "" := by rfl

theorem truthy_str_of_trim_length {text : String} (h : (jsTrim text).length ≠ 0) :
    truthy (.str text) = true := by
  by_cases ht : text = ""
  · subst ht
    exact absurd rfl h
  · simp [truthy, ht]

/-! ## Claims C1, C2: the fallback policy -/

/-- Claim C1: when no valid API key is configured, `transcribeAudio` returns exactly the
mock transcript for every audio path (whatever the file system holds), and
`generateMedicalSummary` returns exactly the mock summary for every non-empty
transcript; both results are returns, not raised errors. -/
theorem C1_mock_without_api_key (env : Env) (hkey : hasValidApiKey env = false) :
    (∀ (files : FileSystem) (audioPath : String),
        transcribeAudio env files audioPath = .ok (.str MOCK_TRANSCRIPT)) ∧
    (∀ text : String, text ≠ "" →
        generateMedicalSummary env (.str text) = .ok MOCK_SUMMARY) := by
  constructor
  · intro files audioPath
    simp [transcribeAudio, transcribeAudio.tryBlock, hkey, mockTranscribeAudio]
  · intro text _
    unfold generateMedicalSummary
    cases h : generateMedicalSummary.tryBlock env (.str text) with
    | error e => rfl
    | ok v =>
        have : v = MOCK_SUMMARY := by
          unfold generateMedicalSummary.tryBlock at h
          simp only [hkey] at h
          split at h
          · cases h
          · split at h
            · cases h
            · simpa [mockGenerateMedicalSummary] using h.symm
        simp [this]

/-- Witness of C1 in an environment without any API key. -/
theorem C1_mock_without_api_key_witness :
    hasValidApiKey noKeyEnv = false ∧
    transcribeAudio noKeyEnv [] "uploads/a.wav" = .ok (.str MOCK_TRANSCRIPT) ∧
    generateMedicalSummary noKeyEnv (.str "PATIENT: I have a cough.") = .ok MOCK_SUMMARY :=
  ⟨rfl,
   (C1_mock_without_api_key noKeyEnv rfl).1 [] "uploads/a.wav",
   (C1_mock_without_api_key noKeyEnv rfl).2 "PATIENT: I have a cough." (by decide)⟩

theorem generateMedicalSummary_tryBlock_empty (env : Env) (transcript : JsVal)
    (h : truthy transcript = false ∨ ∃ s, transcript = .str s ∧ (jsTrim s).length = 0) :
    generateMedicalSummary.tryBlock env transcript
      = .error (mkError "Empty transcript provided") := by
  unfold generateMedicalSummary.tryBlock
  rcases h with h | ⟨s, rfl, hs⟩
  · simp [h]
  · by_cases ht : truthy (.str s) = true
    · simp [ht, hs]
    · simp [ht]

theorem generateMedicalSummary_tryBlock_str (env : Env) (text : String)
    (hkey : hasValidApiKey env = true) (hne : (jsTrim text).length ≠ 0) :
    generateMedicalSummary.tryBlock env (.str text) =
      match env.completionsCreate (jsReplace MEDICAL_SUMMARY_PROMPT "\x7btranscript\x7d" text) with
      | .error msg => .error (mkError msg)
      | .ok completion =>
          match completionText completion with
          | .error e => .error e
          | .ok summaryText =>
              generateMedicalSummary.parseResponse env (.str text) summaryText := by
  unfold generateMedicalSummary.tryBlock
  simp [truthy_str_of_trim_length hne, hne, hkey, openai_completionsCreate_of_key env hkey]

theorem generateMedicalSummary_tryBlock_error_or_mock_of_call (env : Env) (text : String)
    (hkey : hasValidApiKey env = true)
    (hcall : ∃ e, (match env.completionsCreate
        (jsReplace MEDICAL_SUMMARY_PROMPT "\x7btranscript\x7d" text) with
      | .error msg => (.error (mkError msg) : Except JsError JsVal)
      | .ok completion =>
          match completionText completion with
          | .error e => .error e
          | .ok summaryText =>
              generateMedicalSummary.parseResponse env (.str text) summaryText) = .error e) :
    generateMedicalSummary env (.str text) = .ok MOCK_SUMMARY := by
  by_cases hne : (jsTrim text).length = 0
  · exact generateMedicalSummary_of_tryBlock_error env _ _
      (generateMedicalSummary_tryBlock_empty env _ (Or.inr ⟨text, rfl, hne⟩))
  · obtain ⟨e, he⟩ := hcall
    exact generateMedicalSummary_of_tryBlock_error env _ e
      ((generateMedicalSummary_tryBlock_str env text hkey hne).trans he)

theorem completionText_error_of_no_text (completion : JsVal)
    (h : ∀ s, completionContent completion ≠ .ok (.str s)) :
    ∃ e, completionText completion = .error e := by
  unfold completionText
  cases hc : completionContent completion with
  | error e => exact ⟨e, rfl⟩
  | ok v =>
      cases v with
      | str s => exact absurd hc (h s)
      | undefined => exact ⟨_, rfl⟩
      | null => exact ⟨_, rfl⟩
      | bool b => exact ⟨_, rfl⟩
      | num m e => exact ⟨_, rfl⟩
      | date t => exact ⟨_, rfl⟩
      | arr xs => exact ⟨_, rfl⟩
      | obj fs => exact ⟨_, rfl⟩

/-- Claim C2: with a valid API key configured, `transcribeAudio` returns the mock
transcript when the transcription call throws and when the audio file is
missing, `generateMedicalSummary` returns the mock summary when the completion
call throws and when the completion response carries no textual
`choices[0].message.content`; and for every behaviour of the provider both
operations return a value instead of raising. -/
theorem C2_fallback_on_provider_failure (env : Env) (hkey : hasValidApiKey env = true) :
    (∀ (files : FileSystem) (audioPath msg : String),
        env.transcriptionsCreate audioPath = .error msg →
        transcribeAudio env files audioPath = .ok (.str MOCK_TRANSCRIPT)) ∧
    (∀ (files : FileSystem) (audioPath : String),
        existsSync files audioPath = false →
        transcribeAudio env files audioPath = .ok (.str MOCK_TRANSCRIPT)) ∧
    (∀ (text msg : String),
        env.completionsCreate (jsReplace MEDICAL_SUMMARY_PROMPT "\x7btranscript\x7d" text)
          = .error msg →
        generateMedicalSummary env (.str text) = .ok MOCK_SUMMARY) ∧
    (∀ (text : String) (completion : JsVal),
        env.completionsCreate (jsReplace MEDICAL_SUMMARY_PROMPT "\x7btranscript\x7d" text)
          = .ok completion →
        (∀ s, completionContent completion ≠ .ok (.str s)) →
        generateMedicalSummary env (.str text) = .ok MOCK_SUMMARY) ∧
    (∀ (files : FileSystem) (audioPath : String),
        ∃ v, transcribeAudio env files audioPath = .ok v) ∧
    (∀ transcript : JsVal, ∃ v, generateMedicalSummary env transcript = .ok v) := by
  refine ⟨?_, ?_, ?_, ?_, ?_, ?_⟩
  · intro files audioPath msg hcall
    by_cases hex : existsSync files audioPath = true
    · exact transcribeAudio_of_tryBlock_error env files audioPath (mkError msg)
        (by simp [transcribeAudio.tryBlock, hkey, hex, hcall,
          openai_transcriptionsCreate_of_key env hkey])
    · exact transcribeAudio_of_tryBlock_error env files audioPath
        (mkError ("Audio file not found: " ++ audioPath))
        (by simp [transcribeAudio.tryBlock, hkey, hex])
  · intro files audioPath hex
    exact transcribeAudio_of_tryBlock_error env files audioPath
      (mkError ("Audio file not found: " ++ audioPath))
      (by simp [transcribeAudio.tryBlock, hkey, hex])
  · intro text msg hcall
    exact generateMedicalSummary_tryBlock_error_or_mock_of_call env text hkey
      ⟨mkError msg, by rw [hcall]⟩
  · intro text completion hcall hcontent
    obtain ⟨e, he⟩ := completionText_error_of_no_text completion hcontent
    exact generateMedicalSummary_tryBlock_error_or_mock_of_call env text hkey
      ⟨e, by rw [hcall]; simp only [he]⟩
  · intro files audioPath
    exact transcribeAudio_ok env files audioPath
  · intro transcript
    exact generateMedicalSummary_ok env transcript

/-- Witness of C2: a provider that rejects both calls, a missing file, and a
response with an empty `choices` array. -/
theorem C2_fallback_on_provider_failure_witness :
    hasValidApiKey failingProviderEnv = true ∧
    transcribeAudio failingProviderEnv (sampleWorld false).files "uploads/a.wav"
      = .ok (.str MOCK_TRANSCRIPT) ∧
    transcribeAudio failingProviderEnv [] "uploads/a.wav" = .ok (.str MOCK_TRANSCRIPT) ∧
    generateMedicalSummary failingProviderEnv (.str "PATIENT: I have a cough.")
      = .ok MOCK_SUMMARY ∧
    generateMedicalSummary noChoicesEnv (.str "PATIENT: I have a cough.") = .ok MOCK_SUMMARY :=
  ⟨rfl,
   (C2_fallback_on_provider_failure failingProviderEnv rfl).1 _ "uploads/a.wav"
     "503 Service Unavailable" rfl,
   (C2_fallback_on_provider_failure failingProviderEnv rfl).2.1 [] "uploads/a.wav" rfl,
   (C2_fallback_on_provider_failure failingProviderEnv rfl).2.2.1 "PATIENT: I have a cough."
     "429 Too Many Requests" rfl,
   (C2_fallback_on_provider_failure noChoicesEnv rfl).2.2.2.1 "PATIENT: I have a cough."
     (.obj [("id", .str "chatcmpl-1"), ("choices", .arr [])]) rfl
     (fun s h => by cases h)⟩

/-! ## Claims C9, C10: the summarizer's guard and its lenient parse -/

/-- Counterexample to C9: with a valid key, a transcript of white space only and a
missing transcript are both answered with the mock summary; nothing is
raised to the caller. -/
theorem C9_counterexample :
    generateMedicalSummary failingProviderEnv (.str "  \n ") = .ok MOCK_SUMMARY ∧
    generateMedicalSummary failingProviderEnv (.str "") = .ok MOCK_SUMMARY ∧
    generateMedicalSummary failingProviderEnv .undefined = .ok MOCK_SUMMARY :=
  ⟨rfl, rfl, rfl⟩

/-- Claim C9 as amended: for every transcript that is missing (falsy) or empty after
trimming, the guard of `generateMedicalSummary` throws `Empty transcript provided`
inside the function's own `try` block, the `catch` of that block converts it,
and the caller receives the mock summary as a normal return. -/
theorem C9_empty_transcript_falls_back (env : Env) (transcript : JsVal)
    (h : truthy transcript = false ∨ ∃ s, transcript = .str s ∧ (jsTrim s).length = 0) :
    generateMedicalSummary.tryBlock env transcript
        = .error (mkError "Empty transcript provided") ∧
    generateMedicalSummary env transcript = .ok MOCK_SUMMARY :=
  ⟨generateMedicalSummary_tryBlock_empty env transcript h,
   generateMedicalSummary_of_tryBlock_error env transcript _
     (generateMedicalSummary_tryBlock_empty env transcript h)⟩

/-- Witness of the amended C9 on a transcript of blanks. -/
theorem C9_empty_transcript_falls_back_witness :
    (jsTrim "   ").length = 0 ∧
    generateMedicalSummary.tryBlock failingProviderEnv (.str "   ")
        = .error (mkError "Empty transcript provided") ∧
    generateMedicalSummary failingProviderEnv (.str "   ") = .ok MOCK_SUMMARY :=
  ⟨rfl, C9_empty_transcript_falls_back failingProviderEnv (.str "   ")
    (Or.inr ⟨"   ", rfl, rfl⟩)⟩

theorem matchBraceSpanChars_spec (cs sp : List Char)
    (h : matchBraceSpanChars cs = some sp) :
    ∃ pre post, cs = pre ++ sp ++ post ∧ (∀ c ∈ pre, c ≠ '{') ∧ (∀ c ∈ post, c ≠ '}') ∧
      sp.head? = some '{' ∧ sp.getLast? = some '}' := by
  unfold matchBraceSpanChars at h
  set p : Char → Bool := fun c => decide (c ≠ '{') with hp
  set q : Char → Bool := fun c => decide (c ≠ '}') with hq
  have hsplit : cs = cs.takeWhile p ++ cs.dropWhile p :=
    (List.takeWhile_append_dropWhile p cs).symm
  cases hrest : cs.dropWhile p with
  | nil => rw [hrest] at h; cases h
  | cons a rest =>
      rw [hrest] at h
      dsimp only at h
      have hrev : (a :: rest).reverse
          = (a :: rest).reverse.takeWhile q ++ (a :: rest).reverse.dropWhile q :=
        (List.takeWhile_append_dropWhile q _).symm
      cases hr : (a :: rest).reverse.dropWhile q with
      | nil => rw [hr] at h; cases h
      | cons b r =>
          have hsp : sp = (b :: r).reverse := by
            rw [hr] at h
            exact (Option.some.inj h).symm
          have hrest2 : a :: rest = sp ++ ((a :: rest).reverse.takeWhile q).reverse := by
            have := congrArg List.reverse hrev
            rw [List.reverse_reverse, List.reverse_append, hr] at this
            rw [hsp]
            exact this
          have ha : a = '{' := by
            have h1 := List.head?_dropWhile_not p cs
            rw [hrest] at h1
            simp [hp] at h1
            exact h1
          have hb : b = '}' := by
            have h1 := List.head?_dropWhile_not q (a :: rest).reverse
            rw [hr] at h1
            simp [hq] at h1
            exact h1
          refine ⟨cs.takeWhile p, ((a :: rest).reverse.takeWhile q).reverse, ?_, ?_, ?_, ?_, ?_⟩
          · rw [List.append_assoc, ← hrest2, ← hrest]
            exact hsplit
          · intro c hc
            have := List.mem_takeWhile_imp hc
            simpa [hp] using this
          · intro c hc
            have := List.mem_takeWhile_imp (List.mem_reverse.mp hc)
            simpa [hq] using this
          · have hne : sp ≠ [] := by rw [hsp]; simp
            have h2 : (a :: rest).head? = (sp ++ ((a :: rest).reverse.takeWhile q).reverse).head? :=
              congrArg List.head? hrest2
            rw [List.head?_append_of_ne_nil _ hne] at h2
            rw [← h2, ha]
            rfl
          · rw [hsp, List.getLast?_reverse, hb]
            rfl

theorem parseResponse_of_strict_error (env : Env) (transcript : JsVal)
    (summaryText span : String) (hstrict : ∀ v, env.jsonParse summaryText ≠ .ok v)
    (hspan : matchBraceSpan summaryText = some span) :
    generateMedicalSummary.parseResponse env transcript summaryText =
      match env.jsonParse span with
      | .ok extractedJson => .ok extractedJson
      | .error _ => .ok MOCK_SUMMARY := by
  unfold generateMedicalSummary.parseResponse
  cases hp : env.jsonParse summaryText with
  | ok v => exact absurd hp (hstrict v)
  | error e =>
      simp only [hspan]
      cases env.jsonParse span <;> rfl

/-- Counterexample to C10: the response holds the object `{"diagnosis":"Flu"}` followed
by a later brace block. It is not valid JSON, its first top-level block parses
to that object, yet `generateMedicalSummary` returns the mock summary: the
span it tries runs from the first opening to the last closing brace. -/
theorem C10_counterexample :
    (JSON_parse twoBlockResponseText).toOption = none ∧
    spec_firstTopLevelBlock twoBlockResponseText = some "\x7b\"diagnosis\":\"Flu\"\x7d" ∧
    JSON_parse "\x7b\"diagnosis\":\"Flu\"\x7d" = .ok (.obj [("diagnosis", .str "Flu")]) ∧
    matchBraceSpan twoBlockResponseText
      = some "\x7b\"diagnosis\":\"Flu\"\x7d and also \x7b\"age\":\"5\"\x7d" ∧
    generateMedicalSummary twoBlockResponseEnv (.str "PATIENT: I have a fever.")
      = .ok MOCK_SUMMARY ∧
    lookupField "diagnosis" (ownEntries MOCK_SUMMARY) = .str "Tension headaches" :=
  ⟨rfl, rfl, rfl, rfl, rfl, rfl⟩

/-- Claim C10 as amended: for every model response that is not itself valid JSON but
contains a brace span, `generateMedicalSummary` tries the span from the first
opening brace to the last closing brace of the response (no opening brace
before it, no closing brace after it): it returns the value parsed from that
span when the span is valid JSON, and the mock summary when it is not. -/
theorem C10_brace_span_extraction (env : Env) (text : String) (completion : JsVal)
    (summaryText span : String)
    (hkey : hasValidApiKey env = true) (hne : (jsTrim text).length ≠ 0)
    (hcall : env.completionsCreate (jsReplace MEDICAL_SUMMARY_PROMPT "\x7btranscript\x7d" text)
      = .ok completion)
    (htext : completionText completion = .ok summaryText)
    (hstrict : ∀ v, env.jsonParse summaryText ≠ .ok v)
    (hspan : matchBraceSpan summaryText = some span) :
    (∃ pre post, summaryText.data = pre ++ span.data ++ post ∧
        (∀ c ∈ pre, c ≠ '{') ∧ (∀ c ∈ post, c ≠ '}') ∧
        span.data.head? = some '{' ∧ span.data.getLast? = some '}') ∧
    (∀ v, env.jsonParse span = .ok v → generateMedicalSummary env (.str text) = .ok v) ∧
    ((∀ v, env.jsonParse span ≠ .ok v) →
        generateMedicalSummary env (.str text) = .ok MOCK_SUMMARY) := by
  have htry : generateMedicalSummary.tryBlock env (.str text) =
      match env.jsonParse span with
      | .ok extractedJson => .ok extractedJson
      | .error _ => .ok MOCK_SUMMARY := by
    rw [generateMedicalSummary_tryBlock_str env text hkey hne, hcall]
    simp only [htext]
    exact parseResponse_of_strict_error env _ summaryText span hstrict hspan
  refine ⟨?_, ?_, ?_⟩
  · unfold matchBraceSpan at hspan
    cases hm : matchBraceSpanChars summaryText.data with
    | none => simp [hm] at hspan
    | some sp =>
        rw [hm] at hspan
        have hsp : span = String.mk sp := (Option.some.inj hspan).symm
        subst hsp
        exact matchBraceSpanChars_spec _ _ hm
  · intro v hv
    unfold generateMedicalSummary
    rw [htry, hv]
  · intro hv
    unfold generateMedicalSummary
    rw [htry]
    cases hp : env.jsonParse span with
    | ok v => exact absurd hp (hv v)
    | error e => rfl

/-- Witness of the amended C10: a JSON object wrapped in plain text. -/
theorem C10_brace_span_extraction_witness :
    hasValidApiKey wrappedResponseEnv = true ∧
    (JSON_parse wrappedResponseText).toOption = none ∧
    matchBraceSpan wrappedResponseText = some "\x7b\"diagnosis\":\"Flu\"\x7d" ∧
    generateMedicalSummary wrappedResponseEnv (.str "PATIENT: I have a fever.")
      = .ok (.obj [("diagnosis", .str "Flu")]) :=
  ⟨rfl, rfl, rfl,
   (C10_brace_span_extraction wrappedResponseEnv "PATIENT: I have a fever."
      (chatResponse wrappedResponseText) wrappedResponseText "\x7b\"diagnosis\":\"Flu\"\x7d"
      rfl (by decide) rfl rfl (fun v h => by cases h) rfl).2.1
      (.obj [("diagnosis", .str "Flu")]) rfl⟩

/-! ## Facts about the store and the background run -/

theorem findByIdAndUpdate_files (env : Env) (id : Nat) (upd : List (String × JsVal)) (w : World) :
    (findByIdAndUpdate env id upd w).2.files = w.files := by
  unfold findByIdAndUpdate
  split <;> rfl

theorem findByIdAndUpdate_writes (env : Env) (id : Nat) (upd : List (String × JsVal))
    (w : World) :
    (findByIdAndUpdate env id upd w).2.writes
      = w.writes ++ [WriteEvent.mk id upd (env.storeFailure w.writes.length).isSome] := by
  unfold findByIdAndUpdate
  split <;> rename_i h <;> simp [h]

theorem findByIdAndUpdate_error (env : Env) (id : Nat) (upd : List (String × JsVal))
    (w : World) (msg : String) (h : env.storeFailure w.writes.length = some msg) :
    findByIdAndUpdate env id upd w
      = (.error (mkError msg),
          { w with writes := w.writes ++ [{ id := id, update := upd, threw := true }] }) := by
  unfold findByIdAndUpdate
  rw [h]

theorem findByIdAndUpdate_ok (env : Env) (id : Nat) (upd : List (String × JsVal))
    (w : World) (h : env.storeFailure w.writes.length = none) :
    findByIdAndUpdate env id upd w
      = (.ok (),
          { w with
            db := w.db.map (fun d =>
              if d.id = id then { d with fields := assignFields d.fields (schemaCast upd) }
              else d)
            writes := w.writes ++ [{ id := id, update := upd, threw := false }] }) := by
  unfold findByIdAndUpdate
  rw [h]

theorem tryBlock_eq (env : Env) (id : Nat) (audioPath : String) (w : World) :
    processAudioBackground.tryBlock env id audioPath w =
      match findByIdAndUpdate env id (transcribingUpdate env) w with
      | (.error e, w1) => (.error e, w1)
      | (.ok _, w1) =>
          match processAudioBackground.prepare env w1.files audioPath with
          | .error e => (.error e, w1)
          | .ok (transcript, summary) =>
              findByIdAndUpdate env id (completedUpdate env transcript summary) w1 := by
  unfold processAudioBackground.tryBlock processAudioBackground.prepare transcribingUpdate
  rcases findByIdAndUpdate env id
      [("status", .str "transcribing"), ("processingStartedAt", .date env.now)] w with ⟨r, w1⟩
  cases r with
  | error e => rfl
  | ok u =>
      dsimp only
      split
      · rfl
      · split
        · rfl
        · split
          · rfl
          · split
            · rfl
            · split
              · rfl
              · split
                · rfl
                · rfl

theorem statSync_error_partialData (files : FileSystem) (audioPath : String) (e : JsError)
    (h : statSync files audioPath = .error e) : e.partialData = .undefined := by
  unfold statSync at h
  split at h
  · cases h
  · cases h
    rfl

theorem processMedicalAudio_ne_error (env : Env) (files : FileSystem) (audioPath : String)
    (e : JsError) : processMedicalAudio env files audioPath ≠ .error e := by
  unfold processMedicalAudio
  split
  · intro h; cases h
  · split
    · intro h; cases h
    · intro h; cases h

theorem prepare_error_partialData (env : Env) (files : FileSystem) (audioPath : String)
    (e : JsError) (h : processAudioBackground.prepare env files audioPath = .error e) :
    e.partialData = .undefined := by
  unfold processAudioBackground.prepare at h
  split at h
  · cases h; rfl
  · split at h
    · rename_i e2 hst
      cases h
      exact statSync_error_partialData _ _ _ hst
    · split at h
      · cases h; rfl
      · split at h
        · rename_i e2 hp
          exact absurd hp (processMedicalAudio_ne_error _ _ _ _)
        · split at h
          · cases h; rfl
          · split at h
            · cases h; rfl
            · cases h

theorem failureUpdate_of_no_partialData (env : Env) (e : JsError)
    (h : e.partialData = .undefined) : failureUpdate env e = failedUpdate env e.message := by
  unfold failureUpdate failedUpdate
  simp [h, truthy]

theorem tryBlock_error_partialData (env : Env) (id : Nat) (audioPath : String) (w w1 : World)
    (e : JsError) (h : processAudioBackground.tryBlock env id audioPath w = (.error e, w1)) :
    e.partialData = .undefined := by
  rw [tryBlock_eq] at h
  cases hs : env.storeFailure w.writes.length with
  | some msg =>
      rw [findByIdAndUpdate_error env id _ w msg hs] at h
      simp only [Prod.mk.injEq, Except.error.injEq] at h
      rw [← h.1]
      rfl
  | none =>
      rw [findByIdAndUpdate_ok env id _ w hs] at h
      dsimp only at h
      cases hp : processAudioBackground.prepare env w.files audioPath with
      | error e2 =>
          rw [hp] at h
          simp only [Prod.mk.injEq, Except.error.injEq] at h
          rw [← h.1]
          exact prepare_error_partialData _ _ _ _ hp
      | ok ts =>
          rw [hp] at h
          obtain ⟨t, s2⟩ := ts
          dsimp only at h
          unfold findByIdAndUpdate at h
          split at h
          · simp only [Prod.mk.injEq, Except.error.injEq] at h
            rw [← h.1]
            rfl
          · cases h

theorem finallyBlock_writes (audioPath : String) (w : World) :
    (processAudioBackground.finallyBlock audioPath w).writes = w.writes := by
  unfold processAudioBackground.finallyBlock
  split
  · split <;> rfl
  · rfl

theorem finallyBlock_db (audioPath : String) (w : World) :
    (processAudioBackground.finallyBlock audioPath w).db = w.db := by
  unfold processAudioBackground.finallyBlock
  split
  · split <;> rfl
  · rfl

theorem run_of_try_error (env : Env) (id : Nat) (audioPath : String) (w w1 : World)
    (e : JsError) (h : processAudioBackground.tryBlock env id audioPath w = (.error e, w1)) :
    processAudioBackground env id audioPath w =
      ((findByIdAndUpdate env id (failedUpdate env e.message) w1).1,
        processAudioBackground.finallyBlock audioPath
          (findByIdAndUpdate env id (failedUpdate env e.message) w1).2) := by
  unfold processAudioBackground processAudioBackground.tryCatch
  rw [h]
  dsimp only
  unfold processAudioBackground.catchBlock
  rw [failureUpdate_of_no_partialData env e (tryBlock_error_partialData env id audioPath w w1 e h)]

theorem run_of_try_ok (env : Env) (id : Nat) (audioPath : String) (w w1 : World)
    (h : processAudioBackground.tryBlock env id audioPath w = (.ok (), w1)) :
    processAudioBackground env id audioPath w
      = (.ok (), processAudioBackground.finallyBlock audioPath w1) := by
  unfold processAudioBackground processAudioBackground.tryCatch
  rw [h]

theorem processAudioBackground_writes (env : Env) (id : Nat) (audioPath : String) (w : World) :
    (processAudioBackground env id audioPath w).2.writes
      = w.writes ++ runWrites env id audioPath w.files w.writes.length := by
  unfold runWrites
  cases hs : env.storeFailure w.writes.length with
  | some msg =>
      have htry : processAudioBackground.tryBlock env id audioPath w
          = (.error (mkError msg),
              { w with writes := w.writes ++ [WriteEvent.mk id (transcribingUpdate env) true] }) := by
        rw [tryBlock_eq, findByIdAndUpdate_error env id _ w msg hs]
      rw [run_of_try_error env id audioPath w _ _ htry]
      simp [finallyBlock_writes, findByIdAndUpdate_writes, mkError]
  | none =>
      cases hp : processAudioBackground.prepare env w.files audioPath with
      | error e =>
          have htry : processAudioBackground.tryBlock env id audioPath w
              = (.error e,
                  { w with
                    db := w.db.map (fun d =>
                      if d.id = id then
                        Doc.mk d.id (assignFields d.fields (schemaCast (transcribingUpdate env)))
                      else d)
                    writes := w.writes ++ [WriteEvent.mk id (transcribingUpdate env) false] }) := by
            rw [tryBlock_eq, findByIdAndUpdate_ok env id _ w hs]
            dsimp only
            rw [hp]
          rw [run_of_try_error env id audioPath w _ _ htry]
          simp [finallyBlock_writes, findByIdAndUpdate_writes]
      | ok ts =>
          obtain ⟨t, s2⟩ := ts
          dsimp only
          have hw1 : processAudioBackground.tryBlock env id audioPath w
              = findByIdAndUpdate env id (completedUpdate env t s2)
                  { w with
                    db := w.db.map (fun d =>
                      if d.id = id then
                        Doc.mk d.id (assignFields d.fields (schemaCast (transcribingUpdate env)))
                      else d)
                    writes := w.writes ++ [WriteEvent.mk id (transcribingUpdate env) false] } := by
            rw [tryBlock_eq, findByIdAndUpdate_ok env id _ w hs]
            dsimp only
            rw [hp]
          cases hs1 : env.storeFailure (w.writes.length + 1) with
          | none =>
              rw [findByIdAndUpdate_ok env id _ _ (by simpa using hs1)] at hw1
              rw [run_of_try_ok env id audioPath w _ hw1]
              simp [finallyBlock_writes]
          | some msg =>
              rw [findByIdAndUpdate_error env id _ _ msg (by simpa using hs1)] at hw1
              rw [run_of_try_error env id audioPath w _ _ hw1]
              simp [finallyBlock_writes, findByIdAndUpdate_writes, mkError]

/-! ## Facts about property lists and the backfill -/

theorem lookupField_setField_same (k : String) (v : JsVal) (l : List (String × JsVal)) :
    lookupField k (setField k v l) = v := by
  induction l with
  | nil => simp [setField, lookupField]
  | cons a rest ih =>
      obtain ⟨k2, w⟩ := a
      by_cases h : k2 = k
      · simp [setField, lookupField, h]
      · simp [setField, lookupField, h, ih]

theorem lookupField_setField_ne (k k2 : String) (v : JsVal) (l : List (String × JsVal))
    (h : k ≠ k2) : lookupField k (setField k2 v l) = lookupField k l := by
  induction l with
  | nil => simp [setField, lookupField, Ne.symm h]
  | cons a rest ih =>
      obtain ⟨k3, w⟩ := a
      by_cases h3 : k3 = k2
      · have : k3 ≠ k := by rw [h3]; exact Ne.symm h
        simp [setField, lookupField, h3, Ne.symm h]
      · by_cases h4 : k3 = k
        · subst h4
          simp [setField, lookupField, h]
        · simp [setField, lookupField, h3, h4, ih]

theorem truthy_of_isEmptyStr (v : JsVal) (h : isEmptyStr v = true) : truthy v = false := by
  cases v <;> simp_all [isEmptyStr, truthy]

theorem truthy_notSpecified : truthy (.str "Not specified") = true := by decide

theorem lookupField_backfillField (u : List (String × JsVal)) (f k : String) :
    lookupField k (backfillField u f) =
      if k = f then (if truthy (lookupField f u) then lookupField f u else .str "Not specified")
      else lookupField k u := by
  unfold backfillField
  by_cases hk : k = f
  · subst hk
    by_cases ht : truthy (lookupField k u) = true
    · have he : isEmptyStr (lookupField k u) = false := by
        cases h : isEmptyStr (lookupField k u) with
        | false => rfl
        | true => rw [truthy_of_isEmptyStr _ h] at ht; cases ht
      simp [ht, he]
    · simp [ht, lookupField_setField_same]
  · by_cases hc : (!truthy (lookupField f u) || isEmptyStr (lookupField f u)) = true
    · simp only [hc, if_true, hk, if_false]
      exact lookupField_setField_ne k f _ u hk
    · simp only [hc, hk, if_false]
      simp

theorem lookupField_foldl_backfillField (fields : List String) (u : List (String × JsVal))
    (k : String) :
    lookupField k (fields.foldl backfillField u) =
      if k ∈ fields then
        (if truthy (lookupField k u) then lookupField k u else .str "Not specified")
      else lookupField k u := by
  induction fields generalizing u with
  | nil => simp
  | cons f fs ih =>
      rw [List.foldl_cons, ih, lookupField_backfillField]
      by_cases hk : k = f
      · subst hk
        by_cases ht : truthy (lookupField k u) = true
        · simp [ht]
        · by_cases hmem : k ∈ fs
          · simp [ht, hmem, truthy_notSpecified]
          · simp [ht, hmem]
      · simp [hk]

theorem lookupField_backfill (u : List (String × JsVal)) (k : String) :
    lookupField k (backfill u) =
      if k ∈ requiredFields then
        (if truthy (lookupField k u) then lookupField k u else .str "Not specified")
      else lookupField k u :=
  lookupField_foldl_backfillField requiredFields u k

theorem statusOf_completedUpdate (env : Env) (transcript summary : JsVal) :
    statusOf (completedUpdate env transcript summary) = .str "completed" := by
  unfold statusOf completedUpdate
  rw [lookupField_backfill]
  have hnot : ¬ ("status" ∈ requiredFields) := by decide
  rw [if_neg hnot]
  simp only [assignFields, List.foldl]
  rw [lookupField_setField_ne _ _ _ _ (by decide), lookupField_setField_ne _ _ _ _ (by decide),
    lookupField_setField_same]

theorem lookupField_completedUpdate (env : Env) (transcript summary : JsVal) (field : String)
    (hf : field ∈ requiredFields) :
    lookupField field (completedUpdate env transcript summary) =
      if truthy (lookupField field (ownEntries summary)) then
        lookupField field (ownEntries summary)
      else .str "Not specified" := by
  have hbase : lookupField field (assignFields (ownEntries summary)
      [("transcript", transcript), ("status", .str "completed"),
       ("processedAt", .date env.now), ("processingCompletedAt", .date env.now)])
      = lookupField field (ownEntries summary) := by
    have h1 : field ≠ "transcript" := by rintro rfl; revert hf; decide
    have h2 : field ≠ "status" := by rintro rfl; revert hf; decide
    have h3 : field ≠ "processedAt" := by rintro rfl; revert hf; decide
    have h4 : field ≠ "processingCompletedAt" := by rintro rfl; revert hf; decide
    simp only [assignFields, List.foldl]
    rw [lookupField_setField_ne _ _ _ _ h4, lookupField_setField_ne _ _ _ _ h3,
      lookupField_setField_ne _ _ _ _ h2, lookupField_setField_ne _ _ _ _ h1]
  unfold completedUpdate
  rw [lookupField_backfill, if_pos hf, hbase]

theorem prepare_ok (env : Env) (files : FileSystem) (audioPath : String)
    (transcript summary : JsVal)
    (h : processAudioBackground.prepare env files audioPath = .ok (transcript, summary)) :
    ∃ r, processMedicalAudio env files audioPath = .ok r ∧ r.success = true ∧
      r.transcript = transcript ∧ r.summary = summary ∧
      truthy summary = true ∧ typeOf summary = "object" := by
  unfold processAudioBackground.prepare at h
  split at h
  · cases h
  · split at h
    · cases h
    · split at h
      · cases h
      · split at h
        · cases h
        · rename_i r hr
          split at h
          · cases h
          · rename_i hs
            split at h
            · cases h
            · rename_i hv
              simp only [Except.ok.injEq, Prod.mk.injEq] at h
              have hv2 : truthy r.summary = true ∧ typeOf r.summary = "object" := by
                simpa using hv
              refine ⟨r, hr, by simpa using hs, h.1, h.2, ?_, ?_⟩
              · rw [← h.2]; exact hv2.1
              · rw [← h.2]; exact hv2.2

theorem newWrites_run (env : Env) (id : Nat) (audioPath : String) (w : World) :
    newWrites w (processAudioBackground env id audioPath w).2
      = runWrites env id audioPath w.files w.writes.length := by
  unfold newWrites
  rw [processAudioBackground_writes]
  simp

theorem statusOf_transcribingUpdate (env : Env) :
    statusOf (transcribingUpdate env) = .str "transcribing" := rfl

theorem statusOf_failedUpdate (env : Env) (msg : String) :
    statusOf (failedUpdate env msg) = .str "failed" := rfl

theorem completing_write_of_run (env : Env) (id : Nat) (audioPath : String) (w : World)
    (e : WriteEvent) (he : e ∈ newWrites w (processAudioBackground env id audioPath w).2)
    (hc : statusOf e.update = .str "completed") :
    ∃ transcript summary,
      processAudioBackground.prepare env w.files audioPath = .ok (transcript, summary) ∧
      e.update = completedUpdate env transcript summary := by
  rw [newWrites_run] at he
  unfold runWrites at he
  have hT : ∀ b, e = WriteEvent.mk id (transcribingUpdate env) b → False := by
    intro b hb
    rw [hb] at hc
    simp [statusOf_transcribingUpdate] at hc
  have hF : ∀ msg b, e = WriteEvent.mk id (failedUpdate env msg) b → False := by
    intro msg b hb
    rw [hb] at hc
    simp [statusOf_failedUpdate] at hc
  cases hs : env.storeFailure w.writes.length with
  | some msg =>
      rw [hs] at he
      simp only [List.mem_cons, List.mem_singleton, List.not_mem_nil, or_false] at he
      rcases he with h | h
      · exact (hT _ h).elim
      · exact (hF _ _ h).elim
  | none =>
      rw [hs] at he
      cases hp : processAudioBackground.prepare env w.files audioPath with
      | error e2 =>
          rw [hp] at he
          simp only [List.mem_cons, List.mem_singleton, List.not_mem_nil, or_false] at he
          rcases he with h | h
          · exact (hT _ h).elim
          · exact (hF _ _ h).elim
      | ok ts =>
          obtain ⟨t, s2⟩ := ts
          rw [hp] at he
          refine ⟨t, s2, rfl, ?_⟩
          cases hs1 : env.storeFailure (w.writes.length + 1) with
          | none =>
              simp only [hs1, List.mem_cons, List.mem_singleton, List.not_mem_nil, or_false] at he
              rcases he with h | h
              · exact (hT _ h).elim
              · rw [h]
          | some msg =>
              simp only [hs1, List.mem_cons, List.mem_singleton, List.not_mem_nil, or_false] at he
              rcases he with h | h | h
              · exact (hT _ h).elim
              · rw [h]
              · exact (hF _ _ h).elim

/-! ## Claim C3: the backfill of the completing update -/

/-- Counterexample to C3: the summary carries `age: 0`, a field that is present and
is not an empty string, yet the completing update has `age` equal to
`Not specified` instead of the summary's value. -/
theorem C3_counterexample :
    generateMedicalSummary ageZeroEnv (.str "PATIENT: My baby has a fever.")
      = .ok (.obj [("patientName", .str "Baby Doe"), ("age", .num 0 0)]) ∧
    hasField "age" [("patientName", .str "Baby Doe"), ("age", .num 0 0)] = true ∧
    isEmptyStr (.num 0 0) = false ∧
    (newWrites (sampleWorld false) ageZeroRun.2).map
        (fun e => (statusOf e.update, lookupField "patientName" e.update,
          lookupField "age" e.update))
      = [(.str "transcribing", .undefined, .undefined),
         (.str "completed", .str "Baby Doe", .str "Not specified")] :=
  ⟨rfl, rfl, rfl, rfl⟩

/-- Claim C3 as amended: in the success path of `processAudioBackground` the completing
update is built from the summary returned by `processMedicalAudio`, and for each
of the nine required fields it carries `Not specified` when the summary's
value is missing or falsy (`undefined`, `null`, `false`, the number 0, the
empty string) and the summary's value unchanged otherwise. -/
theorem C3_backfill_of_falsy_fields (env : Env) (id : Nat) (audioPath : String) (w : World)
    (e : WriteEvent) (he : e ∈ newWrites w (processAudioBackground env id audioPath w).2)
    (hc : statusOf e.update = .str "completed") :
    ∃ r, processMedicalAudio env w.files audioPath = .ok r ∧ r.success = true ∧
      ∀ field ∈ requiredFields,
        (truthy (lookupField field (ownEntries r.summary)) = false →
          lookupField field e.update = .str "Not specified") ∧
        (truthy (lookupField field (ownEntries r.summary)) = true →
          lookupField field e.update = lookupField field (ownEntries r.summary)) := by
  obtain ⟨t, s2, hp, hu⟩ := completing_write_of_run env id audioPath w e he hc
  obtain ⟨r, hr, hsucc, -, hsum, -, -⟩ := prepare_ok env w.files audioPath t s2 hp
  refine ⟨r, hr, hsucc, ?_⟩
  intro field hf
  rw [hu, hsum, lookupField_completedUpdate env t s2 field hf]
  constructor
  · intro h
    simp [h]
  · intro h
    simp [h]

/-- Witness of the amended C3: the completing write of the run on the `age: 0` summary. -/
theorem C3_backfill_of_falsy_fields_witness :
    statusOf (completedUpdate ageZeroEnv (.str "PATIENT: My baby has a fever.")
      (.obj [("patientName", .str "Baby Doe"), ("age", .num 0 0)])) = .str "completed" ∧
    ∃ r, processMedicalAudio ageZeroEnv (sampleWorld false).files "uploads/a.wav" = .ok r ∧
      r.success = true ∧
      ∀ field ∈ requiredFields,
        (truthy (lookupField field (ownEntries r.summary)) = false →
          lookupField field (completedUpdate ageZeroEnv (.str "PATIENT: My baby has a fever.")
            (.obj [("patientName", .str "Baby Doe"), ("age", .num 0 0)]))
            = .str "Not specified") ∧
        (truthy (lookupField field (ownEntries r.summary)) = true →
          lookupField field (completedUpdate ageZeroEnv (.str "PATIENT: My baby has a fever.")
            (.obj [("patientName", .str "Baby Doe"), ("age", .num 0 0)]))
            = lookupField field (ownEntries r.summary)) :=
  ⟨rfl,
   C3_backfill_of_falsy_fields ageZeroEnv 7 "uploads/a.wav" (sampleWorld false)
     (WriteEvent.mk 7 (completedUpdate ageZeroEnv (.str "PATIENT: My baby has a fever.")
        (.obj [("patientName", .str "Baby Doe"), ("age", .num 0 0)])) false)
     (List.Mem.tail _ (List.Mem.head _)) rfl⟩

/-! ## Claim C5: the status sequence of a background run -/

/-- Counterexample to C5: the store accepts the first write and rejects the later
ones. The run issues transcribing, completed and failed, and the record
receives transcribing only: under neither reading is the sequence
`[transcribing, completed]` or `[transcribing, failed]`. -/
theorem C5_counterexample :
    runIssued (sampleWorld false) storeLostRun.2
      = [.str "transcribing", .str "completed", .str "failed"] ∧
    runApplied (sampleWorld false) storeLostRun.2 = [.str "transcribing"] ∧
    (docFields 7 storeLostRun.2).map (lookupField "status") = some (.str "transcribing") :=
  ⟨rfl, rfl, rfl⟩

/-- Claim C5 as amended: every run of `processAudioBackground` issues the status writes
`[transcribing, completed]`, `[transcribing, failed]` or
`[transcribing, completed, failed]` (the last when the store rejects the
completing write), so transcribing is always issued first and summarizing and
uploaded are never written; completed and failed are never both accepted by
the store; and when the store rejects no write the sequence written is exactly
`[transcribing, completed]` or `[transcribing, failed]`. -/
theorem C5_status_sequence (env : Env) (id : Nat) (audioPath : String) (w : World) :
    (runIssued w (processAudioBackground env id audioPath w).2
        = [.str "transcribing", .str "completed"] ∨
      runIssued w (processAudioBackground env id audioPath w).2
        = [.str "transcribing", .str "failed"] ∨
      runIssued w (processAudioBackground env id audioPath w).2
        = [.str "transcribing", .str "completed", .str "failed"]) ∧
    ¬ (JsVal.str "completed" ∈ runApplied w (processAudioBackground env id audioPath w).2 ∧
       JsVal.str "failed" ∈ runApplied w (processAudioBackground env id audioPath w).2) ∧
    ((∀ n, env.storeFailure n = none) →
      runApplied w (processAudioBackground env id audioPath w).2
        = runIssued w (processAudioBackground env id audioPath w).2 ∧
      (runIssued w (processAudioBackground env id audioPath w).2
          = [.str "transcribing", .str "completed"] ∨
        runIssued w (processAudioBackground env id audioPath w).2
          = [.str "transcribing", .str "failed"])) := by
  unfold runIssued runApplied
  rw [newWrites_run]
  unfold runWrites
  cases hs : env.storeFailure w.writes.length with
  | some msg =>
      refine ⟨Or.inr (Or.inl rfl), ?_, ?_⟩
      · cases env.storeFailure (w.writes.length + 1) <;>
          simp [statusOf_transcribingUpdate, statusOf_failedUpdate]
      · intro hall
        rw [hall] at hs
        cases hs
  | none =>
      cases hp : processAudioBackground.prepare env w.files audioPath with
      | error e2 =>
          refine ⟨Or.inr (Or.inl rfl), ?_, ?_⟩
          · cases env.storeFailure (w.writes.length + 1) <;>
              simp [statusOf_transcribingUpdate, statusOf_failedUpdate]
          · intro hall
            simp [hall, statusOf_transcribingUpdate, statusOf_failedUpdate]
      | ok ts =>
          obtain ⟨t, s2⟩ := ts
          cases hs1 : env.storeFailure (w.writes.length + 1) with
          | none =>
              refine ⟨Or.inl ?_, ?_, ?_⟩
              · simp [statusOf_transcribingUpdate, statusOf_completedUpdate]
              · simp [statusOf_transcribingUpdate, statusOf_completedUpdate]
              · intro _
                simp [statusOf_transcribingUpdate, statusOf_completedUpdate]
          | some msg =>
              refine ⟨Or.inr (Or.inr ?_), ?_, ?_⟩
              · simp [statusOf_transcribingUpdate, statusOf_completedUpdate,
                  statusOf_failedUpdate]
              · cases env.storeFailure (w.writes.length + 2) <;>
                  simp [statusOf_transcribingUpdate, statusOf_completedUpdate,
                    statusOf_failedUpdate]
              · intro hall
                rw [hall] at hs1
                cases hs1

/-- Witness of the amended C5: a run on a store that accepts every write. -/
theorem C5_status_sequence_witness :
    (∀ n, noKeyEnv.storeFailure n = none) ∧
    runApplied (sampleWorld false)
        (processAudioBackground noKeyEnv 7 "uploads/a.wav" (sampleWorld false)).2
      = runIssued (sampleWorld false)
        (processAudioBackground noKeyEnv 7 "uploads/a.wav" (sampleWorld false)).2 ∧
    (runIssued (sampleWorld false)
        (processAudioBackground noKeyEnv 7 "uploads/a.wav" (sampleWorld false)).2
        = [.str "transcribing", .str "completed"] ∨
      runIssued (sampleWorld false)
        (processAudioBackground noKeyEnv 7 "uploads/a.wav" (sampleWorld false)).2
        = [.str "transcribing", .str "failed"]) :=
  ⟨fun _ => rfl,
   (C5_status_sequence noKeyEnv 7 "uploads/a.wav" (sampleWorld false)).2.2 (fun _ => rfl)⟩

/-! ## Facts about stored documents and files -/

theorem find_fields_map_update (db : List Doc) (id : Nat)
    (g : List (String × JsVal) → List (String × JsVal)) :
    ((db.map (fun d => if d.id = id then { d with fields := g d.fields } else d)).find?
        (fun d => decide (d.id = id))).map (fun d => d.fields)
      = (db.find? (fun d => decide (d.id = id))).map (fun d => g d.fields) := by
  induction db with
  | nil => rfl
  | cons d rest ih =>
      rw [List.map_cons, List.find?_cons, List.find?_cons]
      by_cases h : d.id = id
      · simp only [h, if_true, decide_True]
        rfl
      · simp only [h, if_false, decide_False]
        exact ih

theorem docFields_findByIdAndUpdate_ok (env : Env) (id : Nat) (upd : List (String × JsVal))
    (w : World) (hs : env.storeFailure w.writes.length = none) :
    docFields id (findByIdAndUpdate env id upd w).2
      = (docFields id w).map (fun f => assignFields f (schemaCast upd)) := by
  rw [findByIdAndUpdate_ok env id upd w hs]
  unfold docFields
  dsimp only
  rw [find_fields_map_update w.db id (fun f => assignFields f (schemaCast upd)),
    Option.map_map]
  rfl

theorem docFields_findByIdAndUpdate_error (env : Env) (id : Nat) (upd : List (String × JsVal))
    (w : World) (msg : String) (hs : env.storeFailure w.writes.length = some msg) :
    docFields id (findByIdAndUpdate env id upd w).2 = docFields id w := by
  rw [findByIdAndUpdate_error env id upd w msg hs]
  rfl

theorem docFields_findByIdAndUpdate_some (env : Env) (id : Nat) (upd : List (String × JsVal))
    (w : World) (f : List (String × JsVal)) (h : docFields id w = some f) :
    ∃ f1, docFields id (findByIdAndUpdate env id upd w).2 = some f1 := by
  cases hs : env.storeFailure w.writes.length with
  | none =>
      rw [docFields_findByIdAndUpdate_ok env id upd w hs, h]
      exact ⟨_, rfl⟩
  | some msg =>
      rw [docFields_findByIdAndUpdate_error env id upd w msg hs, h]
      exact ⟨_, rfl⟩

theorem docFields_finallyBlock (id : Nat) (audioPath : String) (w : World) :
    docFields id (processAudioBackground.finallyBlock audioPath w) = docFields id w := by
  unfold docFields
  rw [finallyBlock_db]

theorem tryBlock_world (env : Env) (id : Nat) (audioPath : String) (w : World) :
    (processAudioBackground.tryBlock env id audioPath w).2
        = (findByIdAndUpdate env id (transcribingUpdate env) w).2 ∨
    ∃ t s2, (processAudioBackground.tryBlock env id audioPath w).2
        = (findByIdAndUpdate env id (completedUpdate env t s2)
            (findByIdAndUpdate env id (transcribingUpdate env) w).2).2 := by
  rw [tryBlock_eq]
  rcases findByIdAndUpdate env id (transcribingUpdate env) w with ⟨r, w1⟩
  cases r with
  | error e => exact Or.inl rfl
  | ok u =>
      dsimp only
      cases processAudioBackground.prepare env w1.files audioPath with
      | error e => exact Or.inl rfl
      | ok ts => exact Or.inr ⟨ts.1, ts.2, rfl⟩

theorem tryBlock_files (env : Env) (id : Nat) (audioPath : String) (w : World) :
    (processAudioBackground.tryBlock env id audioPath w).2.files = w.files := by
  rcases tryBlock_world env id audioPath w with h | ⟨t, s2, h⟩
  · rw [h, findByIdAndUpdate_files]
  · rw [h, findByIdAndUpdate_files, findByIdAndUpdate_files]

theorem tryBlock_docFields_some (env : Env) (id : Nat) (audioPath : String) (w : World)
    (f : List (String × JsVal)) (h : docFields id w = some f) :
    ∃ f1, docFields id (processAudioBackground.tryBlock env id audioPath w).2 = some f1 := by
  obtain ⟨f0, h0⟩ := docFields_findByIdAndUpdate_some env id (transcribingUpdate env) w f h
  rcases tryBlock_world env id audioPath w with hw | ⟨t, s2, hw⟩
  · rw [hw]
    exact ⟨f0, h0⟩
  · rw [hw]
    exact docFields_findByIdAndUpdate_some env id _ _ f0 h0

theorem tryCatch_files (env : Env) (id : Nat) (audioPath : String) (w : World) :
    (processAudioBackground.tryCatch env id audioPath w).2.files = w.files := by
  unfold processAudioBackground.tryCatch
  have hf := tryBlock_files env id audioPath w
  cases hT : processAudioBackground.tryBlock env id audioPath w with
  | mk r w1 =>
      rw [hT] at hf
      cases r with
      | ok u => exact hf
      | error e =>
          dsimp only
          unfold processAudioBackground.catchBlock
          rw [findByIdAndUpdate_files]
          exact hf

theorem assignFields_cons (f : List (String × JsVal)) (a : String × JsVal)
    (l : List (String × JsVal)) :
    assignFields f (a :: l) = assignFields (setField a.1 a.2 f) l := rfl

theorem lookupField_assignFields_not_mem (k : String) (l f : List (String × JsVal))
    (h : k ∉ l.map Prod.fst) : lookupField k (assignFields f l) = lookupField k f := by
  induction l generalizing f with
  | nil => rfl
  | cons a rest ih =>
      rw [List.map_cons, List.mem_cons, not_or] at h
      rw [assignFields_cons, ih _ h.2, lookupField_setField_ne k a.1 a.2 f h.1]

theorem lookupField_assignFields_of_mem (l : List (String × JsVal))
    (hnd : (l.map Prod.fst).Nodup) (f : List (String × JsVal)) (k : String) (v : JsVal)
    (hm : (k, v) ∈ l) : lookupField k (assignFields f l) = v := by
  induction l generalizing f with
  | nil => cases hm
  | cons a rest ih =>
      rw [List.map_cons, List.nodup_cons] at hnd
      rw [assignFields_cons]
      rcases List.mem_cons.mp hm with h | h
      · subst h
        rw [lookupField_assignFields_not_mem k rest _ hnd.1]
        exact lookupField_setField_same k v f
      · exact ih hnd.2 _ h

theorem castEntry_some (u : List (String × JsVal)) (p : String × SchemaType)
    (q : String × JsVal) (h : castEntry u p = some q) :
    q.1 = p.1 ∧ castValue p.2 (lookupField p.1 u) = some q.2 := by
  unfold castEntry at h
  cases hc : castValue p.2 (lookupField p.1 u) with
  | none => rw [hc] at h; cases h
  | some v =>
      rw [hc] at h
      cases h
      exact ⟨rfl, rfl⟩

theorem keys_filterMap_castEntry_sublist (u : List (String × JsVal))
    (ps : List (String × SchemaType)) :
    ((ps.filterMap (castEntry u)).map Prod.fst).Sublist (ps.map Prod.fst) := by
  induction ps with
  | nil => exact List.Sublist.slnil
  | cons a rest ih =>
      rw [List.filterMap_cons]
      cases hc : castEntry u a with
      | none => exact List.Sublist.cons _ ih
      | some q =>
          dsimp only
          rw [List.map_cons, List.map_cons, (castEntry_some u a q hc).1]
          exact List.Sublist.cons₂ _ ih

theorem consultationPaths_keys_nodup : (consultationPaths.map Prod.fst).Nodup := by
  decide

theorem schemaCast_keys_nodup (u : List (String × JsVal)) :
    ((schemaCast u).map Prod.fst).Nodup :=
  List.Nodup.sublist (keys_filterMap_castEntry_sublist u consultationPaths)
    consultationPaths_keys_nodup

theorem mem_schemaCast (u : List (String × JsVal)) (k : String) (ty : SchemaType) (v : JsVal)
    (hp : (k, ty) ∈ consultationPaths)
    (hc : castValue ty (lookupField k u) = some v) : (k, v) ∈ schemaCast u := by
  unfold schemaCast
  rw [List.mem_filterMap]
  refine ⟨(k, ty), hp, ?_⟩
  unfold castEntry
  dsimp only
  rw [hc]
  rfl

theorem stored_of_written (f u : List (String × JsVal)) (k : String) (ty : SchemaType)
    (v : JsVal) (hp : (k, ty) ∈ consultationPaths)
    (hc : castValue ty (lookupField k u) = some v) :
    lookupField k (assignFields f (schemaCast u)) = v :=
  lookupField_assignFields_of_mem _ (schemaCast_keys_nodup u) f k v
    (mem_schemaCast u k ty v hp hc)

theorem stored_of_undeclared (f u : List (String × JsVal)) (k : String)
    (h : k ∉ consultationPaths.map Prod.fst) :
    lookupField k (assignFields f (schemaCast u)) = lookupField k f :=
  lookupField_assignFields_not_mem k _ f
    (fun hm => h ((keys_filterMap_castEntry_sublist u consultationPaths).subset hm))

theorem lookupField_assign_failedUpdate (env : Env) (msg : String)
    (f : List (String × JsVal)) :
    lookupField "status" (assignFields f (schemaCast (failedUpdate env msg))) = .str "failed" ∧
    lookupField "error" (assignFields f (schemaCast (failedUpdate env msg)))
      = .str (jsTrim msg) ∧
    lookupField "processingFailedAt" (assignFields f (schemaCast (failedUpdate env msg)))
      = lookupField "processingFailedAt" f := by
  refine ⟨?_, ?_, ?_⟩
  · exact stored_of_written f _ "status" (.string false) _ (by decide) rfl
  · exact stored_of_written f _ "error" (.string true) _ (by decide) rfl
  · exact stored_of_undeclared f _ "processingFailedAt" (by decide)

theorem failure_recorded (env : Env) (id : Nat) (audioPath : String) (w w1 : World)
    (e : JsError) (htry : processAudioBackground.tryBlock env id audioPath w = (.error e, w1)) :
    newWrites w1 (processAudioBackground env id audioPath w).2
      = [WriteEvent.mk id (failedUpdate env e.message)
          (env.storeFailure w1.writes.length).isSome] ∧
    (env.storeFailure w1.writes.length = none →
      ∀ fields, docFields id w = some fields →
        ∃ f1, docFields id (processAudioBackground env id audioPath w).2 = some f1 ∧
          lookupField "status" f1 = .str "failed" ∧
          lookupField "error" f1 = .str (jsTrim e.message)) ∧
    (∀ msg, env.storeFailure w1.writes.length = some msg →
      (processAudioBackground env id audioPath w).1 = .error (mkError msg) ∧
      docFields id (processAudioBackground env id audioPath w).2 = docFields id w1) := by
  rw [run_of_try_error env id audioPath w w1 e htry]
  dsimp only
  refine ⟨?_, ?_, ?_⟩
  · unfold newWrites
    rw [finallyBlock_writes, findByIdAndUpdate_writes]
    simp
  · intro hs fields hf
    obtain ⟨f0, h0⟩ := tryBlock_docFields_some env id audioPath w fields hf
    rw [htry] at h0
    rw [docFields_finallyBlock, docFields_findByIdAndUpdate_ok env id _ w1 hs, h0]
    exact ⟨_, rfl, (lookupField_assign_failedUpdate env e.message f0).1,
      (lookupField_assign_failedUpdate env e.message f0).2.1⟩
  · intro msg hs
    rw [docFields_finallyBlock, docFields_findByIdAndUpdate_error env id _ w1 msg hs,
      findByIdAndUpdate_error env id _ w1 msg hs]
    exact ⟨rfl, rfl⟩

theorem existsSync_filter_ne (files : FileSystem) (audioPath : String) :
    existsSync (files.filter (fun f => decide (f.path ≠ audioPath))) audioPath = false := by
  unfold existsSync
  rw [Bool.eq_false_iff]
  intro h
  rw [List.any_eq_true] at h
  obtain ⟨x, hx, hp⟩ := h
  rw [List.mem_filter] at hx
  simp at hp hx
  exact hx.2 hp

theorem finallyBlock_files_of_unlink_ok (audioPath : String) (w : World)
    (h : ∀ e, unlinkSync w.files audioPath ≠ .error e) :
    existsSync (processAudioBackground.finallyBlock audioPath w).files audioPath = false := by
  unfold processAudioBackground.finallyBlock
  by_cases hex : existsSync w.files audioPath = true
  · rw [if_pos hex]
    cases hu : unlinkSync w.files audioPath with
    | error e => exact absurd hu (h e)
    | ok files =>
        dsimp only
        unfold unlinkSync at hu
        split at hu
        · cases hu
        · split at hu
          · cases hu
          · cases hu
            exact existsSync_filter_ne _ _
  · rw [if_neg hex]
    simpa using hex

theorem unlinkSync_ne_error_of_unlocked (files : FileSystem) (audioPath : String)
    (hex : existsSync files audioPath = true)
    (h : ∀ f ∈ files, f.path = audioPath → f.locked = false) (e : JsError) :
    unlinkSync files audioPath ≠ .error e := by
  unfold unlinkSync
  cases hfind : files.find? (fun f => decide (f.path = audioPath)) with
  | none =>
      exfalso
      unfold existsSync at hex
      rw [List.any_eq_true] at hex
      obtain ⟨x, hx, hp⟩ := hex
      have := List.find?_eq_none.mp hfind x hx
      exact this hp
  | some f =>
      have hmem : f ∈ files := List.mem_of_find?_eq_some hfind
      have hpath : f.path = audioPath := by
        have := List.find?_some hfind
        simpa using this
      dsimp only
      rw [h f hmem hpath]
      intro hcontra
      cases hcontra

/-! ## Claim C6: recording a failure -/

/-- Claim C6 fails on the code: the upload has vanished, the `try` block of
`processAudioBackground` raises `Audio file not found`, and the `catch` block issues the
failure update with `processingFailedAt`, which the store accepts. The schema declares
no path `processingFailedAt` (it declares `processedAt`), so the record ends with status
failed and the error message but without that stamp, as it is without
`processingStartedAt`. -/
theorem C6_failure_stamp_is_not_stored :
    newWrites (sampleWorld false) vanishedHealthyRun.2
      = [WriteEvent.mk 7 [("status", .str "transcribing"),
            ("processingStartedAt", .date nameOnlyEnv.now)] false,
         WriteEvent.mk 7 [("status", .str "failed"),
            ("error", .str "Audio file not found: uploads/missing.wav"),
            ("processingFailedAt", .date nameOnlyEnv.now)] false] ∧
    schemaCast [("status", .str "failed"),
        ("error", .str "Audio file not found: uploads/missing.wav"),
        ("processingFailedAt", .date nameOnlyEnv.now)]
      = [("status", .str "failed"),
         ("error", .str "Audio file not found: uploads/missing.wav")] ∧
    (docFields 7 vanishedHealthyRun.2).map
        (fun f => (lookupField "status" f, lookupField "error" f,
          lookupField "processingFailedAt" f, lookupField "processingStartedAt" f))
      = some (.str "failed", .str "Audio file not found: uploads/missing.wav",
          .undefined, .undefined) ∧
    consultationPaths.map Prod.fst
      = ["user", "patientName", "age", "gender", "symptoms", "history", "examination",
         "diagnosis", "prescription", "followUp", "audioFile", "originalName", "fileSize",
         "transcript", "driveLink", "fileId", "fileName", "status", "error", "processedAt",
         "createdAt", "updatedAt"] :=
  ⟨rfl, rfl, rfl, rfl⟩

/-! ## Claim C7: removal of the audio file -/

/-- Counterexample to C7: the system refuses to remove the uploaded file. The run
completes the record, `unlinkSync` throws inside the `finally` block, the error is
logged and swallowed, and the file still exists when the run exits. -/
theorem C7_counterexample :
    runApplied (sampleWorld true) lockedFileRun.2 = [.str "transcribing", .str "completed"] ∧
    (unlinkSync (sampleWorld true).files "uploads/a.wav").toOption = none ∧
    existsSync lockedFileRun.2.files "uploads/a.wav" = true :=
  ⟨rfl, rfl, rfl⟩

/-- Claim C7 as amended: for every run of `processAudioBackground`, whatever its
outcome (completed, handled failure, or an error raised while recording the
failure), the file at `audioPath` does not exist at exit provided its removal
is not refused by the system; when `unlinkSync` throws, the `finally` block
swallows the error and the files are left as they were. -/
theorem C7_audio_file_removed (env : Env) (id : Nat) (audioPath : String) (w : World) :
    ((∀ f ∈ w.files, f.path = audioPath → f.locked = false) →
      existsSync (processAudioBackground env id audioPath w).2.files audioPath = false) ∧
    (existsSync w.files audioPath = true →
      (∃ e, unlinkSync w.files audioPath = .error e) →
      (processAudioBackground env id audioPath w).2.files = w.files) := by
  have hfiles := tryCatch_files env id audioPath w
  unfold processAudioBackground
  dsimp only
  constructor
  · intro hunlocked
    by_cases hex : existsSync w.files audioPath = true
    · apply finallyBlock_files_of_unlink_ok
      rw [hfiles]
      exact unlinkSync_ne_error_of_unlocked w.files audioPath hex hunlocked
    · unfold processAudioBackground.finallyBlock
      rw [hfiles, if_neg hex, hfiles]
      simpa using hex
  · intro hex ⟨e, he⟩
    unfold processAudioBackground.finallyBlock
    rw [hfiles, if_pos hex, he]
    exact hfiles

/-- Witness of the amended C7: a removable file is gone after the run. -/
theorem C7_audio_file_removed_witness :
    (∀ f ∈ (sampleWorld false).files, f.path = "uploads/a.wav" → f.locked = false) ∧
    existsSync (processAudioBackground nameOnlyEnv 7 "uploads/a.wav"
      (sampleWorld false)).2.files "uploads/a.wav" = false :=
  ⟨by intro f hf _; simp [sampleWorld] at hf; rw [hf],
   (C7_audio_file_removed nameOnlyEnv 7 "uploads/a.wav" (sampleWorld false)).1
     (by intro f hf _; simp [sampleWorld] at hf; rw [hf])⟩

/-! ## Claim C8: validation of the summary -/

theorem prepare_of_result (env : Env) (files : FileSystem) (audioPath : String) (size : Nat)
    (r : ProcessingResult) (hex : existsSync files audioPath = true)
    (hsize : statSync files audioPath = .ok size) (hpos : size ≠ 0)
    (hproc : processMedicalAudio env files audioPath = .ok r) (hsucc : r.success = true) :
    processAudioBackground.prepare env files audioPath =
      if !truthy r.summary || decide (typeOf r.summary ≠ "object") then
        .error (mkError "Invalid summary data received from processing")
      else .ok (r.transcript, r.summary) := by
  unfold processAudioBackground.prepare
  simp only [hex, hsize, hpos, hproc, hsucc, Bool.not_true, Bool.false_eq_true, if_false]

/-- Counterexample to C8: the model answers with a JSON array. The summary is that
array, it passes the validation, and the record is completed (with every
required field backfilled), not failed. -/
theorem C8_counterexample :
    generateMedicalSummary arrayResponseEnv (.str "PATIENT: I have a fever.")
      = .ok (.arr [.str "Flu"]) ∧
    runApplied (sampleWorld false) arrayRun.2 = [.str "transcribing", .str "completed"] ∧
    (docFields 7 arrayRun.2).map
        (fun f => (lookupField "status" f, lookupField "error" f, lookupField "diagnosis" f))
      = some (.str "completed", .undefined, .str "Not specified") :=
  ⟨rfl, rfl, rfl⟩

/-- Claim C8 as amended: in `processAudioBackground`, for every processing result whose
summary is falsy or whose `typeof` is not `object` (null, undefined, a string, a
number, a boolean), the run issues the failure update with error
`Invalid summary data received from processing` right after the transcribing
update and never writes completed, and the record ends with status failed and
that error when the store accepts the update. An array is not rejected by
this check: for an array summary the completing update is written. -/
theorem C8_invalid_summary_fails (env : Env) (id : Nat) (audioPath : String) (w : World)
    (size : Nat) (r : ProcessingResult)
    (hstore : env.storeFailure w.writes.length = none)
    (hex : existsSync w.files audioPath = true)
    (hsize : statSync w.files audioPath = .ok size) (hpos : size ≠ 0)
    (hproc : processMedicalAudio env w.files audioPath = .ok r) (hsucc : r.success = true) :
    ((truthy r.summary = false ∨ typeOf r.summary ≠ "object") →
      newWrites w (processAudioBackground env id audioPath w).2
        = [WriteEvent.mk id (transcribingUpdate env) false,
           WriteEvent.mk id
             [("status", .str "failed"),
              ("error", .str "Invalid summary data received from processing"),
              ("processingFailedAt", .date env.now)]
             (env.storeFailure (w.writes.length + 1)).isSome] ∧
      (env.storeFailure (w.writes.length + 1) = none →
        ∀ fields, docFields id w = some fields →
          ∃ f1, docFields id (processAudioBackground env id audioPath w).2 = some f1 ∧
            lookupField "status" f1 = .str "failed" ∧
            lookupField "error" f1
              = .str "Invalid summary data received from processing")) ∧
    (∀ items, r.summary = .arr items → env.storeFailure (w.writes.length + 1) = none →
      newWrites w (processAudioBackground env id audioPath w).2
        = [WriteEvent.mk id (transcribingUpdate env) false,
           WriteEvent.mk id (completedUpdate env r.transcript (.arr items)) false]) := by
  have hprep := prepare_of_result env w.files audioPath size r hex hsize hpos hproc hsucc
  constructor
  · intro hbad
    have hcond : (!truthy r.summary || decide (typeOf r.summary ≠ "object")) = true := by
      rcases hbad with h | h
      · simp [h]
      · simp [h]
    rw [if_pos hcond] at hprep
    constructor
    · rw [newWrites_run]
      unfold runWrites
      rw [hstore]
      dsimp only
      rw [hprep]
      rfl
    · intro hs1 fields hf
      have htry : processAudioBackground.tryBlock env id audioPath w
          = (.error (mkError "Invalid summary data received from processing"),
              (findByIdAndUpdate env id (transcribingUpdate env) w).2) := by
        rw [tryBlock_eq, findByIdAndUpdate_ok env id _ w hstore]
        dsimp only
        rw [hprep]
      have hlen : (findByIdAndUpdate env id (transcribingUpdate env) w).2.writes.length
          = w.writes.length + 1 := by
        rw [findByIdAndUpdate_writes]
        simp
      obtain ⟨f1, h1, h2, h3⟩ :=
        (failure_recorded env id audioPath w _ _ htry).2.1 (by rw [hlen]; exact hs1) fields hf
      exact ⟨f1, h1, h2, h3⟩
  · intro items hitems hs1
    have hcond : ¬ ((!truthy r.summary || decide (typeOf r.summary ≠ "object")) = true) := by
      rw [hitems]
      simp [truthy, typeOf]
    rw [if_neg hcond] at hprep
    rw [newWrites_run]
    unfold runWrites
    rw [hstore]
    dsimp only
    rw [hprep]
    dsimp only
    rw [hs1, hitems]

/-- Witness of the amended C8: the model answers with the JSON number 42. -/
theorem C8_invalid_summary_fails_witness :
    processMedicalAudio numberResponseEnv (sampleWorld false).files "uploads/a.wav"
      = .ok (ProcessingResult.mk (.str "PATIENT: I have a fever.") (.num 42 0) true none) ∧
    typeOf (.num 42 0) ≠ "object" ∧
    newWrites (sampleWorld false)
        (processAudioBackground numberResponseEnv 7 "uploads/a.wav" (sampleWorld false)).2
      = [WriteEvent.mk 7 (transcribingUpdate numberResponseEnv) false,
         WriteEvent.mk 7
           [("status", .str "failed"),
            ("error", .str "Invalid summary data received from processing"),
            ("processingFailedAt", .date numberResponseEnv.now)] false] :=
  ⟨rfl, by decide,
   ((C8_invalid_summary_fails numberResponseEnv 7 "uploads/a.wav" (sampleWorld false) 2048
      (ProcessingResult.mk (.str "PATIENT: I have a fever.") (.num 42 0) true none)
      rfl rfl rfl (by decide) rfl rfl).1 (Or.inr (by decide))).1⟩

/-! ## Claim C4: content fields of a completed record -/

/-- Claim C4 fails on `processAudioStepByStep`: for a summary that carries the patient's
name only, its final update sets status completed and writes none of the
other eight content fields, so the completed record has no `symptoms`; the
final update of `processAudioBackground` on the same summary backfills them with
`Not specified`. -/
theorem C4_step_by_step_skips_backfill :
    generateMedicalSummary nameOnlyEnv (.str "PATIENT: I am Ann.")
      = .ok (.obj [("patientName", .str "Ann")]) ∧
    nameOnlyStepRun.1.status = 200 ∧
    appliedStatuses nameOnlyStepRun.2
      = [.str "transcribing", .str "summarizing", .str "completed"] ∧
    nameOnlyStepRun.2.writes.map
        (fun e => (statusOf e.update, lookupField "patientName" e.update,
          hasField "symptoms" e.update))
      = [(.str "transcribing", .undefined, false), (.str "summarizing", .undefined, false),
         (.str "completed", .str "Ann", false)] ∧
    (docFields 8 nameOnlyStepRun.2).map
        (fun f => (lookupField "status" f, lookupField "symptoms" f, lookupField "gender" f))
      = some (.str "completed", .undefined, .undefined) ∧
    (docFields 7 nameOnlyBackgroundRun.2).map
        (fun f => (lookupField "status" f, lookupField "symptoms" f, lookupField "gender" f))
      = some (.str "completed", .str "Not specified", .str "Not specified") :=
  ⟨rfl, rfl, rfl, rfl, rfl, rfl⟩

/-! ## Claim C11: the parse policy of the summarizer -/

theorem parseResponse_of_strict_ok (env : Env) (transcript : JsVal) (summaryText : String)
    (v : JsVal) (h : env.jsonParse summaryText = .ok v) :
    generateMedicalSummary.parseResponse env transcript summaryText = .ok v := by
  unfold generateMedicalSummary.parseResponse
  rw [h]

theorem parseResponse_of_no_span (env : Env) (transcript : JsVal) (summaryText : String)
    (hstrict : ∀ v, env.jsonParse summaryText ≠ .ok v)
    (hspan : matchBraceSpan summaryText = none) :
    generateMedicalSummary.parseResponse env transcript summaryText = .ok MOCK_SUMMARY := by
  unfold generateMedicalSummary.parseResponse
  cases hp : env.jsonParse summaryText with
  | ok v => exact absurd hp (hstrict v)
  | error e =>
      simp only [hspan]
      rfl

theorem generateMedicalSummary_of_response (env : Env) (text : String) (completion : JsVal)
    (summaryText : String) (hkey : hasValidApiKey env = true)
    (hne : (jsTrim text).length ≠ 0)
    (hcall : env.completionsCreate (jsReplace MEDICAL_SUMMARY_PROMPT "\x7btranscript\x7d" text)
      = .ok completion)
    (htext : completionText completion = .ok summaryText) :
    generateMedicalSummary env (.str text)
      = match generateMedicalSummary.parseResponse env (.str text) summaryText with
        | .ok summary => .ok summary
        | .error _ => .ok MOCK_SUMMARY := by
  unfold generateMedicalSummary
  rw [generateMedicalSummary_tryBlock_str env text hkey hne, hcall]
  simp only [htext]
  rfl

/-- Claim C11: for every model response text, `generateMedicalSummary` returns the value
of the strict `JSON.parse` when it succeeds; otherwise the value parsed from the
brace-delimited span when that parses; otherwise (no brace span, or a span that
does not parse) the mock summary; and in every case it returns instead of
raising. -/
theorem C11_parse_policy (env : Env) (text : String) (completion : JsVal)
    (summaryText : String) (hkey : hasValidApiKey env = true)
    (hne : (jsTrim text).length ≠ 0)
    (hcall : env.completionsCreate (jsReplace MEDICAL_SUMMARY_PROMPT "\x7btranscript\x7d" text)
      = .ok completion)
    (htext : completionText completion = .ok summaryText) :
    (∀ v, env.jsonParse summaryText = .ok v →
      generateMedicalSummary env (.str text) = .ok v) ∧
    ((∀ v, env.jsonParse summaryText ≠ .ok v) →
      ∀ span, matchBraceSpan summaryText = some span →
        ∀ v, env.jsonParse span = .ok v →
          generateMedicalSummary env (.str text) = .ok v) ∧
    ((∀ v, env.jsonParse summaryText ≠ .ok v) →
      (matchBraceSpan summaryText = none ∨
        ∃ span, matchBraceSpan summaryText = some span ∧ ∀ v, env.jsonParse span ≠ .ok v) →
      generateMedicalSummary env (.str text) = .ok MOCK_SUMMARY) ∧
    (∃ v, generateMedicalSummary env (.str text) = .ok v) := by
  have hres := generateMedicalSummary_of_response env text completion summaryText hkey hne
    hcall htext
  refine ⟨?_, ?_, ?_, generateMedicalSummary_ok env _⟩
  · intro v hv
    rw [hres, parseResponse_of_strict_ok env _ summaryText v hv]
  · intro hstrict span hspan v hv
    rw [hres, parseResponse_of_strict_error env _ summaryText span hstrict hspan, hv]
  · intro hstrict hno
    rcases hno with hnone | ⟨span, hspan, hbad⟩
    · rw [hres, parseResponse_of_no_span env _ summaryText hstrict hnone]
    · rw [hres, parseResponse_of_strict_error env _ summaryText span hstrict hspan]
      cases hp : env.jsonParse span with
      | ok v => exact absurd hp (hbad v)
      | error e => rfl

/-- Witness of C11: a response that is strict JSON. -/
theorem C11_parse_policy_witness :
    hasValidApiKey ageZeroEnv = true ∧
    generateMedicalSummary ageZeroEnv (.str "PATIENT: My baby has a fever.")
      = .ok (.obj [("patientName", .str "Baby Doe"), ("age", .num 0 0)]) :=
  ⟨rfl,
   (C11_parse_policy ageZeroEnv "PATIENT: My baby has a fever."
      (chatResponse "\x7b\"patientName\":\"Baby Doe\",\"age\":0\x7d")
      "\x7b\"patientName\":\"Baby Doe\",\"age\":0\x7d" rfl (by decide) rfl rfl).1
      (.obj [("patientName", .str "Baby Doe"), ("age", .num 0 0)]) rfl⟩

/-! ## Claim C18: the combined service call -/

theorem processMedicalAudio_eq_steps (env : Env) (files : FileSystem) (audioPath : String) :
    processMedicalAudio env files audioPath
      = processMedicalAudio.steps (transcribeAudio env files) (generateMedicalSummary env)
          audioPath := rfl

theorem processMedicalAudio_success (env : Env) (files : FileSystem) (audioPath : String) :
    ∃ t s2, transcribeAudio env files audioPath = .ok t ∧
      generateMedicalSummary env t = .ok s2 ∧
      processMedicalAudio env files audioPath = .ok (ProcessingResult.mk t s2 true none) := by
  obtain ⟨t, ht⟩ := transcribeAudio_ok env files audioPath
  obtain ⟨s2, hs⟩ := generateMedicalSummary_ok env t
  refine ⟨t, s2, ht, hs, ?_⟩
  unfold processMedicalAudio
  rw [ht]
  dsimp only
  rw [hs]

/-- Claim C18: `processMedicalAudio` never raises. It returns
`{transcript, summary, success: true}` where `transcript` is the result of
`transcribeAudio` on the path and `summary` the result of `generateMedicalSummary`
on that transcript; and its control flow answers an error of either step with
`{success: false, error: message, transcript: null, summary: null}`. -/
theorem C18_processMedicalAudio_total (env : Env) (files : FileSystem) (audioPath : String) :
    (∃ t s2, transcribeAudio env files audioPath = .ok t ∧
      generateMedicalSummary env t = .ok s2 ∧
      processMedicalAudio env files audioPath = .ok (ProcessingResult.mk t s2 true none)) ∧
    processMedicalAudio env files audioPath
      = processMedicalAudio.steps (transcribeAudio env files) (generateMedicalSummary env)
          audioPath ∧
    (∀ (transcribe : String → Except JsError JsVal) (summarize : JsVal → Except JsError JsVal),
      (∀ e, transcribe audioPath = .error e →
        processMedicalAudio.steps transcribe summarize audioPath
          = .ok (ProcessingResult.mk .null .null false (some e.message))) ∧
      (∀ t e, transcribe audioPath = .ok t → summarize t = .error e →
        processMedicalAudio.steps transcribe summarize audioPath
          = .ok (ProcessingResult.mk .null .null false (some e.message))) ∧
      (∀ t s2, transcribe audioPath = .ok t → summarize t = .ok s2 →
        processMedicalAudio.steps transcribe summarize audioPath
          = .ok (ProcessingResult.mk t s2 true none)) ∧
      (∃ r, processMedicalAudio.steps transcribe summarize audioPath = .ok r)) := by
  refine ⟨processMedicalAudio_success env files audioPath, rfl, ?_⟩
  intro transcribe summarize
  refine ⟨?_, ?_, ?_, ?_⟩
  · intro e he
    unfold processMedicalAudio.steps
    rw [he]
  · intro t e ht he
    unfold processMedicalAudio.steps
    rw [ht]
    dsimp only
    rw [he]
  · intro t s2 ht hs
    unfold processMedicalAudio.steps
    rw [ht]
    dsimp only
    rw [hs]
  · unfold processMedicalAudio.steps
    cases transcribe audioPath with
    | error e => exact ⟨_, rfl⟩
    | ok t =>
        dsimp only
        cases summarize t with
        | error e => exact ⟨_, rfl⟩
        | ok s2 => exact ⟨_, rfl⟩

/-- Witness of C18: a summarizing step that raises is answered with the failure
object. -/
theorem C18_processMedicalAudio_total_witness :
    processMedicalAudio.steps (fun _ => .ok (.str "PATIENT: I have a fever."))
        (fun _ => .error (mkError "model unavailable")) "uploads/a.wav"
      = .ok (ProcessingResult.mk .null .null false (some "model unavailable")) :=
  ((C18_processMedicalAudio_total noKeyEnv [] "uploads/a.wav").2.2
      (fun _ => .ok (.str "PATIENT: I have a fever."))
      (fun _ => .error (mkError "model unavailable"))).2.1
    (.str "PATIENT: I have a fever.") (mkError "model unavailable") rfl rfl

/-! ## Claim C12: partial data on failure -/

/-- Claim C12 fails on `processAudioBackground`: the model answers with the number 42, so
the transcript has been obtained and the summary then fails validation; the
failure update carries status, error and `processingFailedAt` only, and the
record ends failed without any transcript. No error raised in the `try` block
has a `partialData` property, so `Object.assign(errorUpdate, error.partialData)` never
runs. -/
theorem C12_failure_update_lacks_transcript :
    processMedicalAudio numberResponseEnv (sampleWorld false).files "uploads/a.wav"
      = .ok (ProcessingResult.mk (.str "PATIENT: I have a fever.") (.num 42 0) true none) ∧
    (processAudioBackground.tryBlock numberResponseEnv 7 "uploads/a.wav"
        (sampleWorld false)).1
      = .error (mkError "Invalid summary data received from processing") ∧
    truthy (mkError "Invalid summary data received from processing").partialData = false ∧
    (newWrites (sampleWorld false) numberRun.2).map
        (fun e => (statusOf e.update, hasField "transcript" e.update, e.threw))
      = [(.str "transcribing", false, false), (.str "failed", false, false)] ∧
    (docFields 7 numberRun.2).map
        (fun f => (lookupField "status" f, lookupField "error" f, lookupField "transcript" f))
      = some (.str "failed", .str "Invalid summary data received from processing",
          .undefined) :=
  ⟨rfl, rfl, rfl, rfl, rfl⟩

/-! ## Claim C19: the transcript of a completed record -/

theorem lookupField_transcript_completedUpdate (env : Env) (transcript summary : JsVal) :
    lookupField "transcript" (completedUpdate env transcript summary) = transcript := by
  unfold completedUpdate
  rw [lookupField_backfill]
  have hnot : ¬ ("transcript" ∈ requiredFields) := by decide
  rw [if_neg hnot]
  simp only [assignFields, List.foldl]
  rw [lookupField_setField_ne _ _ _ _ (by decide), lookupField_setField_ne _ _ _ _ (by decide),
    lookupField_setField_ne _ _ _ _ (by decide), lookupField_setField_same]

theorem prepare_ok_transcript (env : Env) (files : FileSystem) (audioPath : String)
    (transcript summary : JsVal)
    (h : processAudioBackground.prepare env files audioPath = .ok (transcript, summary)) :
    existsSync files audioPath = true ∧ transcribeAudio env files audioPath = .ok transcript := by
  obtain ⟨r, hr, -, ht, -, -, -⟩ := prepare_ok env files audioPath transcript summary h
  constructor
  · unfold processAudioBackground.prepare at h
    by_cases hex : existsSync files audioPath = true
    · exact hex
    · simp [hex] at h
  · obtain ⟨t, s2, htr, -, hp⟩ := processMedicalAudio_success env files audioPath
    rw [hp] at hr
    cases hr
    rw [htr]
    exact congrArg Except.ok ht

theorem transcribeAudio_of_text (env : Env) (files : FileSystem) (audioPath : String)
    (resp v : JsVal) (hkey : hasValidApiKey env = true)
    (hex : existsSync files audioPath = true)
    (hcall : env.transcriptionsCreate audioPath = .ok resp)
    (htext : getProp resp "text" = .ok v) :
    transcribeAudio env files audioPath = .ok v := by
  unfold transcribeAudio transcribeAudio.tryBlock
  simp [hkey, hex, hcall, htext, openai_transcriptionsCreate_of_key env hkey]

/-- Counterexample to C19: with a valid key the provider transcribes the recording
to the empty string. `transcribeAudio` returns it as it is, the summarizer falls
back to the mock summary, and the record is completed with the transcript
`""`. -/
theorem C19_counterexample :
    transcribeAudio emptyTextEnv (sampleWorld false).files "uploads/a.wav" = .ok (.str "") ∧
    runApplied (sampleWorld false) emptyTextRun.2 = [.str "transcribing", .str "completed"] ∧
    (docFields 7 emptyTextRun.2).map
        (fun f => (lookupField "status" f, lookupField "transcript" f,
          lookupField "diagnosis" f))
      = some (.str "completed", .str "", .str "Tension headaches") :=
  ⟨rfl, rfl, rfl⟩

theorem accepted_completing_write_of_run (env : Env) (id : Nat) (audioPath : String)
    (w : World) (e : WriteEvent)
    (he : e ∈ newWrites w (processAudioBackground env id audioPath w).2)
    (hc : statusOf e.update = .str "completed") (hacc : e.threw = false) :
    ∃ transcript summary,
      env.storeFailure w.writes.length = none ∧
      processAudioBackground.prepare env w.files audioPath = .ok (transcript, summary) ∧
      env.storeFailure (w.writes.length + 1) = none ∧
      e.update = completedUpdate env transcript summary := by
  obtain ⟨t, s2, hp, hu⟩ := completing_write_of_run env id audioPath w e he hc
  rw [newWrites_run] at he
  unfold runWrites at he
  cases hs : env.storeFailure w.writes.length with
  | some msg =>
      rw [hs] at he
      simp only [List.mem_cons, List.mem_singleton, List.not_mem_nil, or_false] at he
      rcases he with h | h
      · rw [h] at hacc
        cases hacc
      · rw [h] at hc
        simp [statusOf_failedUpdate] at hc
  | none =>
      rw [hs, hp] at he
      dsimp only at he
      cases hs1 : env.storeFailure (w.writes.length + 1) with
      | none => exact ⟨t, s2, rfl, hp, rfl, hu⟩
      | some msg =>
          rw [hs1] at he
          simp only [List.mem_cons, List.mem_singleton, List.not_mem_nil, or_false] at he
          rcases he with h | h | h
          · rw [h] at hc
            simp [statusOf_transcribingUpdate] at hc
          · rw [h] at hacc
            cases hacc
          · rw [h] at hc
            simp [statusOf_failedUpdate] at hc

theorem completed_run_docFields (env : Env) (id : Nat) (audioPath : String) (w : World)
    (t s2 : JsVal) (fields : List (String × JsVal))
    (hs0 : env.storeFailure w.writes.length = none)
    (hp : processAudioBackground.prepare env w.files audioPath = .ok (t, s2))
    (hs1 : env.storeFailure (w.writes.length + 1) = none)
    (hdoc : docFields id w = some fields) :
    docFields id (processAudioBackground env id audioPath w).2
      = some (assignFields (assignFields fields (schemaCast (transcribingUpdate env)))
          (schemaCast (completedUpdate env t s2))) := by
  have hlen : (findByIdAndUpdate env id (transcribingUpdate env) w).2.writes.length
      = w.writes.length + 1 := by
    rw [findByIdAndUpdate_writes]
    simp
  have hfiles : (findByIdAndUpdate env id (transcribingUpdate env) w).2.files = w.files :=
    findByIdAndUpdate_files env id _ w
  have hok1 : (findByIdAndUpdate env id (transcribingUpdate env) w).1 = .ok () := by
    rw [findByIdAndUpdate_ok env id _ w hs0]
  have hs1b : env.storeFailure
      (findByIdAndUpdate env id (transcribingUpdate env) w).2.writes.length = none := by
    rw [hlen]
    exact hs1
  have htry : processAudioBackground.tryBlock env id audioPath w
      = (.ok (), (findByIdAndUpdate env id (completedUpdate env t s2)
          (findByIdAndUpdate env id (transcribingUpdate env) w).2).2) := by
    rw [tryBlock_eq]
    cases hw : findByIdAndUpdate env id (transcribingUpdate env) w with
    | mk r w1 =>
        rw [hw] at hok1 hfiles hs1b
        dsimp only at hok1 hfiles hs1b
        subst hok1
        dsimp only
        rw [hfiles, hp]
        dsimp only
        rw [findByIdAndUpdate_ok env id _ w1 hs1b]
  rw [run_of_try_ok env id audioPath w _ htry, docFields_finallyBlock,
    docFields_findByIdAndUpdate_ok env id _ _ hs1b,
    docFields_findByIdAndUpdate_ok env id _ w hs0, hdoc]
  rfl

/-- Claim C19 as amended: whenever `processAudioBackground` writes the completing update,
the transcript of that update is the value `transcribeAudio` returned for the audio path:
the mock transcript (a non-empty string) when no valid key is configured or the provider
call fails, and otherwise the `text` property of the provider's response, whatever it is
(it may be empty, missing or not a string). When the store accepts the update and that
value is a string, the record ends completed and stores the string with surrounding white
space trimmed, as the schema declares for `transcript`. -/
theorem C19_completed_transcript (env : Env) (id : Nat) (audioPath : String) (w : World)
    (e : WriteEvent) (he : e ∈ newWrites w (processAudioBackground env id audioPath w).2)
    (hc : statusOf e.update = .str "completed") :
    transcribeAudio env w.files audioPath = .ok (lookupField "transcript" e.update) ∧
    (hasValidApiKey env = false →
      lookupField "transcript" e.update = .str MOCK_TRANSCRIPT) ∧
    (∀ msg, hasValidApiKey env = true → env.transcriptionsCreate audioPath = .error msg →
      lookupField "transcript" e.update = .str MOCK_TRANSCRIPT) ∧
    (∀ resp v, hasValidApiKey env = true → env.transcriptionsCreate audioPath = .ok resp →
      getProp resp "text" = .ok v → lookupField "transcript" e.update = v) ∧
    (e.threw = false → ∀ fields text, docFields id w = some fields →
      lookupField "transcript" e.update = .str text →
      ∃ f1, docFields id (processAudioBackground env id audioPath w).2 = some f1 ∧
        lookupField "status" f1 = .str "completed" ∧
        lookupField "transcript" f1 = .str (jsTrim text)) := by
  obtain ⟨t, s2, hp, hu⟩ := completing_write_of_run env id audioPath w e he hc
  obtain ⟨hex, ht⟩ := prepare_ok_transcript env w.files audioPath t s2 hp
  have htr : lookupField "transcript" e.update = t := by
    rw [hu, lookupField_transcript_completedUpdate]
  rw [htr]
  refine ⟨ht, ?_, ?_, ?_, ?_⟩
  · intro hkey
    have h1 : transcribeAudio env w.files audioPath = .ok (.str MOCK_TRANSCRIPT) := by
      simp [transcribeAudio, transcribeAudio.tryBlock, hkey, mockTranscribeAudio]
    rw [ht] at h1
    exact Except.ok.inj h1
  · intro msg hkey hcall
    have h1 := transcribeAudio_of_tryBlock_error env w.files audioPath (mkError msg)
      (by simp [transcribeAudio.tryBlock, hkey, hex, hcall,
          openai_transcriptionsCreate_of_key env hkey])
    rw [ht] at h1
    exact Except.ok.inj h1
  · intro resp v hkey hcall htext
    have h1 := transcribeAudio_of_text env w.files audioPath resp v hkey hex hcall htext
    rw [ht] at h1
    exact Except.ok.inj h1
  · intro hacc fields text hdoc htext
    obtain ⟨t2, s3, hs0, hp2, hs1, hu2⟩ :=
      accepted_completing_write_of_run env id audioPath w e he hc hacc
    rw [hp] at hp2
    cases hp2
    rw [completed_run_docFields env id audioPath w t s2 fields hs0 hp hs1 hdoc]
    refine ⟨_, rfl, ?_, ?_⟩
    · exact stored_of_written _ _ "status" (.string false) _ (by decide)
        (by rw [← statusOf, statusOf_completedUpdate]; rfl)
    · exact stored_of_written _ _ "transcript" (.string true) _ (by decide)
        (by rw [lookupField_transcript_completedUpdate, htext]; rfl)

/-- Witness of the amended C19: the completing write of the run on the `age: 0`
summary carries the provider's text, and the record stores it. -/
theorem C19_completed_transcript_witness :
    lookupField "transcript"
        (completedUpdate ageZeroEnv (.str "PATIENT: My baby has a fever.")
          (.obj [("patientName", .str "Baby Doe"), ("age", .num 0 0)]))
      = .str "PATIENT: My baby has a fever." ∧
    ∃ f1, docFields 7 ageZeroRun.2 = some f1 ∧
      lookupField "status" f1 = .str "completed" ∧
      lookupField "transcript" f1 = .str (jsTrim "PATIENT: My baby has a fever.") :=
  ⟨(C19_completed_transcript ageZeroEnv 7 "uploads/a.wav" (sampleWorld false)
      (WriteEvent.mk 7 (completedUpdate ageZeroEnv (.str "PATIENT: My baby has a fever.")
        (.obj [("patientName", .str "Baby Doe"), ("age", .num 0 0)])) false)
      (List.Mem.tail _ (List.Mem.head _)) rfl).2.2.2.1
      (.obj [("text", .str "PATIENT: My baby has a fever.")])
      (.str "PATIENT: My baby has a fever.") rfl rfl rfl,
    (C19_completed_transcript ageZeroEnv 7 "uploads/a.wav" (sampleWorld false)
      (WriteEvent.mk 7 (completedUpdate ageZeroEnv (.str "PATIENT: My baby has a fever.")
        (.obj [("patientName", .str "Baby Doe"), ("age", .num 0 0)])) false)
      (List.Mem.tail _ (List.Mem.head _)) rfl).2.2.2.2 rfl _
      "PATIENT: My baby has a fever." rfl rfl⟩

/-! ## Claims C16, C17: the status query and ownership -/

theorem jsEq_str_iff (v : JsVal) (s : String) : jsEq v (.str s) = true ↔ v = .str s := by
  cases v <;> simp [jsEq]

theorem hasField_setField (k k2 : String) (v : JsVal) (l : List (String × JsVal)) :
    hasField k (setField k2 v l) = (decide (k = k2) || hasField k l) := by
  induction l with
  | nil =>
      by_cases h : k2 = k
      · simp [setField, hasField, h]
      · have h2 : ¬ k = k2 := fun h3 => h h3.symm
        simp [setField, hasField, h, h2]
  | cons a rest ih =>
      obtain ⟨k3, w⟩ := a
      by_cases h3 : k3 = k2
      · subst h3
        by_cases h4 : k3 = k
        · simp [setField, hasField, h4]
        · have h5 : ¬ k = k3 := fun h6 => h4 h6.symm
          simp [setField, hasField, h4, h5]
      · by_cases h4 : k3 = k
        · subst h4
          simp [setField, hasField, h3]
        · simp [setField, hasField, h3, h4, ih]

theorem statusResponseBody_status (d : Doc) :
    lookupField "status" (statusResponseBody d) = lookupField "status" d.fields := by
  unfold statusResponseBody
  dsimp only
  split
  · rw [lookupField_setField_ne _ _ _ _ (by decide), lookupField_setField_ne _ _ _ _ (by decide)]
    rfl
  · split
    · split
      · rw [lookupField_setField_ne _ _ _ _ (by decide),
          lookupField_setField_ne _ _ _ _ (by decide),
          lookupField_setField_ne _ _ _ _ (by decide)]
        rfl
      · rw [lookupField_setField_ne _ _ _ _ (by decide),
          lookupField_setField_ne _ _ _ _ (by decide)]
        rfl
    · split
      · rw [lookupField_setField_ne _ _ _ _ (by decide),
          lookupField_setField_ne _ _ _ _ (by decide)]
        rfl
      · rw [lookupField_setField_ne _ _ _ _ (by decide)]
        rfl

theorem jsEq_str_false (v : JsVal) (s : String) (h : v ≠ .str s) :
    jsEq v (.str s) = false := by
  cases hj : jsEq v (.str s) with
  | false => rfl
  | true => exact absurd ((jsEq_str_iff v s).mp hj) h

theorem statusResponseBody_failed (d : Doc)
    (h : lookupField "status" d.fields = .str "failed") :
    lookupField "error" (statusResponseBody d) = lookupField "error" d.fields ∧
    hasField "partialData" (statusResponseBody d)
      = truthy (lookupField "transcript" d.fields) ∧
    (truthy (lookupField "transcript" d.fields) = true →
      lookupField "partialData" (statusResponseBody d)
        = .obj [("transcript", lookupField "transcript" d.fields)]) ∧
    hasField "consultation" (statusResponseBody d) = false := by
  unfold statusResponseBody
  dsimp only
  have h1 : jsEq (lookupField "status" d.fields) (.str "completed") = false := by
    rw [h]; rfl
  have h2 : jsEq (lookupField "status" d.fields) (.str "failed") = true := by
    rw [h]; rfl
  rw [h1, h2]
  simp only [Bool.false_eq_true, if_false, if_true]
  by_cases ht : truthy (lookupField "transcript" d.fields) = true
  · rw [if_pos ht]
    refine ⟨?_, ?_, ?_, ?_⟩
    · rw [lookupField_setField_ne _ _ _ _ (by decide), lookupField_setField_ne _ _ _ _ (by decide),
        lookupField_setField_same]
    · rw [hasField_setField, ht]
      rfl
    · intro _
      rw [lookupField_setField_same]
    · rw [hasField_setField, hasField_setField, hasField_setField]
      rfl
  · rw [if_neg ht]
    refine ⟨?_, ?_, ?_, ?_⟩
    · rw [lookupField_setField_ne _ _ _ _ (by decide), lookupField_setField_same]
    · rw [hasField_setField, hasField_setField]
      simp only [Bool.not_eq_true] at ht
      rw [ht]
      rfl
    · intro h3
      exact absurd h3 ht
    · rw [hasField_setField, hasField_setField]
      rfl

theorem statusResponseBody_completed (d : Doc)
    (h : lookupField "status" d.fields = .str "completed") :
    lookupField "consultation" (statusResponseBody d) = d.toJs ∧
    hasField "error" (statusResponseBody d) = false ∧
    hasField "partialData" (statusResponseBody d) = false := by
  unfold statusResponseBody
  dsimp only
  have h1 : jsEq (lookupField "status" d.fields) (.str "completed") = true := by
    rw [h]; rfl
  rw [h1]
  simp only [if_true]
  refine ⟨?_, ?_, ?_⟩
  · rw [lookupField_setField_ne _ _ _ _ (by decide), lookupField_setField_same]
  · rw [hasField_setField, hasField_setField]
    rfl
  · rw [hasField_setField, hasField_setField]
    rfl

theorem statusResponseBody_active (d : Doc)
    (hc : lookupField "status" d.fields ≠ .str "completed")
    (hf : lookupField "status" d.fields ≠ .str "failed") :
    hasField "consultation" (statusResponseBody d) = false ∧
    hasField "error" (statusResponseBody d) = false ∧
    hasField "partialData" (statusResponseBody d) = false := by
  unfold statusResponseBody
  dsimp only
  rw [jsEq_str_false _ _ hc, jsEq_str_false _ _ hf]
  simp only [Bool.false_eq_true, if_false]
  split
  · refine ⟨?_, ?_, ?_⟩ <;>
      · rw [hasField_setField, hasField_setField]
        rfl
  · refine ⟨?_, ?_, ?_⟩ <;>
      · rw [hasField_setField]
        rfl

/-- Counterexample to C16: a step-by-step run whose provider text is empty stores the
transcript `""` and, the removal of the file being refused, ends failed. The owner's
status query answers with the error but without `partialData`, although a transcript is
stored; and when the store rejects the query the answer is `500`, not the status. -/
theorem C16_counterexample :
    (docFields 8 emptyTextLockedStepRun.2).map
        (fun f => (lookupField "status" f, hasField "transcript" f,
          lookupField "transcript" f))
      = some (.str "failed", true, .str "") ∧
    (getProcessingStatus emptyTextEnv storedUserStatusRequest emptyTextLockedStepRun.2).1.status
      = 200 ∧
    lookupField "error" (ownEntries
        (getProcessingStatus emptyTextEnv storedUserStatusRequest
          emptyTextLockedStepRun.2).1.body)
      = .str "EPERM: operation not permitted, unlink uploads/a.wav" ∧
    hasField "partialData" (ownEntries
        (getProcessingStatus emptyTextEnv storedUserStatusRequest
          emptyTextLockedStepRun.2).1.body) = false ∧
    (getProcessingStatus queryDownEnv storedUserStatusRequest emptyTextLockedStepRun.2).1
      = serverErrorResponse "connection lost" :=
  ⟨rfl, rfl, rfl, rfl, rfl⟩

/-- Claim C16 as amended: for every Consultation the caller owns, `getProcessingStatus`
answers 200 with the record's status when the store answers the query, and `500` with the
store's message when it rejects it. The 200 response carries the stored error if and only
if the status is failed, `partialData.transcript` if and only if the status is failed and
the stored transcript is truthy (a non-empty string), and the consultation record, its
id and all its stored fields, if and only if the status is completed. -/
theorem C16_status_response (env : Env) (req : Request) (w : World) (userId : JsVal)
    (id : Nat) (d : Doc)
    (huser : getProp req.user "id" = .ok userId) (hid : req.paramId = some id)
    (hfind : w.db.find? (matchesOwner id userId) = some d) :
    (env.queryFailure = none →
      getProcessingStatus env req w = (Response.mk 200 (.obj (statusResponseBody d)), w)) ∧
    (∀ msg, env.queryFailure = some msg →
      getProcessingStatus env req w
        = (serverErrorResponse (messageOr (mkError msg) "Failed to get processing status"),
            w)) ∧
    lookupField "status" (statusResponseBody d) = lookupField "status" d.fields ∧
    (lookupField "status" d.fields = .str "failed" →
      lookupField "error" (statusResponseBody d) = lookupField "error" d.fields ∧
      hasField "partialData" (statusResponseBody d)
        = truthy (lookupField "transcript" d.fields) ∧
      (truthy (lookupField "transcript" d.fields) = true →
        lookupField "partialData" (statusResponseBody d)
          = .obj [("transcript", lookupField "transcript" d.fields)])) ∧
    (lookupField "status" d.fields ≠ .str "failed" →
      hasField "error" (statusResponseBody d) = false ∧
      hasField "partialData" (statusResponseBody d) = false) ∧
    (lookupField "status" d.fields = .str "completed" →
      lookupField "consultation" (statusResponseBody d)
        = .obj (("_id", .num d.id 0) :: d.fields)) ∧
    (lookupField "status" d.fields ≠ .str "completed" →
      hasField "consultation" (statusResponseBody d) = false) := by
  refine ⟨?_, ?_, statusResponseBody_status d, ?_, ?_, ?_, ?_⟩
  · intro hq
    unfold getProcessingStatus Consultation.findOne
    rw [huser, hid, hq]
    dsimp only
    rw [hfind]
  · intro msg hq
    unfold getProcessingStatus Consultation.findOne
    rw [huser, hid, hq]
  · intro h
    obtain ⟨h1, h2, h3, -⟩ := statusResponseBody_failed d h
    exact ⟨h1, h2, h3⟩
  · intro h
    by_cases hc : lookupField "status" d.fields = .str "completed"
    · exact (statusResponseBody_completed d hc).2
    · exact (statusResponseBody_active d hc h).2
  · intro h
    exact (statusResponseBody_completed d h).1
  · intro h
    by_cases hf : lookupField "status" d.fields = .str "failed"
    · exact (statusResponseBody_failed d hf).2.2.2
    · exact (statusResponseBody_active d h hf).1

/-- Witness of the amended C16: the owner's query for a failed record with a stored
transcript, and for a completed record. -/
theorem C16_status_response_witness :
    getProcessingStatus nameOnlyEnv clinicOwnerRequest clinicWorld
      = (Response.mk 200 (.obj [("success", .bool true), ("status", .str "failed"),
          ("consultationId", .num 7 0), ("createdAt", .date 1699990000),
          ("updatedAt", .date 1699990060),
          ("error", .str "Audio file is empty"), ("message", .str "Processing failed"),
          ("partialData", .obj [("transcript", .str "PATIENT: Hello.")])]), clinicWorld) ∧
    lookupField "consultation" (statusResponseBody (Doc.mk 9
        [("user", .str "65a1b2c3d4e5f6a7b8c9d0e2"), ("status", .str "completed"),
         ("patientName", .str "Ann"), ("diagnosis", .str "Flu"),
         ("createdAt", .date 1699990100), ("updatedAt", .date 1699990160)]))
      = .obj [("_id", .num 9 0), ("user", .str "65a1b2c3d4e5f6a7b8c9d0e2"),
          ("status", .str "completed"), ("patientName", .str "Ann"),
          ("diagnosis", .str "Flu"), ("createdAt", .date 1699990100),
          ("updatedAt", .date 1699990160)] :=
  ⟨((C16_status_response nameOnlyEnv clinicOwnerRequest clinicWorld
      (.str "65a1b2c3d4e5f6a7b8c9d0e2") 7
      (Doc.mk 7 [("user", .str "65a1b2c3d4e5f6a7b8c9d0e2"), ("status", .str "failed"),
        ("error", .str "Audio file is empty"), ("transcript", .str "PATIENT: Hello."),
        ("createdAt", .date 1699990000), ("updatedAt", .date 1699990060)])
      rfl rfl rfl).1 rfl).trans rfl,
   (C16_status_response nameOnlyEnv { clinicOwnerRequest with paramId := some 9 } clinicWorld
      (.str "65a1b2c3d4e5f6a7b8c9d0e2") 9
      (Doc.mk 9 [("user", .str "65a1b2c3d4e5f6a7b8c9d0e2"), ("status", .str "completed"),
        ("patientName", .str "Ann"), ("diagnosis", .str "Flu"),
        ("createdAt", .date 1699990100), ("updatedAt", .date 1699990160)])
      rfl rfl rfl).2.2.2.2.2.1 rfl⟩

theorem findOne_none_of_other (id : Nat) (key : JsVal) (w : World)
    (h : ∀ d ∈ w.db, d.id = id → jsEq (lookupField "user" d.fields) key = false) :
    w.db.find? (matchesOwner id key) = none := by
  apply List.find?_eq_none.mpr
  intro d hd
  unfold matchesOwner
  by_cases hid : d.id = id
  · simp [hid, h d hd hid]
  · simp [hid]

theorem findOne_none_of_missing (id : Nat) (key : JsVal) (w : World)
    (h : ∀ d ∈ w.db, d.id ≠ id) : w.db.find? (matchesOwner id key) = none :=
  findOne_none_of_other id key w (fun d hd hid => absurd hid (h d hd))

theorem audio_handlers_not_found (env : Env) (req : Request) (w : World) (userId : JsVal)
    (id : Nat) (huser : getProp req.user "id" = .ok userId) (hid : req.paramId = some id)
    (hnone : w.db.find? (matchesOwner id userId) = none) :
    getProcessingStatus env req w
      = (emptyLookupResponse env "Failed to get processing status", w) ∧
    getConsultationDetails env req w
      = (emptyLookupResponse env "Failed to get consultation details", w) ∧
    audioController.deleteConsultation env req w
      = (emptyLookupResponse env "Failed to delete consultation", w) := by
  refine ⟨?_, ?_, ?_⟩
  · unfold getProcessingStatus Consultation.findOne emptyLookupResponse
    rw [huser, hid]
    dsimp only
    cases env.queryFailure with
    | some msg => rfl
    | none =>
        dsimp only
        rw [hnone]
  · unfold getConsultationDetails Consultation.findOne emptyLookupResponse
    rw [huser, hid]
    dsimp only
    cases env.queryFailure with
    | some msg => rfl
    | none =>
        dsimp only
        rw [hnone]
  · unfold audioController.deleteConsultation Consultation.findOneAndDelete
      emptyLookupResponse
    rw [huser, hid]
    dsimp only
    cases env.queryFailure with
    | some msg => rfl
    | none =>
        dsimp only
        rw [hnone]

theorem consultation_handlers_not_found (env : Env) (req : Request) (w : World)
    (userKey : JsVal) (id : Nat) (hkey : normalizeUserId req.user = .ok userKey)
    (hid : req.paramId = some id)
    (hnone : w.db.find? (matchesOwner id userKey) = none) :
    getConsultation env req w
      = (emptyLookupFixedResponse env "Server error fetching consultation", w) ∧
    updateConsultation env req w
      = (emptyLookupFixedResponse env "Server error updating consultation", w) ∧
    consultationController.deleteConsultation env req w
      = (emptyLookupFixedResponse env "Server error deleting consultation", w) := by
  refine ⟨?_, ?_, ?_⟩
  · unfold getConsultation Consultation.findOne emptyLookupFixedResponse
    rw [hkey, hid]
    dsimp only
    cases env.queryFailure with
    | some msg => rfl
    | none =>
        dsimp only
        rw [hnone]
  · unfold updateConsultation Consultation.findOne emptyLookupFixedResponse
    rw [hkey, hid]
    dsimp only
    cases env.queryFailure with
    | some msg => rfl
    | none =>
        dsimp only
        rw [hnone]
  · unfold consultationController.deleteConsultation Consultation.findOne
      emptyLookupFixedResponse
    rw [hkey, hid]
    dsimp only
    cases env.queryFailure with
    | some msg => rfl
    | none =>
        dsimp only
        rw [hnone]

theorem handlers_of_malformed_id (env : Env) (req : Request) (w : World)
    (userId userKey : JsVal) (huser : getProp req.user "id" = .ok userId)
    (hkey : normalizeUserId req.user = .ok userKey) :
    (getProcessingStatus env { req with paramId := none } w).1.status = 500 ∧
    (getConsultationDetails env { req with paramId := none } w).1.status = 500 ∧
    (audioController.deleteConsultation env { req with paramId := none } w).1.status = 500 ∧
    getConsultation env { req with paramId := none } w
      = (serverErrorResponse "Server error fetching consultation", w) ∧
    updateConsultation env { req with paramId := none } w
      = (serverErrorResponse "Server error updating consultation", w) ∧
    consultationController.deleteConsultation env { req with paramId := none } w
      = (serverErrorResponse "Server error deleting consultation", w) := by
  refine ⟨?_, ?_, ?_, ?_, ?_, ?_⟩
  · unfold getProcessingStatus Consultation.findOne
    dsimp only
    rw [huser]
    rfl
  · unfold getConsultationDetails Consultation.findOne
    dsimp only
    rw [huser]
    rfl
  · unfold audioController.deleteConsultation Consultation.findOneAndDelete
    dsimp only
    rw [huser]
    rfl
  · unfold getConsultation Consultation.findOne
    dsimp only
    rw [hkey]
  · unfold updateConsultation Consultation.findOne
    dsimp only
    rw [hkey]
  · unfold consultationController.deleteConsultation Consultation.findOne
    dsimp only
    rw [hkey]

/-- Counterexample to C17: `otherUser` asks for Consultation 7 of `storedUser` while the
store rejects queries, and is answered with `500`, not with the 404; so is a request
whose id parameter is no object id, on a store that answers. -/
theorem C17_counterexample :
    (docFields 7 clinicWorld).map (lookupField "user")
      = some (.str "65a1b2c3d4e5f6a7b8c9d0e2") ∧
    getProp clinicStrangerRequest.user "id" = .ok (.str "65a1b2c3d4e5f6a7b8c9d0e3") ∧
    getProcessingStatus queryDownEnv clinicStrangerRequest clinicWorld
      = (serverErrorResponse "connection lost", clinicWorld) ∧
    getConsultation queryDownEnv clinicStrangerRequest clinicWorld
      = (serverErrorResponse "Server error fetching consultation", clinicWorld) ∧
    (getProcessingStatus nameOnlyEnv { clinicStrangerRequest with paramId := none }
      clinicWorld).1.status = 500 ∧
    getConsultation nameOnlyEnv { clinicStrangerRequest with paramId := none } clinicWorld
      = (serverErrorResponse "Server error fetching consultation", clinicWorld) ∧
    getProcessingStatus nameOnlyEnv clinicStrangerRequest clinicWorld
      = (notFoundResponse, clinicWorld) :=
  ⟨rfl, rfl, rfl, rfl, rfl, rfl, rfl⟩

/-- Claim C17 as amended: let A be a caller whose owner keys (`req.user.id` on the audio
routes, `normalizeUserId(req.user)` on the consultation routes) both differ from the owner
of every stored consultation with the requested id, as for a consultation of another
user B. Then each of getProcessingStatus, getConsultationDetails, the audio
deleteConsultation, getConsultation, updateConsultation and the consultations
deleteConsultation gives exactly the response it gives for a well-formed id that no
consultation has, and leaves the state unchanged: that response is the 404
`Consultation not found` when the store answers the query, and the `500` of the
handler when the store rejects it. A request whose id parameter is no object id is
answered with `500` by all six. -/
theorem C17_ownership_isolation (env : Env) (req : Request) (w : World)
    (userId userKey : JsVal) (id missing : Nat)
    (huser : getProp req.user "id" = .ok userId)
    (hkey : normalizeUserId req.user = .ok userKey)
    (hid : req.paramId = some id)
    (hother : ∀ d ∈ w.db, d.id = id →
      jsEq (lookupField "user" d.fields) userId = false ∧
      jsEq (lookupField "user" d.fields) userKey = false)
    (hmissing : ∀ d ∈ w.db, d.id ≠ missing) :
    (getProcessingStatus env req w
        = getProcessingStatus env { req with paramId := some missing } w ∧
      (getProcessingStatus env req w).2 = w ∧
      (env.queryFailure = none → getProcessingStatus env req w = (notFoundResponse, w))) ∧
    (getConsultationDetails env req w
        = getConsultationDetails env { req with paramId := some missing } w ∧
      (getConsultationDetails env req w).2 = w ∧
      (env.queryFailure = none →
        getConsultationDetails env req w = (notFoundResponse, w))) ∧
    (audioController.deleteConsultation env req w
        = audioController.deleteConsultation env { req with paramId := some missing } w ∧
      (audioController.deleteConsultation env req w).2 = w ∧
      (env.queryFailure = none →
        audioController.deleteConsultation env req w = (notFoundResponse, w))) ∧
    (getConsultation env req w
        = getConsultation env { req with paramId := some missing } w ∧
      (getConsultation env req w).2 = w ∧
      (env.queryFailure = none → getConsultation env req w = (notFoundResponse, w))) ∧
    (updateConsultation env req w
        = updateConsultation env { req with paramId := some missing } w ∧
      (updateConsultation env req w).2 = w ∧
      (env.queryFailure = none → updateConsultation env req w = (notFoundResponse, w))) ∧
    (consultationController.deleteConsultation env req w
        = consultationController.deleteConsultation env
            { req with paramId := some missing } w ∧
      (consultationController.deleteConsultation env req w).2 = w ∧
      (env.queryFailure = none →
        consultationController.deleteConsultation env req w = (notFoundResponse, w))) ∧
    ((getProcessingStatus env { req with paramId := none } w).1.status = 500 ∧
      (getConsultationDetails env { req with paramId := none } w).1.status = 500 ∧
      (audioController.deleteConsultation env { req with paramId := none } w).1.status
        = 500 ∧
      getConsultation env { req with paramId := none } w
        = (serverErrorResponse "Server error fetching consultation", w) ∧
      updateConsultation env { req with paramId := none } w
        = (serverErrorResponse "Server error updating consultation", w) ∧
      consultationController.deleteConsultation env { req with paramId := none } w
        = (serverErrorResponse "Server error deleting consultation", w)) := by
  have ha := audio_handlers_not_found env req w userId id huser hid
    (findOne_none_of_other _ _ w (fun d hd hd2 => (hother d hd hd2).1))
  have hc := consultation_handlers_not_found env req w userKey id hkey hid
    (findOne_none_of_other _ _ w (fun d hd hd2 => (hother d hd hd2).2))
  have ham := audio_handlers_not_found env { req with paramId := some missing } w userId
    missing huser rfl (findOne_none_of_missing _ _ w hmissing)
  have hcm := consultation_handlers_not_found env { req with paramId := some missing } w
    userKey missing hkey rfl (findOne_none_of_missing _ _ w hmissing)
  have hr : ∀ fallback, env.queryFailure = none →
      emptyLookupResponse env fallback = notFoundResponse := by
    intro fallback hq
    unfold emptyLookupResponse
    rw [hq]
  have hf : ∀ message, env.queryFailure = none →
      emptyLookupFixedResponse env message = notFoundResponse := by
    intro message hq
    unfold emptyLookupFixedResponse
    rw [hq]
  refine ⟨⟨?_, ?_, ?_⟩, ⟨?_, ?_, ?_⟩, ⟨?_, ?_, ?_⟩, ⟨?_, ?_, ?_⟩, ⟨?_, ?_, ?_⟩,
    ⟨?_, ?_, ?_⟩, handlers_of_malformed_id env req w userId userKey huser hkey⟩
  · rw [ha.1, ham.1]
  · rw [ha.1]
  · intro hq
    rw [ha.1, hr _ hq]
  · rw [ha.2.1, ham.2.1]
  · rw [ha.2.1]
  · intro hq
    rw [ha.2.1, hr _ hq]
  · rw [ha.2.2, ham.2.2]
  · rw [ha.2.2]
  · intro hq
    rw [ha.2.2, hr _ hq]
  · rw [hc.1, hcm.1]
  · rw [hc.1]
  · intro hq
    rw [hc.1, hf _ hq]
  · rw [hc.2.1, hcm.2.1]
  · rw [hc.2.1]
  · intro hq
    rw [hc.2.1, hf _ hq]
  · rw [hc.2.2, hcm.2.2]
  · rw [hc.2.2]
  · intro hq
    rw [hc.2.2, hf _ hq]

theorem clinicWorld_not_owned_by_other :
    ∀ d ∈ clinicWorld.db, d.id = 7 →
      jsEq (lookupField "user" d.fields) (.str "65a1b2c3d4e5f6a7b8c9d0e3") = false ∧
      jsEq (lookupField "user" d.fields)
        (.obj [("$oid", .str "65a1b2c3d4e5f6a7b8c9d0e3")]) = false := by
  intro d hd _
  simp only [clinicWorld, List.mem_cons, List.mem_singleton, List.not_mem_nil, or_false] at hd
  rcases hd with rfl | rfl
  · exact ⟨rfl, rfl⟩
  · exact ⟨rfl, rfl⟩

theorem clinicWorld_has_no_doc_42 : ∀ d ∈ clinicWorld.db, d.id ≠ 42 := by
  intro d hd
  simp only [clinicWorld, List.mem_cons, List.mem_singleton, List.not_mem_nil, or_false] at hd
  rcases hd with rfl | rfl
  · decide
  · decide

/-- Witness of the amended C17: `otherUser` asks for, updates and deletes Consultation 7 of
`storedUser` on a store that answers. -/
theorem C17_ownership_isolation_witness :
    (docFields 7 clinicWorld).map (lookupField "user")
      = some (.str "65a1b2c3d4e5f6a7b8c9d0e2") ∧
    getProp clinicStrangerRequest.user "id" = .ok (.str "65a1b2c3d4e5f6a7b8c9d0e3") ∧
    normalizeUserId clinicStrangerRequest.user
      = .ok (.obj [("$oid", .str "65a1b2c3d4e5f6a7b8c9d0e3")]) ∧
    getProcessingStatus nameOnlyEnv clinicStrangerRequest clinicWorld
      = (notFoundResponse, clinicWorld) ∧
    updateConsultation nameOnlyEnv clinicStrangerRequest clinicWorld
      = (notFoundResponse, clinicWorld) ∧
    consultationController.deleteConsultation nameOnlyEnv clinicStrangerRequest clinicWorld
      = consultationController.deleteConsultation nameOnlyEnv
          { clinicStrangerRequest with paramId := some 42 } clinicWorld :=
  ⟨rfl, rfl, rfl,
   (C17_ownership_isolation nameOnlyEnv clinicStrangerRequest clinicWorld
      (.str "65a1b2c3d4e5f6a7b8c9d0e3") (.obj [("$oid", .str "65a1b2c3d4e5f6a7b8c9d0e3")])
      7 42 rfl rfl rfl clinicWorld_not_owned_by_other clinicWorld_has_no_doc_42).1.2.2 rfl,
   (C17_ownership_isolation nameOnlyEnv clinicStrangerRequest clinicWorld
      (.str "65a1b2c3d4e5f6a7b8c9d0e3") (.obj [("$oid", .str "65a1b2c3d4e5f6a7b8c9d0e3")])
      7 42 rfl rfl rfl clinicWorld_not_owned_by_other
      clinicWorld_has_no_doc_42).2.2.2.2.1.2.2 rfl,
   (C17_ownership_isolation nameOnlyEnv clinicStrangerRequest clinicWorld
      (.str "65a1b2c3d4e5f6a7b8c9d0e3") (.obj [("$oid", .str "65a1b2c3d4e5f6a7b8c9d0e3")])
      7 42 rfl rfl rfl clinicWorld_not_owned_by_other
      clinicWorld_has_no_doc_42).2.2.2.2.2.1.1⟩

/-! ## Claims C14, C15: the upload handler -/

theorem create_ok_inv (env : Env) (fields : List (String × JsVal)) (w w1 : World) (id : Nat)
    (h : Consultation.create env fields w = (.ok id, w1)) :
    env.createFailure = none ∧ isNullish (lookupField "user" fields) = false ∧
    id = w.nextId ∧ w1.db = w.db ++ [Doc.mk id fields] ∧ w1.files = w.files ∧
    w1.writes = w.writes := by
  unfold Consultation.create at h
  cases hc : env.createFailure with
  | some msg =>
      rw [hc] at h
      cases h
  | none =>
      rw [hc] at h
      dsimp only at h
      by_cases hn : isNullish (lookupField "user" fields) = true
      · rw [if_pos hn] at h
        cases h
      · rw [if_neg hn] at h
        simp only [Prod.mk.injEq, Except.ok.injEq] at h
        obtain ⟨h1, h2⟩ := h
        subst h2
        subst h1
        simp only [Bool.not_eq_true] at hn
        exact ⟨rfl, hn, rfl, rfl, rfl, rfl⟩

theorem create_error_world (env : Env) (fields : List (String × JsVal)) (w w1 : World)
    (e : JsError) (h : Consultation.create env fields w = (.error e, w1)) : w1 = w := by
  unfold Consultation.create at h
  split at h
  · simp only [Prod.mk.injEq] at h
    exact h.2.symm
  · split at h
    · simp only [Prod.mk.injEq] at h
      exact h.2.symm
    · cases h

theorem processAudio_tryBlock_valid (env : Env) (req : Request) (w : World)
    (file : UploadedFile) (size : Nat) (userId : JsVal)
    (hfile : req.file = some file) (hex : existsSync w.files file.path = true)
    (hsize : statSync w.files file.path = .ok size) (hpos : size ≠ 0)
    (hmime : file.mimetype ∈ allowedMimeTypes)
    (huser : getProp req.user "id" = .ok userId) :
    processAudio.tryBlock env req w =
      match Consultation.create env (uploadedFields userId file) w with
      | (.error e, w1) => (.error e, w1)
      | (.ok id, w1) => (.ok (uploadAcknowledgement id, some (id, file.path)), w1) := by
  unfold processAudio.tryBlock
  rw [hfile]
  simp only [hex, hsize, hpos, hmime, huser, Bool.not_true, Bool.false_eq_true, if_false,
    decide_True]
  rfl

theorem processAudio_job_inv (env : Env) (req : Request) (w : World) (id : Nat)
    (path : String) (h : (processAudio env req w).job = some (id, path)) :
    ∃ file size userId w1, req.file = some file ∧ path = file.path ∧
      existsSync w.files file.path = true ∧ statSync w.files file.path = .ok size ∧
      size ≠ 0 ∧ file.mimetype ∈ allowedMimeTypes ∧ getProp req.user "id" = .ok userId ∧
      Consultation.create env (uploadedFields userId file) w = (.ok id, w1) := by
  have hcatch : ∀ e w1, (processAudio.catchBlock req e w1).job = none := by
    intro e w1
    unfold processAudio.catchBlock
    split
    · rfl
    · split
      · split <;> rfl
      · rfl
  unfold processAudio at h
  cases hfile : req.file with
  | none =>
      have ht : processAudio.tryBlock env req w
          = (.ok (badRequestResponse "Please upload an audio file", none), w) := by
        unfold processAudio.tryBlock
        rw [hfile]
      rw [ht] at h
      cases h
  | some file =>
      by_cases hex : existsSync w.files file.path = true
      · cases hsize : statSync w.files file.path with
        | error e =>
            have ht : processAudio.tryBlock env req w = (.error e, w) := by
              unfold processAudio.tryBlock
              rw [hfile]
              simp only [hex, hsize, Bool.not_true, Bool.false_eq_true, if_false]
            rw [ht] at h
            dsimp only at h
            rw [hcatch] at h
            cases h
        | ok size =>
            by_cases hpos : size = 0
            · have ht : processAudio.tryBlock env req w =
                  match unlinkSync w.files file.path with
                  | .error e => (.error e, w)
                  | .ok files =>
                      (.ok (badRequestResponse "Audio file is empty", none),
                        { w with files := files }) := by
                unfold processAudio.tryBlock
                rw [hfile]
                simp only [hex, hsize, hpos, Bool.not_true, Bool.false_eq_true, if_false,
                  if_true]
              rw [ht] at h
              cases hu : unlinkSync w.files file.path with
              | error e =>
                  rw [hu] at h
                  dsimp only at h
                  rw [hcatch] at h
                  cases h
              | ok files =>
                  rw [hu] at h
                  cases h
            · by_cases hmime : file.mimetype ∈ allowedMimeTypes
              · cases huser : getProp req.user "id" with
                | error e =>
                    have ht : processAudio.tryBlock env req w = (.error e, w) := by
                      unfold processAudio.tryBlock
                      rw [hfile]
                      simp only [hex, hsize, hpos, hmime, huser, Bool.not_true,
                        Bool.false_eq_true, if_false, decide_True]
                    rw [ht] at h
                    dsimp only at h
                    rw [hcatch] at h
                    cases h
                | ok userId =>
                    rw [processAudio_tryBlock_valid env req w file size userId hfile hex hsize
                      hpos hmime huser] at h
                    cases hc : Consultation.create env (uploadedFields userId file) w with
                    | mk r w1 =>
                        rw [hc] at h
                        cases r with
                        | error e =>
                            dsimp only at h
                            rw [hcatch] at h
                            cases h
                        | ok id2 =>
                            dsimp only at h
                            simp only [Option.some.injEq, Prod.mk.injEq] at h
                            obtain ⟨h1, h2⟩ := h
                            subst h1
                            refine ⟨file, size, userId, w1, rfl, h2.symm, hex, ?_, hpos,
                              hmime, ?_, ?_⟩ <;> first | rfl | assumption
              · have ht : processAudio.tryBlock env req w =
                    match unlinkSync w.files file.path with
                    | .error e => (.error e, w)
                    | .ok files =>
                        (.ok (badRequestResponse
                            "Invalid file type. Please upload an audio file (MP3, WAV, M4A, etc.)",
                            none),
                          { w with files := files }) := by
                  unfold processAudio.tryBlock
                  rw [hfile]
                  simp only [hex, hsize, hpos, hmime, Bool.not_true, Bool.false_eq_true,
                    if_false, decide_False, Bool.not_false, if_true]
                rw [ht] at h
                cases hu : unlinkSync w.files file.path with
                | error e =>
                    rw [hu] at h
                    dsimp only at h
                    rw [hcatch] at h
                    cases h
                | ok files =>
                    rw [hu] at h
                    cases h
      · have ht : processAudio.tryBlock env req w
            = (.ok (badRequestResponse "Audio file was not saved properly", none), w) := by
          unfold processAudio.tryBlock
          rw [hfile]
          simp [hex]
        rw [ht] at h
        cases h

theorem processAudio_catchBlock_db (req : Request) (e : JsError) (w : World) :
    (processAudio.catchBlock req e w).world.db = w.db ∧
    (processAudio.catchBlock req e w).job = none := by
  unfold processAudio.catchBlock
  split
  · exact ⟨rfl, rfl⟩
  · split
    · split <;> exact ⟨rfl, rfl⟩
    · exact ⟨rfl, rfl⟩

theorem processAudio_tryBlock_db (env : Env) (req : Request) (w w1 : World)
    (r : Except JsError (Response × Option (Nat × String)))
    (h : processAudio.tryBlock env req w = (r, w1)) :
    w1.db = w.db ∨ ∃ resp id path, r = .ok (resp, some (id, path)) := by
  unfold processAudio.tryBlock at h
  split at h
  · cases h; exact Or.inl rfl
  · split at h
    · cases h; exact Or.inl rfl
    · split at h
      · cases h; exact Or.inl rfl
      · split at h
        · split at h <;> (cases h; exact Or.inl rfl)
        · split at h
          · split at h <;> (cases h; exact Or.inl rfl)
          · split at h
            · cases h; exact Or.inl rfl
            · split at h
              · rename_i hc
                cases h
                exact Or.inl (congrArg World.db (create_error_world _ _ _ _ _ hc))
              · cases h
                exact Or.inr ⟨_, _, _, rfl⟩

theorem processAudio_db_of_no_job (env : Env) (req : Request) (w : World)
    (h : (processAudio env req w).job = none) : (processAudio env req w).world.db = w.db := by
  unfold processAudio at h ⊢
  cases ht : processAudio.tryBlock env req w with
  | mk r w1 =>
      rw [ht] at h
      rcases processAudio_tryBlock_db env req w w1 r ht with hdb | ⟨resp, id, path, hr⟩
      · cases r with
        | ok rj =>
            obtain ⟨resp, job⟩ := rj
            exact hdb
        | error e =>
            dsimp only
            rw [(processAudio_catchBlock_db req e w1).1]
            exact hdb
      · subst hr
        cases h

/-- Counterexample to C14: the upload is valid (file present on disk, 2048 bytes,
`audio/wav`) and the store rejects `Consultation.create`. The handler answers 500, not
400, creates no Consultation and starts no background job. -/
theorem C14_counterexample :
    existsSync (sampleWorld false).files "uploads/a.wav" = true ∧
    statSync (sampleWorld false).files "uploads/a.wav" = .ok 2048 ∧
    "audio/wav" ∈ allowedMimeTypes ∧
    (processAudio createDownEnv sampleRequest (sampleWorld false)).response
      = .ok (serverErrorResponse "store unavailable") ∧
    (processAudio createDownEnv sampleRequest (sampleWorld false)).job = none ∧
    (processAudio createDownEnv sampleRequest (sampleWorld false)).world.db
      = (sampleWorld false).db :=
  ⟨rfl, rfl, by decide, rfl, rfl, rfl⟩

/-- Claim C14 as amended: `processAudio` creates a Consultation and starts background
processing if and only if a file was uploaded, it exists on disk, its size is
non-zero, its MIME type is one of the six allowed ones, and `Consultation.create`
succeeds. Without a file or with a file missing on disk it responds 400 and
changes nothing; for an empty file or a disallowed MIME type it removes the
uploaded file and responds 400 (when the removal is not refused); and whenever
no job is started no Consultation is created. -/
theorem C14_upload_validation (env : Env) (req : Request) (w : World) :
    (req.file = none →
      processAudio env req w
        = UploadOutcome.mk (.ok (badRequestResponse "Please upload an audio file")) none w) ∧
    (∀ file, req.file = some file → existsSync w.files file.path = false →
      processAudio env req w
        = UploadOutcome.mk (.ok (badRequestResponse "Audio file was not saved properly"))
            none w) ∧
    (∀ file size files, req.file = some file → existsSync w.files file.path = true →
      statSync w.files file.path = .ok size →
      (size = 0 ∨ file.mimetype ∉ allowedMimeTypes) →
      unlinkSync w.files file.path = .ok files →
      (∃ msg, processAudio env req w
          = UploadOutcome.mk (.ok (badRequestResponse msg)) none { w with files := files }) ∧
      existsSync files file.path = false) ∧
    (∀ file size userId id w1, req.file = some file → existsSync w.files file.path = true →
      statSync w.files file.path = .ok size → size ≠ 0 →
      file.mimetype ∈ allowedMimeTypes → getProp req.user "id" = .ok userId →
      Consultation.create env (uploadedFields userId file) w = (.ok id, w1) →
      processAudio env req w
        = UploadOutcome.mk (.ok (uploadAcknowledgement id)) (some (id, file.path)) w1 ∧
      w1.db = w.db ++ [Doc.mk id (uploadedFields userId file)]) ∧
    (∀ id path, (processAudio env req w).job = some (id, path) →
      ∃ file size userId w1, req.file = some file ∧ path = file.path ∧
        existsSync w.files file.path = true ∧ statSync w.files file.path = .ok size ∧
        size ≠ 0 ∧ file.mimetype ∈ allowedMimeTypes ∧ getProp req.user "id" = .ok userId ∧
        Consultation.create env (uploadedFields userId file) w = (.ok id, w1)) ∧
    ((processAudio env req w).job = none → (processAudio env req w).world.db = w.db) := by
  refine ⟨?_, ?_, ?_, ?_, processAudio_job_inv env req w, processAudio_db_of_no_job env req w⟩
  · intro hfile
    unfold processAudio processAudio.tryBlock
    rw [hfile]
  · intro file hfile hex
    unfold processAudio processAudio.tryBlock
    rw [hfile]
    simp [hex]
  · intro file size files hfile hex hsize hbad hu
    constructor
    · unfold processAudio processAudio.tryBlock
      rw [hfile]
      by_cases hz : size = 0
      · refine ⟨"Audio file is empty", ?_⟩
        simp [hex, hsize, hz, hu]
      · have hm : file.mimetype ∉ allowedMimeTypes := by
          rcases hbad with h | h
          · exact absurd h hz
          · exact h
        refine ⟨"Invalid file type. Please upload an audio file (MP3, WAV, M4A, etc.)", ?_⟩
        simp [hex, hsize, hz, hm, hu]
    · unfold unlinkSync at hu
      split at hu
      · cases hu
      · split at hu
        · cases hu
        · cases hu
          exact existsSync_filter_ne _ _
  · intro file size userId id w1 hfile hex hsize hpos hmime huser hcreate
    constructor
    · unfold processAudio
      rw [processAudio_tryBlock_valid env req w file size userId hfile hex hsize hpos hmime
        huser, hcreate]
    · exact (create_ok_inv env _ w w1 id hcreate).2.2.2.1

/-- Witness of C14: a valid upload on a healthy store starts the job for the new
Consultation 8. -/
theorem C14_upload_validation_witness :
    (processAudio nameOnlyEnv sampleRequest (sampleWorld false)).job
      = some (8, "uploads/a.wav") ∧
    (∃ file size userId w1, sampleRequest.file = some file ∧ "uploads/a.wav" = file.path ∧
      existsSync (sampleWorld false).files file.path = true ∧
      statSync (sampleWorld false).files file.path = .ok size ∧
      size ≠ 0 ∧ file.mimetype ∈ allowedMimeTypes ∧
      getProp sampleRequest.user "id" = .ok userId ∧
      Consultation.create nameOnlyEnv (uploadedFields userId file) (sampleWorld false)
        = (.ok 8, w1)) :=
  ⟨rfl,
   (C14_upload_validation nameOnlyEnv sampleRequest (sampleWorld false)).2.2.2.2.1 8
     "uploads/a.wav" rfl⟩

theorem create_congr (env env2 : Env) (fields : List (String × JsVal)) (w : World)
    (h : env2.createFailure = env.createFailure) :
    Consultation.create env2 fields w = Consultation.create env fields w := by
  unfold Consultation.create
  rw [h]

/-- Counterexample to C15: the upload is valid, the store rejects `Consultation.create`, and
the system refuses to remove the uploaded file. No Consultation is created,
and the `catch` block throws while cleaning up, so no response is sent at
all. -/
theorem C15_counterexample :
    existsSync (sampleWorld true).files "uploads/a.wav" = true ∧
    statSync (sampleWorld true).files "uploads/a.wav" = .ok 2048 ∧
    (processAudio createDownEnv sampleRequest (sampleWorld true)).response
      = .error (mkError "EPERM: operation not permitted, unlink uploads/a.wav") ∧
    (processAudio createDownEnv sampleRequest (sampleWorld true)).job = none ∧
    (processAudio createDownEnv sampleRequest (sampleWorld true)).world.db
      = (sampleWorld true).db :=
  ⟨rfl, rfl, rfl, rfl, rfl⟩

theorem create_ok (env : Env) (fields : List (String × JsVal)) (w : World)
    (hstore : env.createFailure = none)
    (huser : isNullish (lookupField "user" fields) = false) :
    Consultation.create env fields w
      = (.ok w.nextId,
          { w with db := w.db ++ [Doc.mk w.nextId fields], nextId := w.nextId + 1 }) := by
  unfold Consultation.create
  rw [hstore]
  dsimp only
  rw [huser]
  rfl

/-- Claim C15 as amended: for every valid upload by a caller with an id, when the store
accepts `Consultation.create`, `processAudio` creates exactly one Consultation, owned by
the authenticated caller (`req.user.id`), with status uploaded and the file's
name, original name and size; its response carries that record's id as
`consultationId` together with status `uploaded`; and the response is fixed before
the background job runs: it is the same for every behaviour of the providers
and of the later store writes. -/
theorem C15_upload_acknowledgement (env : Env) (req : Request) (w : World)
    (file : UploadedFile) (size : Nat) (userId : JsVal)
    (hfile : req.file = some file) (hex : existsSync w.files file.path = true)
    (hsize : statSync w.files file.path = .ok size) (hpos : size ≠ 0)
    (hmime : file.mimetype ∈ allowedMimeTypes)
    (huser : getProp req.user "id" = .ok userId) (hid : isNullish userId = false)
    (hstore : env.createFailure = none) :
    (processAudio env req w).response = .ok (uploadAcknowledgement w.nextId) ∧
    (processAudio env req w).job = some (w.nextId, file.path) ∧
    (processAudio env req w).world.db
      = w.db ++ [Doc.mk w.nextId (uploadedFields userId file)] ∧
    (lookupField "user" (uploadedFields userId file) = userId ∧
      lookupField "status" (uploadedFields userId file) = .str "uploaded" ∧
      lookupField "audioFile" (uploadedFields userId file) = .str file.filename ∧
      lookupField "originalName" (uploadedFields userId file) = .str file.originalname ∧
      lookupField "fileSize" (uploadedFields userId file) = .num file.size 0) ∧
    (getProp (uploadAcknowledgement w.nextId).body "consultationId"
        = .ok (.num w.nextId 0) ∧
      getProp (uploadAcknowledgement w.nextId).body "status" = .ok (.str "uploaded")) ∧
    (∀ env2 : Env, env2.createFailure = env.createFailure →
      (processAudio env2 req w).response = (processAudio env req w).response ∧
      (processAudio env2 req w).world = (processAudio env req w).world) := by
  have hrun : ∀ env2 : Env, env2.createFailure = env.createFailure →
      processAudio env2 req w
        = UploadOutcome.mk (.ok (uploadAcknowledgement w.nextId)) (some (w.nextId, file.path))
            { w with db := w.db ++ [Doc.mk w.nextId (uploadedFields userId file)],
                     nextId := w.nextId + 1 } := by
    intro env2 h2
    unfold processAudio
    rw [processAudio_tryBlock_valid env2 req w file size userId hfile hex hsize hpos hmime
      huser, create_ok env2 (uploadedFields userId file) w (h2.trans hstore) hid]
  refine ⟨?_, ?_, ?_, ⟨rfl, rfl, rfl, rfl, rfl⟩, ⟨rfl, rfl⟩, ?_⟩
  · rw [hrun env rfl]
  · rw [hrun env rfl]
  · rw [hrun env rfl]
  · intro env2 h2
    rw [hrun env2 h2, hrun env rfl]
    exact ⟨rfl, rfl⟩

/-- Witness of C15: the valid upload of `sampleRequest` on a healthy store. -/
theorem C15_upload_acknowledgement_witness :
    (processAudio nameOnlyEnv sampleRequest (sampleWorld false)).response
      = .ok (uploadAcknowledgement 8) ∧
    (processAudio nameOnlyEnv sampleRequest (sampleWorld false)).job
      = some (8, "uploads/a.wav") :=
  ⟨(C15_upload_acknowledgement nameOnlyEnv sampleRequest (sampleWorld false)
      (UploadedFile.mk "uploads/a.wav" "a.wav" "visit.wav" "audio/wav" 2048) 2048
      (.str "u1") rfl rfl rfl (by decide) (by decide) rfl rfl rfl).1,
   (C15_upload_acknowledgement nameOnlyEnv sampleRequest (sampleWorld false)
      (UploadedFile.mk "uploads/a.wav" "a.wav" "visit.wav" "audio/wav" 2048) 2048
      (.str "u1") rfl rfl rfl (by decide) (by decide) rfl rfl rfl).2.1⟩

/-! ## Claim C13: status regression -/

/-- Claim C13 fails on the code: in `processAudioStepByStep` the removal of the uploaded file
is refused after the update that sets status completed was accepted; the `catch` block then
writes status failed on that completed record, and the store accepts it. The accepted
status writes are transcribing, summarizing, completed, failed, and the record ends failed
with the summary it was completed with. -/
theorem C13_completed_is_overwritten :
    wrappedLockedStepRun.2.writes.map (fun e => (statusOf e.update, e.threw))
      = [(.str "transcribing", false), (.str "summarizing", false),
         (.str "completed", false), (.str "failed", false)] ∧
    wrappedLockedStepRun.2.writes.map (fun e => e.id) = [8, 8, 8, 8] ∧
    (docFields 8 wrappedLockedStepRun.2).map
        (fun f => (lookupField "status" f, lookupField "diagnosis" f))
      = some (.str "failed", .str "Flu") ∧
    wrappedLockedStepRun.1
      = serverErrorResponse "EPERM: operation not permitted, unlink uploads/a.wav" :=
  ⟨rfl, rfl, rfl, rfl⟩

/-! ## Claim C20: the step-by-step handler -/

/-- Claim C20 fails on the code: the store accepts the first update of
`processAudioStepByStep` and rejects the later ones. The summarizing update fails, the
failure update of the `catch` block is rejected too, and the handler answers `500` before
it reaches the removal of the uploaded file, which stays on disk; the record keeps status
transcribing. `processAudioBackground` removes the file under the same store. On a store
that accepts every update the success path writes transcribing, summarizing, completed
and removes the file. -/
theorem C20_rejected_failure_update_skips_cleanup :
    storeLostStepRun.1 = serverErrorResponse "connection lost" ∧
    issuedStatuses storeLostStepRun.2
      = [.str "transcribing", .str "summarizing", .str "failed"] ∧
    appliedStatuses storeLostStepRun.2 = [.str "transcribing"] ∧
    (docFields 8 storeLostStepRun.2).map (lookupField "status")
      = some (.str "transcribing") ∧
    existsSync storeLostStepRun.2.files "uploads/a.wav" = true ∧
    existsSync storeLostRun.2.files "uploads/a.wav" = false ∧
    appliedStatuses nameOnlyStepRun.2
      = [.str "transcribing", .str "summarizing", .str "completed"] ∧
    existsSync nameOnlyStepRun.2.files "uploads/a.wav" = false :=
  ⟨rfl, rfl, rfl, rfl, rfl, rfl, rfl, rfl⟩

/-! ## Claims C23, C24: provider configuration and the totality of the pipeline -/

theorem hasValidApiKey_iff (env : Env) :
    hasValidApiKey env = true ↔
      ∃ key, env.apiKey = some key ∧ startsWithChars "sk-".data key.data = true ∧
        utf16Length key > 20 := by
  unfold hasValidApiKey
  cases hk : env.apiKey with
  | none => simp
  | some key =>
      constructor
      · intro h
        simp only [Bool.and_eq_true, decide_eq_true_eq] at h
        exact ⟨key, rfl, h.1.2, h.2⟩
      · rintro ⟨key2, hkey, hs, hl⟩
        cases hkey
        have hne : key ≠ "" := by
          intro h0
          subst h0
          simp [utf16Length] at hl
        simp [hne, hs, hl]

theorem transcribeAudio_tryBlock_no_key (env : Env) (hkey : hasValidApiKey env = false)
    (files : FileSystem) (audioPath : String) :
    transcribeAudio.tryBlock env files audioPath = .ok (.str MOCK_TRANSCRIPT) := by
  simp [transcribeAudio.tryBlock, hkey, mockTranscribeAudio]

theorem transcribeAudio_no_key (env : Env) (hkey : hasValidApiKey env = false)
    (files : FileSystem) (audioPath : String) :
    transcribeAudio env files audioPath = .ok (.str MOCK_TRANSCRIPT) := by
  simp [transcribeAudio, transcribeAudio.tryBlock, hkey, mockTranscribeAudio]

theorem generateMedicalSummary_tryBlock_no_key (env : Env) (hkey : hasValidApiKey env = false)
    (transcript : JsVal) :
    generateMedicalSummary.tryBlock env transcript = .ok MOCK_SUMMARY ∨
    generateMedicalSummary.tryBlock env transcript
      = .error (mkError "Empty transcript provided") ∨
    generateMedicalSummary.tryBlock env transcript
      = .error (mkError "transcript.trim is not a function") := by
  unfold generateMedicalSummary.tryBlock
  simp only [hkey]
  split
  · exact Or.inr (Or.inl rfl)
  · split
    · split
      · exact Or.inr (Or.inl rfl)
      · exact Or.inl rfl
    · exact Or.inr (Or.inr rfl)

theorem generateMedicalSummary_no_key (env : Env) (hkey : hasValidApiKey env = false)
    (transcript : JsVal) : generateMedicalSummary env transcript = .ok MOCK_SUMMARY := by
  unfold generateMedicalSummary
  rcases generateMedicalSummary_tryBlock_no_key env hkey transcript with h | h | h <;>
    rw [h] <;> rfl

theorem transcribeAudio_tryBlock_of_key (env : Env) (hkey : hasValidApiKey env = true)
    (files : FileSystem) (audioPath : String) (hex : existsSync files audioPath = true) :
    transcribeAudio.tryBlock env files audioPath =
      match env.transcriptionsCreate audioPath with
      | .error msg => .error (mkError msg)
      | .ok transcription => getProp transcription "text" := by
  unfold transcribeAudio.tryBlock
  simp [hkey, hex, openai_transcriptionsCreate_of_key env hkey]

/-- Claim C23: the provider counts as configured exactly when the API key is set, starts
with `sk-` and has a `length` above 20 (counted in UTF-16 code units). In that case the
client object exists, carries the two provider calls, and the `try` blocks of
`transcribeAudio` and `generateMedicalSummary` go through it. In every other case the
client is `null`, the `try` block of `transcribeAudio` returns the mock transcript at
once, that of `generateMedicalSummary` returns the mock summary or raises one of its two
guard errors, never the error of a call on the `null` client, and both functions return
the mock values whatever the provider calls would have answered. -/
theorem C23_provider_configuration (env : Env) :
    (hasValidApiKey env = true ↔
      ∃ key, env.apiKey = some key ∧ startsWithChars "sk-".data key.data = true ∧
        utf16Length key > 20) ∧
    (hasValidApiKey env = true →
      openai env = some (OpenAIClient.mk env.transcriptionsCreate env.completionsCreate) ∧
      (∀ (files : FileSystem) (audioPath : String), existsSync files audioPath = true →
        transcribeAudio.tryBlock env files audioPath =
          match env.transcriptionsCreate audioPath with
          | .error msg => .error (mkError msg)
          | .ok transcription => getProp transcription "text") ∧
      (∀ text : String, (jsTrim text).length ≠ 0 →
        generateMedicalSummary.tryBlock env (.str text) =
          match env.completionsCreate
              (jsReplace MEDICAL_SUMMARY_PROMPT "\x7btranscript\x7d" text) with
          | .error msg => .error (mkError msg)
          | .ok completion =>
              match completionText completion with
              | .error e => .error e
              | .ok summaryText =>
                  generateMedicalSummary.parseResponse env (.str text) summaryText)) ∧
    (hasValidApiKey env = false →
      openai env = none ∧
      (∀ (files : FileSystem) (audioPath : String),
        transcribeAudio.tryBlock env files audioPath = .ok (.str MOCK_TRANSCRIPT)) ∧
      (∀ transcript : JsVal,
        generateMedicalSummary.tryBlock env transcript = .ok MOCK_SUMMARY ∨
        generateMedicalSummary.tryBlock env transcript
          = .error (mkError "Empty transcript provided") ∨
        generateMedicalSummary.tryBlock env transcript
          = .error (mkError "transcript.trim is not a function")) ∧
      ∀ (tc cc : String → Except String JsVal) (files : FileSystem) (audioPath : String)
        (transcript : JsVal),
        transcribeAudio { env with transcriptionsCreate := tc, completionsCreate := cc }
            files audioPath = .ok (.str MOCK_TRANSCRIPT) ∧
        generateMedicalSummary { env with transcriptionsCreate := tc, completionsCreate := cc }
            transcript = .ok MOCK_SUMMARY) := by
  refine ⟨hasValidApiKey_iff env, ?_, ?_⟩
  · intro hkey
    exact ⟨openai_of_key env hkey, transcribeAudio_tryBlock_of_key env hkey,
      fun text hne => generateMedicalSummary_tryBlock_str env text hkey hne⟩
  · intro hkey
    refine ⟨?_, transcribeAudio_tryBlock_no_key env hkey,
      generateMedicalSummary_tryBlock_no_key env hkey, ?_⟩
    · unfold openai
      rw [hkey]
      rfl
    · intro tc cc files audioPath transcript
      have hkey2 : hasValidApiKey
          { env with transcriptionsCreate := tc, completionsCreate := cc } = false := hkey
      exact ⟨transcribeAudio_no_key _ hkey2 files audioPath,
        generateMedicalSummary_no_key _ hkey2 transcript⟩

/-- Witness of C23: without a key the client is `null` and nothing the provider could answer
is used; the sample key counts as a configuration, and so does a key of twelve characters
whose nine characters after `sk-` take two code units each. -/
theorem C23_provider_configuration_witness :
    hasValidApiKey noKeyEnv = false ∧ hasValidApiKey nameOnlyEnv = true ∧
    astralKey.length = 12 ∧ utf16Length astralKey = 21 ∧
    hasValidApiKey { nameOnlyEnv with apiKey := some astralKey } = true ∧
    hasValidApiKey { nameOnlyEnv with apiKey := some "sk-0123456789abcdefg" } = false ∧
    openai noKeyEnv = none ∧
    transcribeAudio.tryBlock nameOnlyEnv (sampleWorld false).files "uploads/a.wav"
      = .ok (.str "PATIENT: I am Ann.") ∧
    transcribeAudio { noKeyEnv with transcriptionsCreate := fun _ => .ok (.obj [("text", .str "x")]), completionsCreate := fun _ => .error "down" } [] "uploads/a.wav" = .ok (.str MOCK_TRANSCRIPT) ∧
    generateMedicalSummary { noKeyEnv with transcriptionsCreate := fun _ => .ok (.obj [("text", .str "x")]), completionsCreate := fun _ => .error "down" } (.str "PATIENT: I have a cough.") = .ok MOCK_SUMMARY :=
  ⟨rfl, (C23_provider_configuration nameOnlyEnv).1.mpr ⟨sampleKey, rfl, rfl, by decide⟩,
    by decide, by decide,
    (C23_provider_configuration { nameOnlyEnv with apiKey := some astralKey }).1.mpr
      ⟨astralKey, rfl, rfl, by decide⟩,
    rfl,
    ((C23_provider_configuration noKeyEnv).2.2 rfl).1,
    (((C23_provider_configuration nameOnlyEnv).2.1 rfl).2.1 (sampleWorld false).files
      "uploads/a.wav" rfl).trans rfl,
    (((C23_provider_configuration noKeyEnv).2.2 rfl).2.2.2 _ _ [] "uploads/a.wav"
      (.str "PATIENT: I have a cough.")).1,
    (((C23_provider_configuration noKeyEnv).2.2 rfl).2.2.2 _ _ [] "uploads/a.wav"
      (.str "PATIENT: I have a cough.")).2⟩

/-- Claim C24: for every audio path, file system and behaviour of the provider,
`transcribeAudio` and `generateMedicalSummary` return without raising, so
`processMedicalAudio` returns a result with `success` true and no error, and the test
`!processingResult.success` of `processAudioBackground` is false for every result
`processMedicalAudio` can return. -/
theorem C24_pipeline_always_succeeds (env : Env) (files : FileSystem) (audioPath : String) :
    (∀ e, transcribeAudio env files audioPath ≠ .error e) ∧
    (∀ transcript e, generateMedicalSummary env transcript ≠ .error e) ∧
    (∃ r, processMedicalAudio env files audioPath = .ok r ∧ r.success = true ∧
      r.error = none) ∧
    (∀ r, processMedicalAudio env files audioPath = .ok r → (!r.success) = false) := by
  obtain ⟨t, s2, _, _, hp⟩ := processMedicalAudio_success env files audioPath
  refine ⟨?_, ?_, ⟨_, hp, rfl, rfl⟩, ?_⟩
  · intro e h
    obtain ⟨v, hv⟩ := transcribeAudio_ok env files audioPath
    rw [hv] at h
    cases h
  · intro transcript e h
    obtain ⟨v, hv⟩ := generateMedicalSummary_ok env transcript
    rw [hv] at h
    cases h
  · intro r hr
    rw [hp] at hr
    cases hr
    rfl

/-- Witness of C24 on a provider that rejects both calls. -/
theorem C24_pipeline_always_succeeds_witness :
    (∃ r, processMedicalAudio failingProviderEnv (sampleWorld false).files "uploads/a.wav"
      = .ok r) ∧
    ∀ r, processMedicalAudio failingProviderEnv (sampleWorld false).files "uploads/a.wav"
      = .ok r → (!r.success) = false :=
  ⟨(C24_pipeline_always_succeeds failingProviderEnv (sampleWorld false).files
      "uploads/a.wav").2.2.1.imp (fun _ h => h.1),
    fun r hr => (C24_pipeline_always_succeeds failingProviderEnv (sampleWorld false).files
      "uploads/a.wav").2.2.2 r hr⟩

/-! ## Claims C21, C25, C26, C27: divergences of the code -/

/-- Claim C21 fails on the code: `processAudioStepByStep` accepts an upload of zero bytes
and an upload declared as `text/plain`; each time it creates a Consultation, calls the
provider and answers `200` with a completed record, where `processAudio` answers the
same request with `400` and creates nothing. -/
theorem C21_step_by_step_accepts_invalid_uploads :
    emptyUploadStepRun.1.status = 200 ∧
    appliedStatuses emptyUploadStepRun.2
      = [.str "transcribing", .str "summarizing", .str "completed"] ∧
    (docFields 1 emptyUploadStepRun.2).map
        (fun f => (lookupField "status" f, lookupField "fileSize" f,
          lookupField "transcript" f))
      = some (.str "completed", .num 0 0, .str "PATIENT: I am Ann.") ∧
    emptyUploadRun.response = .ok (badRequestResponse "Audio file is empty") ∧
    emptyUploadRun.world.db = [] ∧
    textUploadStepRun.1.status = 200 ∧
    appliedStatuses textUploadStepRun.2
      = [.str "transcribing", .str "summarizing", .str "completed"] ∧
    (docFields 8 textUploadStepRun.2).map
        (fun f => (lookupField "status" f, lookupField "mimeType" f,
          lookupField "transcript" f))
      = some (.str "completed", .str "text/plain", .str "PATIENT: I am Ann.") ∧
    textUploadRun.response = .ok (badRequestResponse
      "Invalid file type. Please upload an audio file (MP3, WAV, M4A, etc.)") ∧
    textUploadRun.world.db = (sampleWorld false).db :=
  ⟨rfl, rfl, rfl, rfl, rfl, rfl, rfl, rfl, rfl, rfl⟩

/-- Claim C25 fails on the code: for a summary without gender the completing update of
`processAudioBackground` carries the placeholder `Not specified` as gender, which the
schema's `enum` constraint rejects, and the store accepts the write because it is made
without validators; the completed record holds that value. -/
theorem C25_backfilled_gender_violates_schema :
    nameOnlyBackgroundRun.2.writes.map
        (fun e => (statusOf e.update, lookupField "gender" e.update, e.threw,
          referenceValidateUpdate e.update))
      = [(.str "transcribing", .undefined, false, none),
         (.str "completed", .str "Not specified", false,
          some "Validation failed: gender: Not specified is not a valid enum value")] ∧
    (docFields 7 nameOnlyBackgroundRun.2).map
        (fun f => (lookupField "status" f, lookupField "gender" f))
      = some (.str "completed", .str "Not specified") :=
  ⟨rfl, rfl⟩

/-- Claim C26 fails on the code: when the removal of the uploaded file is refused,
`processAudioStepByStep` has already written status completed with the summary, then its
`catch` block writes status failed over it and the request is answered with `500`;
`processAudioBackground` leaves the record completed on the same file. -/
theorem C26_cleanup_failure_overwrites_completed :
    appliedStatuses lockedFileStepRun.2
      = [.str "transcribing", .str "summarizing", .str "completed", .str "failed"] ∧
    (docFields 8 lockedFileStepRun.2).map
        (fun f => (lookupField "status" f, lookupField "patientName" f,
          lookupField "error" f))
      = some (.str "failed", .str "Ann",
          .str "EPERM: operation not permitted, unlink uploads/a.wav") ∧
    lockedFileStepRun.1.status = 500 ∧
    (docFields 7 lockedFileRun.2).map (fun f => lookupField "status" f)
      = some (.str "completed") :=
  ⟨rfl, rfl, rfl, rfl⟩

/-- Claim C27 fails on the code: for a user document whose `_id` is an object identifier
and whose `id` is its text, `createConsultation` stores the text as owner while
`getConsultation` queries with the object identifier, so the user's own new record is
answered with `404`; `getConsultationDetails`, which queries with `req.user.id`,
finds it, and for the mock user both keys agree. -/
theorem C27_owner_key_mismatch :
    storedUserCreateRun.1.status = 201 ∧
    (docFields 1 storedUserCreateRun.2).map (fun f => lookupField "user" f)
      = some (.str "65a1b2c3d4e5f6a7b8c9d0e2") ∧
    getProp storedUser "id" = .ok (.str "65a1b2c3d4e5f6a7b8c9d0e2") ∧
    normalizeUserId storedUser = .ok (.obj [("$oid", .str "65a1b2c3d4e5f6a7b8c9d0e2")]) ∧
    (getConsultation nameOnlyEnv storedUserFetchRequest storedUserCreateRun.2).1
      = notFoundResponse ∧
    (getConsultationDetails nameOnlyEnv storedUserFetchRequest storedUserCreateRun.2).1.status
      = 200 ∧
    (getConsultation nameOnlyEnv mockUserFetchRequest
      (createConsultation nameOnlyEnv mockUserCreateRequest emptyStore).2).1.status = 200 :=
  ⟨rfl, rfl, rfl, rfl, rfl, rfl, rfl⟩

/-! ## Claim C28: the owner of a created consultation -/

theorem createConsultation_spec (env : Env) (req : Request) (w : World) (userId : JsVal)
    (hid : getProp req.user "id" = .ok userId) :
    ((createConsultation env req w).1.status = 201 ∧
      (createConsultation env req w).2.db
        = w.db ++ [Doc.mk w.nextId (consultationData req.body userId)]) ∨
    ((createConsultation env req w).1.status = 500 ∧ (createConsultation env req w).2.db = w.db) := by
  unfold createConsultation
  rw [hid]
  dsimp only
  unfold Consultation.create
  cases env.createFailure with
  | some msg => right; exact ⟨rfl, rfl⟩
  | none =>
      dsimp only
      by_cases hn : isNullish (lookupField "user" (consultationData req.body userId)) = true
      · rw [if_pos hn]
        right
        exact ⟨rfl, rfl⟩
      · rw [if_neg hn]
        left
        exact ⟨rfl, rfl⟩

theorem createdDocs_append (w w2 : World) (l : List Doc) (h : w2.db = w.db ++ l) :
    createdDocs w w2 = l := by
  unfold createdDocs
  rw [h]
  simp

theorem createdDocs_same (w w2 : World) (h : w2.db = w.db) : createdDocs w w2 = [] := by
  unfold createdDocs
  rw [h]
  simp

/-- Claim C28: for every request body, the object `createConsultation` hands to the store
has `user` equal to the caller's `req.user.id`, whatever the body says about `user`; every
record the handler creates has that owner, a `201` answer means exactly one such record
was created, and two requests of the same caller create records with the same owner
whatever their bodies are. -/
theorem C28_owner_is_caller (env : Env) (req1 req2 : Request) (w : World) (userId : JsVal)
    (hid : getProp req1.user "id" = .ok userId) (hsame : req2.user = req1.user) :
    (∀ body, lookupField "user" (consultationData body userId) = userId) ∧
    ((createConsultation env req1 w).1.status = 201 →
      createdDocs w (createConsultation env req1 w).2
        = [Doc.mk w.nextId (consultationData req1.body userId)]) ∧
    (∀ d1 ∈ createdDocs w (createConsultation env req1 w).2,
      ∀ d2 ∈ createdDocs w (createConsultation env req2 w).2,
        lookupField "user" d1.fields = userId ∧ lookupField "user" d2.fields = userId) := by
  have key : ∀ req : Request, getProp req.user "id" = .ok userId →
      ∀ d ∈ createdDocs w (createConsultation env req w).2,
        lookupField "user" d.fields = userId := by
    intro req hreq d hd
    rcases createConsultation_spec env req w userId hreq with ⟨_, hdb⟩ | ⟨_, hdb⟩
    · rw [createdDocs_append w _ _ hdb] at hd
      simp only [List.mem_singleton] at hd
      subst hd
      exact lookupField_setField_same "user" userId req.body
    · rw [createdDocs_same w _ hdb] at hd
      cases hd
  refine ⟨fun body => lookupField_setField_same "user" userId body, ?_, ?_⟩
  · intro h201
    rcases createConsultation_spec env req1 w userId hid with ⟨_, hdb⟩ | ⟨h500, _⟩
    · exact createdDocs_append w _ _ hdb
    · rw [h500] at h201
      cases h201
  · intro d1 hd1 d2 hd2
    exact ⟨key req1 hid d1 hd1, key req2 (by rw [hsame]; exact hid) d2 hd2⟩

/-- Witness of C28: a body that names user `u2` as owner still creates a record owned by the
caller `u1`, as the body without an owner does. -/
theorem C28_owner_is_caller_witness :
    getProp plainCreateRequest.user "id" = .ok (.str "u1") ∧
    forgedCreateRequest.user = plainCreateRequest.user ∧
    (createConsultation nameOnlyEnv forgedCreateRequest emptyStore).1.status = 201 ∧
    createdDocs emptyStore (createConsultation nameOnlyEnv forgedCreateRequest emptyStore).2
      = [Doc.mk 1 [("patientName", .str "Ann"), ("user", .str "u1"),
          ("diagnosis", .str "Flu")]] ∧
    ∀ d1 ∈ createdDocs emptyStore (createConsultation nameOnlyEnv plainCreateRequest emptyStore).2,
      ∀ d2 ∈ createdDocs emptyStore
          (createConsultation nameOnlyEnv forgedCreateRequest emptyStore).2,
        lookupField "user" d1.fields = .str "u1" ∧ lookupField "user" d2.fields = .str "u1" :=
  ⟨rfl, rfl, rfl, rfl,
    (C28_owner_is_caller nameOnlyEnv plainCreateRequest forgedCreateRequest emptyStore
      (.str "u1") rfl rfl).2.2⟩

/-! ## Claim C22: the legacy transcription route -/

/-- Claim C22 fails on the code: when the removal of the uploaded file is refused, the
`catch` block of the legacy handler tries the same removal again before it builds the
fallback response, is rejected by it, and the handler ends without any response while the
file is still there; on a file that can be removed the handler answers `200` with the
text and the file is gone. -/
theorem C22_refused_removal_leaves_no_response :
    sampleRequest.file
      = some (UploadedFile.mk "uploads/a.wav" "a.wav" "visit.wav" "audio/wav" 2048) ∧
    transcribeAudio nameOnlyEnv (sampleWorld true).files "uploads/a.wav"
      = .ok (.str "PATIENT: I am Ann.") ∧
    unlinkSync (sampleWorld true).files "uploads/a.wav"
      = .error (mkError "EPERM: operation not permitted, unlink uploads/a.wav") ∧
    lockedLegacyRun.1
      = .error (mkError "EPERM: operation not permitted, unlink uploads/a.wav") ∧
    existsSync lockedLegacyRun.2.files "uploads/a.wav" = true ∧
    legacyTranscribe nameOnlyEnv sampleRequest (sampleWorld false)
      = (.ok (Response.mk 200 (.obj [("success", .bool true),
            ("text", .str "PATIENT: I am Ann.")])),
          { sampleWorld false with files := [] }) :=
  ⟨rfl, rfl, rfl, rfl, rfl, rfl⟩

/-! ## Claim C29: the mock-user branch of `protect` -/

theorem startsWithChars_eq_append (p cs : List Char) (h : startsWithChars p cs = true) :
    ∃ rest, cs = p ++ rest := by
  induction p generalizing cs with
  | nil => exact ⟨cs, rfl⟩
  | cons a p ih =>
      cases cs with
      | nil => simp [startsWithChars] at h
      | cons c cs =>
          unfold startsWithChars at h
          by_cases hac : a = c
          · rw [if_pos hac] at h
            obtain ⟨rest, hrest⟩ := ih cs h
            exact ⟨rest, by rw [hac, hrest]; rfl⟩
          · rw [if_neg hac] at h
            cases h

theorem splitSecond_of_mock_prefix (rest : List Char) :
    splitSecond ("Bearer mock-jwt-token".data ++ rest)
      = some ("mock-jwt-token".data ++ rest.takeWhile (fun c => c ≠ ' ')) := by
  have hd : "Bearer mock-jwt-token".data
      = ['B', 'e', 'a', 'r', 'e', 'r', ' ', 'm', 'o', 'c', 'k', '-', 'j', 'w', 't', '-',
         't', 'o', 'k', 'e', 'n'] := rfl
  have hm : "mock-jwt-token".data
      = ['m', 'o', 'c', 'k', '-', 'j', 'w', 't', '-', 't', 'o', 'k', 'e', 'n'] := rfl
  rw [hd, hm]
  simp [splitSecond, List.dropWhile, List.takeWhile]

theorem tokenMissing_of_mock_header (authorization : Option String)
    (h : isMockHeader authorization = true) :
    tokenMissing (bearerToken authorization) = false := by
  cases authorization with
  | none => simp [isMockHeader] at h
  | some header =>
      unfold isMockHeader at h
      simp only [Bool.and_eq_true, decide_eq_true_eq] at h
      obtain ⟨hne, hstart⟩ := h
      obtain ⟨rest, hrest⟩ := startsWithChars_eq_append _ _ hstart
      have hbearer : startsWithChars "Bearer".data header.data = true := by
        rw [hrest]
        rfl
      unfold bearerToken
      simp only [hne, hbearer, ne_eq, not_false_eq_true, and_self, if_true]
      rw [hrest, splitSecond_of_mock_prefix]
      simp only [Option.map_some', tokenMissing, decide_eq_false_iff_not]
      intro h0
      have h1 := congrArg String.data h0
      simp at h1

theorem protect_of_token_missing (auth : AuthEnv) (authorization : Option String)
    (h : tokenMissing (bearerToken authorization) = true) :
    protect auth authorization
      = .respond (unauthorizedResponse "Not authorized to access this route") := by
  have hmock : isMockHeader authorization = false := by
    cases hm : isMockHeader authorization with
    | false => rfl
    | true =>
        rw [tokenMissing_of_mock_header authorization hm] at h
        cases h
  unfold protect
  rw [if_pos h]
  simp [hmock]

theorem protect_of_token (auth : AuthEnv) (authorization : Option String) (token : String)
    (htoken : bearerToken authorization = some token) (hne : token ≠ "") :
    protect auth authorization =
      match auth.jwtVerify token with
      | .error _ => .respond (unauthorizedResponse "Not authorized to access this route")
      | .ok decoded =>
          match getProp decoded "id" with
          | .error _ => .respond (unauthorizedResponse "Not authorized to access this route")
          | .ok id =>
              match auth.findUserById id with
              | .error _ =>
                  .respond (unauthorizedResponse "Not authorized to access this route")
              | .ok user =>
                  if !truthy user then .respond (unauthorizedResponse "User not found")
                  else .verifiedNext user := by
  have hmiss : tokenMissing (bearerToken authorization) = false := by
    rw [htoken]
    simp [tokenMissing, hne]
  unfold protect
  rw [hmiss, htoken]
  rfl

theorem tokenMissing_cases (t : Option String) :
    tokenMissing t = true ∨ ∃ token, t = some token ∧ token ≠ "" := by
  cases t with
  | none => left; rfl
  | some token =>
      by_cases h : token = ""
      · left
        simp [tokenMissing, h]
      · right
        exact ⟨token, rfl, h⟩

/-- Claim C29: for every Authorization header, a header that starts with
`Bearer mock-jwt-token` has a non-empty token extracted from it, so `protect` never
hands a request on through its mock-user branch; a request is handed on only with the
user that the User model returns for the `id` of the verified token, every other
outcome is a `401` response, and a header without a token, or with a token that
verification rejects, is answered with `401`. -/
theorem C29_mock_branch_unreachable (auth : AuthEnv) (authorization : Option String) :
    (isMockHeader authorization = true → tokenMissing (bearerToken authorization) = false) ∧
    (∀ user, protect auth authorization ≠ .mockNext user) ∧
    (∀ user, protect auth authorization = .verifiedNext user →
      ∃ token decoded id, bearerToken authorization = some token ∧ token ≠ "" ∧
        auth.jwtVerify token = .ok decoded ∧ getProp decoded "id" = .ok id ∧
        auth.findUserById id = .ok user ∧ truthy user = true) ∧
    (∀ r, protect auth authorization = .respond r → r.status = 401) ∧
    (tokenMissing (bearerToken authorization) = true →
      protect auth authorization
        = .respond (unauthorizedResponse "Not authorized to access this route")) ∧
    (∀ token msg, bearerToken authorization = some token → auth.jwtVerify token = .error msg →
      protect auth authorization
        = .respond (unauthorizedResponse "Not authorized to access this route")) := by
  refine ⟨tokenMissing_of_mock_header authorization, ?_, ?_, ?_,
    protect_of_token_missing auth authorization, ?_⟩
  · intro user h
    rcases tokenMissing_cases (bearerToken authorization) with hm | ⟨token, ht, hne⟩
    · rw [protect_of_token_missing auth authorization hm] at h
      cases h
    · rw [protect_of_token auth authorization token ht hne] at h
      split at h
      · cases h
      · split at h
        · cases h
        · split at h
          · cases h
          · split at h <;> cases h
  · intro user h
    rcases tokenMissing_cases (bearerToken authorization) with hm | ⟨token, ht, hne⟩
    · rw [protect_of_token_missing auth authorization hm] at h
      cases h
    · rw [protect_of_token auth authorization token ht hne] at h
      split at h
      · cases h
      · rename_i decoded hdec
        split at h
        · cases h
        · rename_i id hid
          split at h
          · cases h
          · rename_i user2 huser
            split at h
            · cases h
            · rename_i htr
              cases h
              exact ⟨token, decoded, id, ht, hne, hdec, hid, huser, by simpa using htr⟩
  · intro r h
    rcases tokenMissing_cases (bearerToken authorization) with hm | ⟨token, ht, hne⟩
    · rw [protect_of_token_missing auth authorization hm] at h
      cases h
      rfl
    · rw [protect_of_token auth authorization token ht hne] at h
      split at h
      · cases h; rfl
      · split at h
        · cases h; rfl
        · split at h
          · cases h; rfl
          · split at h
            · cases h; rfl
            · cases h
  · intro token msg ht hv
    rcases tokenMissing_cases (bearerToken authorization) with hm | ⟨token2, ht2, hne⟩
    · exact protect_of_token_missing auth authorization hm
    · rw [ht] at ht2
      cases ht2
      rw [protect_of_token auth authorization token ht hne, hv]

/-- Witness of C29: the header `Bearer mock-jwt-token` yields the token `mock-jwt-token`,
which verification rejects, and the request is answered with `401`; the accepted token
hands the request on with the stored user. -/
theorem C29_mock_branch_unreachable_witness :
    isMockHeader (some "Bearer mock-jwt-token") = true ∧
    bearerToken (some "Bearer mock-jwt-token") = some "mock-jwt-token" ∧
    tokenMissing (bearerToken (some "Bearer mock-jwt-token")) = false ∧
    protect sampleAuth (some "Bearer mock-jwt-token")
      = .respond (unauthorizedResponse "Not authorized to access this route") ∧
    protect sampleAuth (some "Bearer good-token") = .verifiedNext storedUser ∧
    protect sampleAuth none
      = .respond (unauthorizedResponse "Not authorized to access this route") :=
  ⟨rfl, rfl,
    (C29_mock_branch_unreachable sampleAuth (some "Bearer mock-jwt-token")).1 rfl,
    (C29_mock_branch_unreachable sampleAuth (some "Bearer mock-jwt-token")).2.2.2.2.2
      "mock-jwt-token" "jwt malformed" rfl rfl,
    rfl,
    (C29_mock_branch_unreachable sampleAuth none).2.2.2.2.1 rfl⟩

/-! ## Claim C30: the answers of the login handler -/

theorem login_of_missing (auth : AuthEnv) (body : List (String × JsVal))
    (h : truthy (lookupField "email" body) = false ∨
      truthy (lookupField "password" body) = false) :
    login auth body = badRequestResponse "Email and password are required" := by
  unfold login
  rcases h with h | h <;> simp [h]

theorem login_of_present (auth : AuthEnv) (body : List (String × JsVal))
    (he : truthy (lookupField "email" body) = true)
    (hp : truthy (lookupField "password" body) = true) :
    login auth body =
      match auth.findUserByEmail (lookupField "email" body) with
      | .error _ => serverErrorResponse "Server error during login"
      | .ok user =>
          if !truthy user then unauthorizedResponse "Invalid credentials"
          else
            match auth.comparePassword user (lookupField "password" body) with
            | .error _ => serverErrorResponse "Server error during login"
            | .ok isPasswordValid =>
                if !isPasswordValid then unauthorizedResponse "Invalid credentials"
                else
                  match getProp user "_id" with
                  | .error _ => serverErrorResponse "Server error during login"
                  | .ok userId =>
                      match auth.jwtSign userId with
                      | .error _ => serverErrorResponse "Server error during login"
                      | .ok token => loginSuccessResponse token user := by
  unfold login
  simp [he, hp]

theorem login_status_ne_400_of_present (auth : AuthEnv) (body : List (String × JsVal))
    (he : truthy (lookupField "email" body) = true)
    (hp : truthy (lookupField "password" body) = true) :
    (login auth body).status ≠ 400 := by
  rw [login_of_present auth body he hp]
  split
  · decide
  · split
    · decide
    · split
      · decide
      · split
        · decide
        · split
          · decide
          · split
            · decide
            · simp [loginSuccessResponse]

/-- Claim C30: the login handler answers `400` exactly when `email` or `password` is
missing (falsy) in the body; when both are present, a request whose email no user has and
a request whose user exists but whose password comparison answers false get the same
`401` response with success false and the message `Invalid credentials`. -/
theorem C30_login_answers (auth : AuthEnv) (body1 body2 : List (String × JsVal))
    (user : JsVal)
    (he1 : truthy (lookupField "email" body1) = true)
    (hp1 : truthy (lookupField "password" body1) = true)
    (hunknown : auth.findUserByEmail (lookupField "email" body1) = .ok .null)
    (he2 : truthy (lookupField "email" body2) = true)
    (hp2 : truthy (lookupField "password" body2) = true)
    (hknown : auth.findUserByEmail (lookupField "email" body2) = .ok user)
    (huser : truthy user = true)
    (hwrong : auth.comparePassword user (lookupField "password" body2) = .ok false) :
    login auth body1 = unauthorizedResponse "Invalid credentials" ∧
    login auth body2 = unauthorizedResponse "Invalid credentials" ∧
    login auth body1 = login auth body2 ∧
    (login auth body1).status = 401 ∧
    (∀ body, (login auth body).status = 400 ↔
      (truthy (lookupField "email" body) = false ∨
        truthy (lookupField "password" body) = false)) := by
  have h1 : login auth body1 = unauthorizedResponse "Invalid credentials" := by
    rw [login_of_present auth body1 he1 hp1, hunknown]
    rfl
  have h2 : login auth body2 = unauthorizedResponse "Invalid credentials" := by
    rw [login_of_present auth body2 he2 hp2, hknown]
    simp [huser, hwrong]
  refine ⟨h1, h2, h1.trans h2.symm, by rw [h1]; rfl, ?_⟩
  intro body
  constructor
  · intro h400
    by_contra hcon
    simp only [not_or, Bool.not_eq_false] at hcon
    exact login_status_ne_400_of_present auth body hcon.1 hcon.2 h400
  · intro h
    rw [login_of_missing auth body h]
    rfl

/-- Witness of C30: an unknown email and the known email with a wrong password get the same
`401` response, and a body without password gets `400`. -/
theorem C30_login_answers_witness :
    login sampleAuth [("email", .str "bob@example.org"), ("password", .str "secret")]
      = unauthorizedResponse "Invalid credentials" ∧
    login sampleAuth [("email", .str "ann@example.org"), ("password", .str "guess")]
      = unauthorizedResponse "Invalid credentials" ∧
    (login sampleAuth [("email", .str "ann@example.org"), ("password", .str "secret")]).status
      = 200 ∧
    ((login sampleAuth [("email", .str "ann@example.org")]).status = 400 ↔
      (truthy (lookupField "email" [("email", .str "ann@example.org")]) = false ∨
        truthy (lookupField "password" [("email", .str "ann@example.org")]) = false)) :=
  ⟨(C30_login_answers sampleAuth
      [("email", .str "bob@example.org"), ("password", .str "secret")]
      [("email", .str "ann@example.org"), ("password", .str "guess")]
      storedUser rfl rfl rfl rfl rfl rfl rfl rfl).1,
    (C30_login_answers sampleAuth
      [("email", .str "bob@example.org"), ("password", .str "secret")]
      [("email", .str "ann@example.org"), ("password", .str "guess")]
      storedUser rfl rfl rfl rfl rfl rfl rfl rfl).2.1,
    rfl,
    (C30_login_answers sampleAuth
      [("email", .str "bob@example.org"), ("password", .str "secret")]
      [("email", .str "ann@example.org"), ("password", .str "guess")]
      storedUser rfl rfl rfl rfl rfl rfl rfl rfl).2.2.2.2 [("email", .str "ann@example.org")]⟩

end Medhira
